import Mathlib

/-!
Transactional consistency of the produce-trading backend.

A shallow embedding of the mutating controllers of the backend
(`src/controllers/procurementController.js`, `salesController.js`,
`stockController.js`, `creditController.js`) over an explicit relational
store, followed by theorems about stock, sales and credit records.

Modelling conventions.

* A table is a list of rows in insertion order.  A SQL `UPDATE ... WHERE c`
  is a `List.map` that rewrites the rows satisfying `c`; a `DELETE ... WHERE c`
  is a `List.filter` keeping the rows that do not satisfy `c`; a `SELECT ...
  WHERE c` is a `List.filter`, and `rows[0]` is the head of that list.
* Decimal quantities (tonnage, stock, money) are exact rationals.  The
  doubles in which `updateCreditPayment` adds and compares are carried by
  `updateCreditPaymentFloat`.
* A controller runs alone, from `beginTransaction` to `commit`; a `rollback`
  gives back the store the call started from.  The controllers named after
  the source take a body whose bound keys are all present and statements that
  succeed; a statement that throws (the `catch` branch, status 500) is in the
  `Plan` section, a body with missing keys in `createSaleRequest` and
  `createProcurementRequest`, and two requests at the same time in `race`.
* `insertId` is the table's AUTO_INCREMENT counter, kept in the store.
* `role`, `payment_type` and `payment_status` are the strings of the source.
-/

namespace Backend

/-! ## Data model -/

/-- The identity attached to a request by `authenticate` (`req.user`):
a row of `users`; `branch_id` may be NULL. -/
structure User where
  user_id : Nat
  role : String
  branch_id : Option Nat
deriving DecidableEq, Repr

/-- A row of table `produce`. -/
structure Produce where
  produce_id : Nat
  name : String
  type : String
  branch_id : Nat
  current_stock : ℚ
deriving DecidableEq, Repr

/-- A row of table `procurement`. -/
structure Procurement where
  procurement_id : Nat
  produce_id : Nat
  dealer_name : String
  dealer_contact : String
  dealer_type : String
  tonnage : ℚ
  cost_per_ton : ℚ
  total_cost : ℚ
  selling_price_per_ton : ℚ
  branch_id : Nat
  recorded_by : Nat
deriving DecidableEq, Repr

/-- A row of table `sales`. -/
structure Sale where
  sale_id : Nat
  produce_id : Nat
  buyer_name : String
  buyer_contact : String
  tonnage : ℚ
  amount_paid : ℚ
  sales_agent_id : Nat
  branch_id : Nat
  payment_type : String
deriving DecidableEq, Repr

/-- A row of table `credit_sales`. -/
structure CreditSale where
  credit_id : Nat
  sale_id : Nat
  buyer_national_id : Option String
  buyer_location : Option String
  amount_due : ℚ
  amount_paid : ℚ
  due_date : Option String
  payment_status : String
deriving DecidableEq, Repr

/-- The relational store: the four tables the controllers write, and the
AUTO_INCREMENT counter of each (the next `insertId`). -/
structure Store where
  produce : List Produce
  procurement : List Procurement
  sales : List Sale
  credit_sales : List CreditSale
  next_produce_id : Nat
  next_procurement_id : Nat
  next_sale_id : Nat
  next_credit_id : Nat
deriving DecidableEq, Repr

/-- What a controller sends back: `res.status(code).json(message ...)`. -/
structure Response where
  status : Nat
  message : String
deriving DecidableEq, Repr

/-- Modelled from the spec: the schema of `credit_sales` is not among the
sources; `createSale` inserts no `amount_paid`, and the spec (4.4, step 6)
says a new credit record has `amount_paid = 0`, so that is the column default. -/
def credit_sales_amount_paid_default : ℚ := 0

/-! ## Request bodies -/

/-- The fields `createProcurement` reads from `req.body`, all of them present
(`ProcurementRequest` is the body with `dealer_contact`, which no validator
requires, possibly missing). -/
structure ProcurementBody where
  produce_id : Nat
  dealer_name : String
  dealer_contact : String
  dealer_type : String
  tonnage : ℚ
  cost_per_ton : ℚ
  total_cost : ℚ
  selling_price_per_ton : ℚ
  branch_id : Nat
deriving DecidableEq, Repr

/-- The `allowedFields` of `updateProcurement`; `none` is `undefined`. -/
structure ProcurementUpdate where
  dealer_name : Option String
  dealer_contact : Option String
  dealer_type : Option String
  tonnage : Option ℚ
  cost_per_ton : Option ℚ
  total_cost : Option ℚ
  selling_price_per_ton : Option ℚ
deriving DecidableEq, Repr

/-- The fields `createSale` reads from `req.body`; `amount_due` is tested
for truthiness, so it is optional here.  Every key bound to a statement is
present, `none` in a credit text being `null` (`SaleRequest` is the body with
`buyer_contact` and the credit keys possibly missing). -/
structure SaleBody where
  produce_id : Nat
  buyer_name : String
  buyer_contact : String
  tonnage : ℚ
  amount_paid : ℚ
  payment_type : String
  branch_id : Nat
  buyer_national_id : Option String
  buyer_location : Option String
  amount_due : Option ℚ
  due_date : Option String
deriving DecidableEq, Repr

/-- The `allowedFields` of `updateSale`; `none` is `undefined`. -/
structure SaleUpdate where
  buyer_name : Option String
  buyer_contact : Option String
  tonnage : Option ℚ
  amount_paid : Option ℚ
deriving DecidableEq, Repr

/-- The fields `createStock` reads from `req.body`. -/
structure StockBody where
  name : String
  type : String
  branch_id : Nat
  current_stock : Option ℚ
deriving DecidableEq, Repr

/-- The fields `updateStock` reads from `req.body`; `none` is `undefined`. -/
structure StockUpdate where
  name : Option String
  type : Option String
  current_stock : Option ℚ
deriving DecidableEq, Repr

/-! ## Shared statements -/

/-- The guard `req.user.role !== 'CEO' && req.user.branch_id !== branch_id`,
used by every controller against the body's or the fetched row's branch. -/
def branchDenied (user : User) (branch_id : Nat) : Bool :=
  decide (user.role ≠ "CEO") && decide (user.branch_id ≠ some branch_id)

/-- JavaScript truthiness of an optional number: present and not zero. -/
def truthy (x : Option ℚ) : Bool :=
  match x with
  | none => false
  | some v => decide (v ≠ 0)

/-- The statement `UPDATE produce SET current_stock = current_stock + ?
WHERE produce_id = ? AND branch_id = ?`. -/
def addStock (rows : List Produce) (amount : ℚ) (produce_id branch_id : Nat) : List Produce :=
  rows.map fun p =>
    if p.produce_id = produce_id ∧ p.branch_id = branch_id then
      { p with current_stock := p.current_stock + amount }
    else p

/-- The statement `UPDATE produce SET current_stock = current_stock - ?
WHERE produce_id = ? AND branch_id = ?`. -/
def subStock (rows : List Produce) (amount : ℚ) (produce_id branch_id : Nat) : List Produce :=
  rows.map fun p =>
    if p.produce_id = produce_id ∧ p.branch_id = branch_id then
      { p with current_stock := p.current_stock - amount }
    else p

/-! ## procurementController.js -/

/-- The row `createProcurement` inserts. -/
def newProcurement (s : Store) (user : User) (body : ProcurementBody) : Procurement :=
  { procurement_id := s.next_procurement_id
    produce_id := body.produce_id
    dealer_name := body.dealer_name
    dealer_contact := body.dealer_contact
    dealer_type := body.dealer_type
    tonnage := body.tonnage
    cost_per_ton := body.cost_per_ton
    total_cost := body.total_cost
    selling_price_per_ton := body.selling_price_per_ton
    branch_id := body.branch_id
    recorded_by := user.user_id }

/-- The controller `createProcurement`: branch check, INSERT, stock credit,
commit, on a body with every bound key present and statements that succeed. -/
def createProcurement (s : Store) (user : User) (body : ProcurementBody) : Response × Store :=
  if branchDenied user body.branch_id then
    (⟨403, "Access denied to this branch"⟩, s)
  else
    (⟨201, "Procurement recorded successfully"⟩,
      { s with
        procurement := s.procurement ++ [newProcurement s user body]
        next_procurement_id := s.next_procurement_id + 1
        produce := addStock s.produce body.tonnage body.produce_id body.branch_id })

/-- The SET clause built by `updateProcurement` from the supplied fields. -/
def applyProcurementUpdate (u : ProcurementUpdate) (r : Procurement) : Procurement :=
  { r with
    dealer_name := u.dealer_name.getD r.dealer_name
    dealer_contact := u.dealer_contact.getD r.dealer_contact
    dealer_type := u.dealer_type.getD r.dealer_type
    tonnage := u.tonnage.getD r.tonnage
    cost_per_ton := u.cost_per_ton.getD r.cost_per_ton
    total_cost := u.total_cost.getD r.total_cost
    selling_price_per_ton := u.selling_price_per_ton.getD r.selling_price_per_ton }

/-- The test `updates.length === 0` of `updateProcurement`. -/
def ProcurementUpdate.isEmpty (u : ProcurementUpdate) : Bool :=
  u.dealer_name.isNone && u.dealer_contact.isNone && u.dealer_type.isNone &&
  u.tonnage.isNone && u.cost_per_ton.isNone && u.total_cost.isNone &&
  u.selling_price_per_ton.isNone

/-- The controller `updateProcurement`. -/
def updateProcurement (s : Store) (user : User) (id : Nat) (updateFields : ProcurementUpdate) :
    Response × Store :=
  match s.procurement.filter (fun r => r.procurement_id = id) with
  | [] => (⟨404, "Procurement not found"⟩, s)
  | existing :: _ =>
    if branchDenied user existing.branch_id then
      (⟨403, "Access denied"⟩, s)
    else if updateFields.isEmpty then
      (⟨400, "No valid fields to update"⟩, s)
    else
      let procurement := s.procurement.map fun r =>
        if r.procurement_id = id then applyProcurementUpdate updateFields r else r
      let produce :=
        match updateFields.tonnage with
        | some tonnage =>
          addStock s.produce (tonnage - existing.tonnage) existing.produce_id existing.branch_id
        | none => s.produce
      (⟨200, "Procurement updated successfully"⟩,
        { s with procurement := procurement, produce := produce })

/-- The controller `deleteProcurement`. -/
def deleteProcurement (s : Store) (user : User) (id : Nat) : Response × Store :=
  match s.procurement.filter (fun r => r.procurement_id = id) with
  | [] => (⟨404, "Procurement not found"⟩, s)
  | existing :: _ =>
    if branchDenied user existing.branch_id then
      (⟨403, "Access denied"⟩, s)
    else
      (⟨200, "Procurement deleted successfully"⟩,
        { s with
          produce := subStock s.produce existing.tonnage existing.produce_id existing.branch_id
          procurement := s.procurement.filter (fun r => ¬ r.procurement_id = id) })

/-! ## salesController.js -/

/-- The row `createSale` inserts into `sales`. -/
def newSale (s : Store) (user : User) (body : SaleBody) : Sale :=
  { sale_id := s.next_sale_id
    produce_id := body.produce_id
    buyer_name := body.buyer_name
    buyer_contact := body.buyer_contact
    tonnage := body.tonnage
    amount_paid := body.amount_paid
    sales_agent_id := user.user_id
    branch_id := body.branch_id
    payment_type := body.payment_type }

/-- The row `createSale` inserts into `credit_sales` for a credit sale. -/
def newCredit (s : Store) (body : SaleBody) (amount_due : ℚ) : CreditSale :=
  { credit_id := s.next_credit_id
    sale_id := s.next_sale_id
    buyer_national_id := body.buyer_national_id
    buyer_location := body.buyer_location
    amount_due := amount_due
    amount_paid := credit_sales_amount_paid_default
    due_date := body.due_date
    payment_status := "pending" }

/-- The controller `createSale`: branch check, stock read, sufficiency check,
INSERT, stock debit, optional credit record, commit, on a body with every
bound key present and statements that succeed. -/
def createSale (s : Store) (user : User) (body : SaleBody) : Response × Store :=
  if branchDenied user body.branch_id then
    (⟨403, "Access denied to this branch"⟩, s)
  else
    match s.produce.filter
        (fun p => p.produce_id = body.produce_id ∧ p.branch_id = body.branch_id) with
    | [] => (⟨404, "Produce not found in this branch"⟩, s)
    | produce0 :: _ =>
      if produce0.current_stock < body.tonnage then
        (⟨400, "Insufficient stock"⟩, s)
      else
        let s1 : Store :=
          { s with
            sales := s.sales ++ [newSale s user body]
            next_sale_id := s.next_sale_id + 1
            produce := subStock s.produce body.tonnage body.produce_id body.branch_id }
        let s2 : Store :=
          if body.payment_type = "credit" ∧ truthy body.amount_due = true then
            { s1 with
              credit_sales := s1.credit_sales ++ [newCredit s body (body.amount_due.getD 0)]
              next_credit_id := s1.next_credit_id + 1 }
          else s1
        (⟨201, "Sale recorded successfully"⟩, s2)

/-- The SET clause built by `updateSale` from the supplied fields. -/
def applySaleUpdate (u : SaleUpdate) (r : Sale) : Sale :=
  { r with
    buyer_name := u.buyer_name.getD r.buyer_name
    buyer_contact := u.buyer_contact.getD r.buyer_contact
    tonnage := u.tonnage.getD r.tonnage
    amount_paid := u.amount_paid.getD r.amount_paid }

/-- The test `updates.length === 0` of `updateSale`. -/
def SaleUpdate.isEmpty (u : SaleUpdate) : Bool :=
  u.buyer_name.isNone && u.buyer_contact.isNone && u.tonnage.isNone && u.amount_paid.isNone

/-- The controller `updateSale`: it writes table `sales` only. -/
def updateSale (s : Store) (user : User) (id : Nat) (updateFields : SaleUpdate) :
    Response × Store :=
  match s.sales.filter (fun r => r.sale_id = id) with
  | [] => (⟨404, "Sale not found"⟩, s)
  | existing :: _ =>
    if branchDenied user existing.branch_id then
      (⟨403, "Access denied"⟩, s)
    else if updateFields.isEmpty then
      (⟨400, "No valid fields to update"⟩, s)
    else
      (⟨200, "Sale updated successfully"⟩,
        { s with
          sales := s.sales.map fun r =>
            if r.sale_id = id then applySaleUpdate updateFields r else r })

/-- The controller `deleteSale`: stock restore, credit delete, sale delete. -/
def deleteSale (s : Store) (user : User) (id : Nat) : Response × Store :=
  match s.sales.filter (fun r => r.sale_id = id) with
  | [] => (⟨404, "Sale not found"⟩, s)
  | existing :: _ =>
    if branchDenied user existing.branch_id then
      (⟨403, "Access denied"⟩, s)
    else
      (⟨200, "Sale deleted successfully"⟩,
        { s with
          produce := addStock s.produce existing.tonnage existing.produce_id existing.branch_id
          credit_sales := s.credit_sales.filter (fun c => ¬ c.sale_id = id)
          sales := s.sales.filter (fun r => ¬ r.sale_id = id) })

/-! ## stockController.js -/

/-- The controller `createStock`; `current_stock || 0` is the inserted quantity. -/
def createStock (s : Store) (user : User) (body : StockBody) : Response × Store :=
  if branchDenied user body.branch_id then
    (⟨403, "Access denied to this branch"⟩, s)
  else
    match s.produce.filter (fun p => p.name = body.name ∧ p.branch_id = body.branch_id) with
    | _ :: _ => (⟨400, "This produce already exists in this branch"⟩, s)
    | [] =>
      (⟨201, "Stock created successfully"⟩,
        { s with
          produce := s.produce ++
            [{ produce_id := s.next_produce_id
               name := body.name
               type := body.type
               branch_id := body.branch_id
               current_stock := if truthy body.current_stock then body.current_stock.getD 0 else 0 }]
          next_produce_id := s.next_produce_id + 1 })

/-- The SET clause built by `updateStock` from the supplied fields. -/
def applyStockUpdate (u : StockUpdate) (p : Produce) : Produce :=
  { p with
    name := u.name.getD p.name
    type := u.type.getD p.type
    current_stock := u.current_stock.getD p.current_stock }

/-- The controller `updateStock`. -/
def updateStock (s : Store) (user : User) (id : Nat) (body : StockUpdate) : Response × Store :=
  match s.produce.filter (fun p => p.produce_id = id) with
  | [] => (⟨404, "Stock not found"⟩, s)
  | existing :: _ =>
    if branchDenied user existing.branch_id then
      (⟨403, "Access denied"⟩, s)
    else if body.name.isNone && body.type.isNone && body.current_stock.isNone then
      (⟨400, "No valid fields to update"⟩, s)
    else
      (⟨200, "Stock updated successfully"⟩,
        { s with
          produce := s.produce.map fun p =>
            if p.produce_id = id then applyStockUpdate body p else p })

/-- The controller `deleteStock`. -/
def deleteStock (s : Store) (user : User) (id : Nat) : Response × Store :=
  match s.produce.filter (fun p => p.produce_id = id) with
  | [] => (⟨404, "Stock not found"⟩, s)
  | existing :: _ =>
    if branchDenied user existing.branch_id then
      (⟨403, "Access denied"⟩, s)
    else if 0 < existing.current_stock then
      (⟨400, "Cannot delete stock with remaining inventory"⟩, s)
    else
      (⟨200, "Stock deleted successfully"⟩,
        { s with produce := s.produce.filter (fun p => ¬ p.produce_id = id) })

/-! ## creditController.js -/

/-- The query `SELECT cs.*, s.branch_id FROM credit_sales cs JOIN sales s ON
cs.sale_id = s.sale_id WHERE cs.credit_id = ?`: each matching credit row
paired with the branch of each sale it joins. -/
def selectCreditWithBranch (s : Store) (id : Nat) : List (CreditSale × Nat) :=
  (s.credit_sales.filter (fun c => c.credit_id = id)).flatMap fun c =>
    (s.sales.filter (fun r => r.sale_id = c.sale_id)).map fun r => (c, r.branch_id)

/-- The controller `updateCreditPayment` with exact decimals for its sum and
its comparison; `amount_paid` is the payment of the request body, a number
(`none` when absent).  `updateCreditPaymentFloat` keeps the doubles of the
source and the amounts that are texts. -/
def updateCreditPayment (s : Store) (user : User) (id : Nat) (amount_paid : Option ℚ) :
    Response × Store :=
  if truthy amount_paid = false ∨ amount_paid.getD 0 ≤ 0 then
    (⟨400, "Valid payment amount is required"⟩, s)
  else
    match selectCreditWithBranch s id with
    | [] => (⟨404, "Credit record not found"⟩, s)
    | (credit, branch_id) :: _ =>
      if branchDenied user branch_id then
        (⟨403, "Access denied"⟩, s)
      else
        let newAmountPaid := credit.amount_paid + amount_paid.getD 0
        let paymentStatus := if newAmountPaid ≥ credit.amount_due then "paid" else "partial"
        (⟨200, "Payment recorded successfully"⟩,
          { s with
            credit_sales := s.credit_sales.map fun c =>
              if c.credit_id = id then
                { c with amount_paid := newAmountPaid, payment_status := paymentStatus }
              else c })

/-! ## Read operations by id -/

/-- The tables `users` and `branches`, which the read queries join and no
controller of this development writes, reduced to their keys. -/
structure Directory where
  user_ids : List Nat
  branch_ids : List Nat
deriving DecidableEq, Repr

/-- The clause `JOIN t ON row.k = t.key`, keeping the columns of `row`: one
copy of the row for each matching key of `t`. -/
def joinKey {α : Type} (rows : List α) (keys : List Nat) (k : α → Nat) : List α :=
  rows.flatMap fun r => (keys.filter (fun key => key = k r)).map fun _ => r

/-- The FROM clause of the procurement reads: `procurement p JOIN produce pr
JOIN users u ON p.recorded_by JOIN branches b`. -/
def procurementJoined (d : Directory) (s : Store) : List Procurement :=
  joinKey
    (joinKey
      (joinKey s.procurement (s.produce.map fun pr => pr.produce_id) fun p => p.produce_id)
      d.user_ids fun p => p.recorded_by)
    d.branch_ids fun p => p.branch_id

/-- The FROM clause of the sales reads: `sales s JOIN produce pr JOIN users u
ON s.sales_agent_id JOIN branches b`. -/
def salesJoined (d : Directory) (s : Store) : List Sale :=
  joinKey
    (joinKey
      (joinKey s.sales (s.produce.map fun pr => pr.produce_id) fun r => r.produce_id)
      d.user_ids fun r => r.sales_agent_id)
    d.branch_ids fun r => r.branch_id

/-- The FROM clause of the stock reads: `produce p JOIN branches b`. -/
def produceJoined (d : Directory) (s : Store) : List Produce :=
  joinKey s.produce d.branch_ids fun p => p.branch_id

/-- The FROM clause of the credit reads: `credit_sales cs JOIN sales s JOIN
produce pr JOIN branches b JOIN users u`; each credit row comes with the sale
row it joins. -/
def creditJoined (d : Directory) (s : Store) : List (CreditSale × Sale) :=
  s.credit_sales.flatMap fun c =>
    ((salesJoined d s).filter fun r => r.sale_id = c.sale_id).map fun r => (c, r)

/-- The controller `getProcurementById`; a successful read sends the row with
no message. -/
def getProcurementById (d : Directory) (s : Store) (user : User) (id : Nat) : Response :=
  match (procurementJoined d s).filter (fun p => p.procurement_id = id) with
  | [] => ⟨404, "Procurement not found"⟩
  | row :: _ =>
    if branchDenied user row.branch_id then ⟨403, "Access denied"⟩
    else ⟨200, ""⟩

/-- The controller `getSaleById`; a successful read sends the row (with its
credit record for a credit sale) and no message. -/
def getSaleById (d : Directory) (s : Store) (user : User) (id : Nat) : Response :=
  match (salesJoined d s).filter (fun r => r.sale_id = id) with
  | [] => ⟨404, "Sale not found"⟩
  | row :: _ =>
    if branchDenied user row.branch_id then ⟨403, "Access denied"⟩
    else ⟨200, ""⟩

/-- The controller `getStockById`. -/
def getStockById (d : Directory) (s : Store) (user : User) (id : Nat) : Response :=
  match (produceJoined d s).filter (fun p => p.produce_id = id) with
  | [] => ⟨404, "Stock not found"⟩
  | row :: _ =>
    if branchDenied user row.branch_id then ⟨403, "Access denied"⟩
    else ⟨200, ""⟩

/-- The controller `getCreditById`.  Its SELECT list is `cs.*` and named
columns of the joined tables, none of them `branch_id`, so the value
`credits[0].branch_id` of the access check is `undefined`, and
`undefined !== req.user.branch_id` holds for every user row (a number or
NULL): the check denies exactly the users whose role is not CEO. -/
def getCreditById (d : Directory) (s : Store) (user : User) (id : Nat) : Response :=
  match (creditJoined d s).filter (fun cr => cr.1.credit_id = id) with
  | [] => ⟨404, "Credit record not found"⟩
  | _ :: _ =>
    if decide (user.role ≠ "CEO") && true then ⟨403, "Access denied"⟩
    else ⟨200, ""⟩

/-! ## List operations -/

/-- The branch clause shared by the list controllers:
`if (req.user.role !== 'CEO') push(req.user.branch_id) else if
(req.query.branch_id) push(req.query.branch_id)`.  The result is the bound
parameter of `AND branch_id = ?` (`some none` is NULL), or `none` when no
clause is added.  `query_branch_id` is the query-string value: `none` when it
is absent or empty. -/
def branchScope (user : User) (query_branch_id : Option Nat) : Option (Option Nat) :=
  if user.role ≠ "CEO" then some user.branch_id
  else
    match query_branch_id with
    | some b => some (some b)
    | none => none

/-- Whether a row of branch `branch_id` passes the clause `AND branch_id = ?`
with the parameter of `branchScope`; comparing with NULL admits no row. -/
def scopeAdmits (scope : Option (Option Nat)) (branch_id : Nat) : Bool :=
  match scope with
  | none => true
  | some param => decide (param = some branch_id)

/-- An optional clause `AND column = ?` on a text column, added when the
query-string value is present and not empty. -/
def textClause (value : Option String) (column : String) : Bool :=
  match value with
  | none => true
  | some v => if v = "" then true else decide (column = v)

/-- The rows `getAllStock` ranges over before its branch clause: the FROM
clause and the optional clause on `type`. -/
def stockRows (d : Directory) (s : Store) (type : Option String) : List Produce :=
  (produceJoined d s).filter fun p => textClause type p.type

/-- The controller `getAllStock` (row order, ORDER BY, is not modelled). -/
def getAllStock (d : Directory) (s : Store) (user : User) (query_branch_id : Option Nat)
    (type : Option String) : List Produce :=
  (stockRows d s type).filter fun p => scopeAdmits (branchScope user query_branch_id) p.branch_id

/-- The rows `getLowStockAlerts` ranges over before its branch clause;
`threshold` is `parseFloat(req.query.threshold) || 10`. -/
def lowStockRows (d : Directory) (s : Store) (threshold : Option ℚ) : List Produce :=
  (produceJoined d s).filter fun p =>
    decide (p.current_stock ≤ if truthy threshold then threshold.getD 10 else 10)

/-- The controller `getLowStockAlerts` (row order is not modelled). -/
def getLowStockAlerts (d : Directory) (s : Store) (user : User) (query_branch_id : Option Nat)
    (threshold : Option ℚ) : List Produce :=
  (lowStockRows d s threshold).filter fun p =>
    scopeAdmits (branchScope user query_branch_id) p.branch_id

/-- The rows `getAllSales` ranges over before its branch clause.  The rows of
the model carry no `created_at`: `dates` stands for the clauses on it built
from `start_date` and `end_date`. -/
def saleRows (d : Directory) (s : Store) (dates : Sale → Bool) (payment_type : Option String) :
    List Sale :=
  (salesJoined d s).filter fun r => dates r && textClause payment_type r.payment_type

/-- The controller `getAllSales` (row order is not modelled). -/
def getAllSales (d : Directory) (s : Store) (user : User) (query_branch_id : Option Nat)
    (dates : Sale → Bool) (payment_type : Option String) : List Sale :=
  (saleRows d s dates payment_type).filter fun r =>
    scopeAdmits (branchScope user query_branch_id) r.branch_id

/-- The rows `getAllProcurements` ranges over before its branch clause;
`dates` stands for the clauses on `created_at`. -/
def procurementRows (d : Directory) (s : Store) (dates : Procurement → Bool) :
    List Procurement :=
  (procurementJoined d s).filter fun p => dates p

/-- The controller `getAllProcurements` (row order is not modelled). -/
def getAllProcurements (d : Directory) (s : Store) (user : User)
    (query_branch_id : Option Nat) (dates : Procurement → Bool) : List Procurement :=
  (procurementRows d s dates).filter fun p =>
    scopeAdmits (branchScope user query_branch_id) p.branch_id

/-- The rows `getAllCredits` ranges over before its branch clause; `overdue`
stands for the clause `due_date < CURDATE() AND payment_status != "paid"`,
added when `req.query.overdue === 'true'`. -/
def creditRows (d : Directory) (s : Store) (payment_status : Option String)
    (overdue : CreditSale → Bool) : List (CreditSale × Sale) :=
  (creditJoined d s).filter fun cr => textClause payment_status cr.1.payment_status && overdue cr.1

/-- The controller `getAllCredits`: the branch clause is on `s.branch_id`, the
branch of the joined sale (row order is not modelled). -/
def getAllCredits (d : Directory) (s : Store) (user : User) (query_branch_id : Option Nat)
    (payment_status : Option String) (overdue : CreditSale → Bool) : List (CreditSale × Sale) :=
  (creditRows d s payment_status overdue).filter fun cr =>
    scopeAdmits (branchScope user query_branch_id) cr.2.branch_id

/-- The columns of `sales` that the statements of the controllers name (the
INSERT of `createSale`). -/
def sales_columns : List String :=
  ["sale_id", "produce_id", "buyer_name", "buyer_contact", "tonnage", "amount_paid",
    "sales_agent_id", "branch_id", "payment_type"]

/-- The columns of `credit_sales` that the statements of the controllers name
(the INSERT of `createSale`, the UPDATE of `updateCreditPayment`). -/
def credit_sales_columns : List String :=
  ["credit_id", "sale_id", "buyer_national_id", "buyer_location", "amount_due", "amount_paid",
    "due_date", "payment_status"]

/-- Whether a column name written without a table alias resolves in
`credit_sales cs JOIN sales s`: exactly one of the two tables has it.  A name
that both tables have is ambiguous, and the store rejects the statement. -/
def resolves (column : String) : Bool :=
  decide (([credit_sales_columns, sales_columns].filter fun t => decide (column ∈ t)).length = 1)

/-- The aggregates of `getCreditStats` that do not read the clock (all but
`overdue_count`). -/
structure CreditStats where
  total_credits : Nat
  total_amount_due : ℚ
  total_amount_paid : ℚ
  total_outstanding : ℚ
  pending_count : Nat
  partial_count : Nat
  paid_count : Nat
deriving DecidableEq, Repr

/-- The controller `getCreditStats`.  Its SELECT list names `amount_due`,
`amount_paid`, `payment_status` and `due_date` without a table alias over
`credit_sales cs JOIN sales s`.  A statement the store rejects makes
`pool.execute` throw, and `catch` answers 500 with no statistics.  A statement
the store accepts sends the aggregates of the joined rows that pass the branch
clause on `s.branch_id`, built as in the other list controllers. -/
def getCreditStats (s : Store) (user : User) (query_branch_id : Option Nat) :
    Response × Option CreditStats :=
  if ["amount_due", "amount_paid", "payment_status", "due_date"].all resolves then
    let joined : List (CreditSale × Sale) := s.credit_sales.flatMap fun c =>
      (s.sales.filter fun r => r.sale_id = c.sale_id).map fun r => (c, r)
    let rows := (joined.filter fun cr : CreditSale × Sale =>
      scopeAdmits (branchScope user query_branch_id) cr.2.branch_id).map
        fun cr : CreditSale × Sale => cr.1
    (⟨200, ""⟩,
      some
        { total_credits := rows.length
          total_amount_due := (rows.map fun c => c.amount_due).sum
          total_amount_paid := (rows.map fun c => c.amount_paid).sum
          total_outstanding := (rows.map fun c => c.amount_due - c.amount_paid).sum
          pending_count := (rows.filter fun c => c.payment_status = "pending").length
          partial_count := (rows.filter fun c => c.payment_status = "partial").length
          paid_count := (rows.filter fun c => c.payment_status = "paid").length })
  else (⟨500, "Server error"⟩, none)

/-! ## Key constraints of the store -/

/-- The primary key of `produce`: no two rows share a `produce_id`. -/
def ProduceKeyed (s : Store) : Prop :=
  (s.produce.map (fun p => p.produce_id)).Nodup

/-- The primary key of `procurement`: no two rows share a `procurement_id`. -/
def ProcurementKeyed (s : Store) : Prop :=
  (s.procurement.map (fun r => r.procurement_id)).Nodup

/-- The primary key of `sales`: no two rows share a `sale_id`. -/
def SalesKeyed (s : Store) : Prop :=
  (s.sales.map (fun r => r.sale_id)).Nodup

/-- The primary key of `credit_sales`: no two rows share a `credit_id`. -/
def CreditKeyed (s : Store) : Prop :=
  (s.credit_sales.map (fun c => c.credit_id)).Nodup

/-- AUTO_INCREMENT of `procurement`: every stored id is below the next `insertId`. -/
def ProcurementFresh (s : Store) : Prop :=
  ∀ r ∈ s.procurement, r.procurement_id < s.next_procurement_id

/-- AUTO_INCREMENT of `sales`, with the reference of `credit_sales.sale_id`:
every sale id stored in either table is below the next `insertId`. -/
def SalesFresh (s : Store) : Prop :=
  (∀ r ∈ s.sales, r.sale_id < s.next_sale_id) ∧
  (∀ c ∈ s.credit_sales, c.sale_id < s.next_sale_id)

/-! ## The stock ledger of the specification -/

/-- Sum of `tonnage` over the procurement rows of a (produce_id, branch_id). -/
def procuredTonnage (s : Store) (produce_id branch_id : Nat) : ℚ :=
  ((s.procurement.filter
    (fun r => r.produce_id = produce_id ∧ r.branch_id = branch_id)).map
      (fun r => r.tonnage)).sum

/-- Sum of `tonnage` over the sale rows of a (produce_id, branch_id). -/
def soldTonnage (s : Store) (produce_id branch_id : Nat) : ℚ :=
  ((s.sales.filter
    (fun r => r.produce_id = produce_id ∧ r.branch_id = branch_id)).map
      (fun r => r.tonnage)).sum

/-- Invariant I2 of the specification, read on a state: every produce row
holds what was procured for it minus what was sold from it. -/
def LedgerConsistent (s : Store) : Prop :=
  ∀ p ∈ s.produce,
    p.current_stock =
      procuredTonnage s p.produce_id p.branch_id - soldTonnage s p.produce_id p.branch_id

/-- Invariant I1 of the specification, read on a state. -/
def StockNonneg (s : Store) : Prop :=
  ∀ p ∈ s.produce, 0 ≤ p.current_stock

/-! ## Sample data -/

/-- A chief executive: no home branch. -/
def ceo : User := ⟨1, "CEO", none⟩

/-- A manager of branch 1. -/
def manager : User := ⟨2, "Manager", some 1⟩

/-- A store after one procurement of 100 tons of maize and one credit sale of
30 tons in branch 1; beans are held in branch 2. -/
def sampleStore : Store :=
  { produce := [⟨1, "Maize", "grain", 1, 70⟩, ⟨2, "Beans", "legume", 2, 40⟩]
    procurement := [⟨1, 1, "Okello", "0700", "farm", 100, 10, 1000, 12, 1, 2⟩]
    sales := [⟨1, 1, "Amina", "0701", 30, 0, 2, 1, "credit"⟩]
    credit_sales := [⟨1, 1, some "CM1", some "Kampala", 4000, 0, some "2026-12-31", "pending"⟩]
    next_produce_id := 3
    next_procurement_id := 2
    next_sale_id := 2
    next_credit_id := 2 }

/-- The maize row of `sampleStore`. -/
def maizeRow : Produce := ⟨1, "Maize", "grain", 1, 70⟩

/-- The procurement row of `sampleStore`. -/
def okelloRow : Procurement := ⟨1, 1, "Okello", "0700", "farm", 100, 10, 1000, 12, 1, 2⟩

/-- The sale row of `sampleStore`. -/
def aminaRow : Sale := ⟨1, 1, "Amina", "0701", 30, 0, 2, 1, "credit"⟩

/-- The credit row of `sampleStore`. -/
def aminaCredit : CreditSale :=
  ⟨1, 1, some "CM1", some "Kampala", 4000, 0, some "2026-12-31", "pending"⟩

/-- A sale request for 80 tons of maize in branch 1: more than the 70 in stock. -/
def sale80 : SaleBody := ⟨1, "Birungi", "0702", 80, 800, "cash", 1, none, none, none, none⟩

/-- A cash sale request for 30 tons of maize in branch 1. -/
def sale30 : SaleBody := ⟨1, "Birungi", "0702", 30, 300, "cash", 1, none, none, none, none⟩

/-- A credit sale request for 40 tons of maize in branch 1. -/
def sale40credit : SaleBody :=
  ⟨1, "Birungi", "0702", 40, 0, "credit", 1, some "CM2", some "Jinja", some 4000,
    some "2027-01-31"⟩

/-- A procurement request for 50 tons of maize in branch 1. -/
def procure50 : ProcurementBody := ⟨1, "Okello", "0700", "farm", 50, 10, 500, 12, 1⟩

/-- An update that sets only the tonnage, to 60. -/
def tonnage60 : ProcurementUpdate := ⟨none, none, none, some 60, none, none, none⟩

/-- An empty store with one maize row of stock 0 in branch 1. -/
def emptyDepot : Store :=
  { produce := [⟨1, "Maize", "grain", 1, 0⟩]
    procurement := []
    sales := []
    credit_sales := []
    next_produce_id := 2
    next_procurement_id := 1
    next_sale_id := 1
    next_credit_id := 1 }

/-- A cash sale request for 50 tons of maize in branch 1. -/
def sale50 : SaleBody := ⟨1, "Birungi", "0702", 50, 500, "cash", 1, none, none, none, none⟩

/-- An update that lowers a procurement's tonnage to 10. -/
def tonnage10 : ProcurementUpdate := ⟨none, none, none, some 10, none, none, none⟩

/-- A sale update that sets only the tonnage, to 10. -/
def saleTonnage10 : SaleUpdate := ⟨none, none, some 10, none⟩

/-- A stock update that sets only current_stock, to -5. -/
def stockMinus5 : StockUpdate := ⟨none, none, some (-5)⟩

/-- The state after `procure50` on `emptyDepot`. -/
def depotProcured : Store := (createProcurement emptyDepot ceo procure50).2

/-- The state after `procure50` then `sale50` on `emptyDepot`. -/
def depotSoldOut : Store := (createSale depotProcured ceo sale50).2

/-- The state after `procure50` then `sale30` on `emptyDepot`. -/
def depotSold30 : Store := (createSale depotProcured ceo sale30).2

/-! ## Sequences of requests -/

/-- One mutating request: a controller with the identity and the input it runs on. -/
inductive Op where
  | createProcurement (user : User) (body : ProcurementBody)
  | updateProcurement (user : User) (id : Nat) (updateFields : ProcurementUpdate)
  | deleteProcurement (user : User) (id : Nat)
  | createSale (user : User) (body : SaleBody)
  | updateSale (user : User) (id : Nat) (updateFields : SaleUpdate)
  | deleteSale (user : User) (id : Nat)
  | createStock (user : User) (body : StockBody)
  | updateStock (user : User) (id : Nat) (body : StockUpdate)
  | deleteStock (user : User) (id : Nat)
  | updateCreditPayment (user : User) (id : Nat) (amount_paid : Option ℚ)
deriving DecidableEq, Repr

/-- Run one request on a store. -/
def step (s : Store) : Op → Response × Store
  | .createProcurement user body => createProcurement s user body
  | .updateProcurement user id updateFields => updateProcurement s user id updateFields
  | .deleteProcurement user id => deleteProcurement s user id
  | .createSale user body => createSale s user body
  | .updateSale user id updateFields => updateSale s user id updateFields
  | .deleteSale user id => deleteSale s user id
  | .createStock user body => createStock s user body
  | .updateStock user id body => updateStock s user id body
  | .deleteStock user id => deleteStock s user id
  | .updateCreditPayment user id amount_paid => updateCreditPayment s user id amount_paid

/-- Run requests one at a time, each on the store the previous one left. -/
def run (s : Store) : List Op → Store
  | [] => s
  | op :: ops => run (step s op).2 ops

/-- The rule of `validateCreditSale` on `amount_due` (at least 0.01, so
above zero), for the requests that supply one. -/
def amountDuePositive (body : SaleBody) : Prop :=
  ∀ v, body.amount_due = some v → 0 < v

/-- A request that, when it is a createSale, supplies no `amount_due` or a
positive one. -/
def Op.amountDuePositive : Op → Prop
  | .createSale _ body => Backend.amountDuePositive body
  | _ => True

/-! ## Credit invariants of the specification -/

/-- Invariant I4 of the specification, read on one credit record: the status
is paid exactly when amount_paid has reached amount_due; otherwise it is
partial when amount_paid is above zero and pending when it is zero. -/
def CreditStatusOK (c : CreditSale) : Prop :=
  (c.payment_status = "paid" ↔ c.amount_due ≤ c.amount_paid) ∧
  (¬ c.amount_due ≤ c.amount_paid →
    (0 < c.amount_paid → c.payment_status = "partial") ∧
    (c.amount_paid = 0 → c.payment_status = "pending"))

/-- The order pending < partial < paid of the specification (4.5). -/
def statusRank (payment_status : String) : Nat :=
  if payment_status = "paid" then 2
  else if payment_status = "partial" then 1
  else 0

/-- AUTO_INCREMENT of `credit_sales`: every stored id is below the next `insertId`. -/
def CreditFresh (s : Store) : Prop :=
  ∀ c ∈ s.credit_sales, c.credit_id < s.next_credit_id

/-- The credit table is keyed, its ids are below the next insert id, and every
record satisfies `P`. -/
def CreditTableOK (P : CreditSale → Prop) (s : Store) : Prop :=
  CreditKeyed s ∧ CreditFresh s ∧ ∀ c ∈ s.credit_sales, P c

/-- The record `updateCreditPayment` writes over `c` for a payment `amount`. -/
def paidUp (c : CreditSale) (amount : ℚ) : CreditSale :=
  { c with
    amount_paid := c.amount_paid + amount
    payment_status := if c.amount_paid + amount ≥ c.amount_due then "paid" else "partial" }

/-- Invariant I3 of the specification, read on a state, in the direction the
code keeps: every credit record belongs to a stored sale, and that sale has
payment_type credit. -/
def CreditOnlyForCreditSales (s : Store) : Prop :=
  ∀ c ∈ s.credit_sales, ∃ r ∈ s.sales, r.sale_id = c.sale_id ∧ r.payment_type = "credit"

/-- Invariant I3 of the specification, read on a state, in both directions: a
sale has a credit record exactly when its payment_type is credit. -/
def CreditIffCreditSale (s : Store) : Prop :=
  ∀ r ∈ s.sales, (∃ c ∈ s.credit_sales, c.sale_id = r.sale_id) ↔ r.payment_type = "credit"

/-- The sales and credit tables and their counters are the same in both stores. -/
def SameSalesCredit (s t : Store) : Prop :=
  t.sales = s.sales ∧ t.credit_sales = s.credit_sales ∧
  t.next_sale_id = s.next_sale_id ∧ t.next_credit_id = s.next_credit_id

/-- What one request can do to the sales and credit tables: nothing; append
the sale of a createSale, with or without its credit record; rewrite the sale
rows of one id; delete the sale and credit rows of one sale id; or write a
payment over the credit rows of one id. -/
inductive SalesCreditEffect (s : Store) (op : Op) (t : Store) : Prop where
  | same (h : SameSalesCredit s t)
  | sold (user : User) (body : SaleBody)
      (hsales : t.sales = s.sales ++ [newSale s user body])
      (hnext : t.next_sale_id = s.next_sale_id + 1)
      (hcredit : t.credit_sales = s.credit_sales)
      (hcnext : t.next_credit_id = s.next_credit_id)
      (hnot : ¬ (body.payment_type = "credit" ∧ truthy body.amount_due = true))
  | soldOnCredit (user : User) (body : SaleBody) (v : ℚ)
      (hop : op = .createSale user body)
      (hsales : t.sales = s.sales ++ [newSale s user body])
      (hnext : t.next_sale_id = s.next_sale_id + 1)
      (htype : body.payment_type = "credit")
      (hdue : body.amount_due = some v)
      (hv : v ≠ 0)
      (hcredit : t.credit_sales = s.credit_sales ++ [newCredit s body v])
      (hcnext : t.next_credit_id = s.next_credit_id + 1)
  | edited (id : Nat) (u : SaleUpdate)
      (hsales : t.sales = s.sales.map fun r => if r.sale_id = id then applySaleUpdate u r else r)
      (hnext : t.next_sale_id = s.next_sale_id)
      (hcredit : t.credit_sales = s.credit_sales)
      (hcnext : t.next_credit_id = s.next_credit_id)
  | deleted (id : Nat)
      (hsales : t.sales = s.sales.filter fun r => ¬ r.sale_id = id)
      (hnext : t.next_sale_id = s.next_sale_id)
      (hcredit : t.credit_sales = s.credit_sales.filter fun c => ¬ c.sale_id = id)
      (hcnext : t.next_credit_id = s.next_credit_id)
  | paid (id : Nat) (amount : ℚ) (credit : CreditSale)
      (hpos : 0 < amount)
      (hmem : credit ∈ s.credit_sales)
      (hid : credit.credit_id = id)
      (hsales : t.sales = s.sales)
      (hnext : t.next_sale_id = s.next_sale_id)
      (hcredit : t.credit_sales = s.credit_sales.map fun c =>
        if c.credit_id = id then
          { c with
            amount_paid := credit.amount_paid + amount
            payment_status :=
              if credit.amount_paid + amount ≥ credit.amount_due then "paid" else "partial" }
        else c)
      (hcnext : t.next_credit_id = s.next_credit_id)

/-! ## Further sample data -/

/-- A manager of branch 2. -/
def manager2 : User := ⟨3, "Manager", some 2⟩

/-- A sales agent of branch 2. -/
def agent2 : User := ⟨4, "Sales Agent", some 2⟩

/-- A procurement request naming maize (produce 1, held in branch 1) under branch 2. -/
def procureOtherBranch : ProcurementBody := ⟨1, "Okello", "0700", "farm", 50, 10, 500, 12, 2⟩

/-- A sale request naming maize (produce 1, held in branch 1) under branch 2. -/
def saleOtherBranch : SaleBody :=
  ⟨1, "Birungi", "0702", 30, 300, "cash", 2, none, none, none, none⟩

/-- A credit sale request for 40 tons of maize that supplies no amount_due. -/
def sale40creditNoDue : SaleBody :=
  ⟨1, "Birungi", "0702", 40, 0, "credit", 1, some "CM2", some "Jinja", none, none⟩

/-- A credit sale request for 40 tons of maize with amount_due -5. -/
def sale40creditNegativeDue : SaleBody :=
  ⟨1, "Birungi", "0702", 40, 0, "credit", 1, some "CM2", some "Jinja", some (-5),
    some "2027-01-31"⟩

/-- A stock request for rice in branch 1. -/
def riceBranch1 : StockBody := ⟨"Rice", "grain", 1, none⟩

/-- The users and branches of the sample: users 1 to 4, branches 1 and 2. -/
def sampleDirectory : Directory := ⟨[1, 2, 3, 4], [1, 2]⟩

/-- A depot with 100 tons of maize in branch 1 and nothing else. -/
def fullDepot : Store :=
  { produce := [⟨1, "Maize", "grain", 1, 100⟩]
    procurement := []
    sales := []
    credit_sales := []
    next_produce_id := 2
    next_procurement_id := 1
    next_sale_id := 1
    next_credit_id := 1 }

/-- Scenarios 4 and 5 of the specification: a credit sale of 40 tons with
amount_due 4000, then payments of 1500 and 2500. -/
def creditScenario : List Op :=
  [.createSale manager sale40credit,
   .updateCreditPayment manager 1 (some 1500),
   .updateCreditPayment manager 1 (some 2500)]

/-- The credit sale of `creditScenario` and its first payment. -/
def creditScenarioFirst : List Op :=
  [.createSale manager sale40credit,
   .updateCreditPayment manager 1 (some 1500)]

/-- The credit record of `creditScenarioFirst`: 1500 paid of 4000. -/
def birungiCredit : CreditSale :=
  ⟨1, 1, some "CM2", some "Jinja", 4000, 1500, some "2027-01-31", "partial"⟩

/-! ## Units of work and failing statements -/

/-- The straight line of statements one transactional controller issues on
its connection for a given request, after `beginTransaction`: each
`connection.execute` in order (a SELECT leaves the store as it is), whether
the line ends with `commit` (otherwise with `rollback` and an early return),
the response of the line, and how many statements run on the pool after the
commit (the read-back of the created or updated row). -/
structure Plan where
  statements : List (Store → Store)
  commits : Bool
  response : Response
  reads_after : Nat

/-- How many statements the unit of work of a plan has: `beginTransaction`,
each `connection.execute`, and `commit` when the line reaches it.  They are
numbered from 0 in the order they run. -/
def Plan.unitLength (p : Plan) : Nat :=
  1 + p.statements.length + (if p.commits then 1 else 0)

/-- Run the `connection.execute` statements on the working copy of the
connection; `k` is the number of the next statement and `fault` the number of
the statement that throws, if any.  The result is the working copy and the
next number, or `none` when a statement threw. -/
def runStatements (fault : Option Nat) : Nat → Store → List (Store → Store) → Option (Store × Nat)
  | k, w, [] => some (w, k)
  | k, w, f :: fs => if fault = some k then none else runStatements fault (k + 1) (f w) fs

/-- The `try`, `catch`, `finally` frame shared by the transactional
controllers, run on a plan from the committed store `s`.  A statement that
throws lands in `catch`: `connection.rollback()` discards the working copy
and the response is 500; what is committed by then is what stays.  Rollback
itself and `release` are taken to succeed. -/
def Plan.execute (p : Plan) (fault : Option Nat) (s : Store) : Response × Store :=
  if fault = some 0 then (⟨500, "Server error"⟩, s)
  else
    match runStatements fault 1 s p.statements with
    | none => (⟨500, "Server error"⟩, s)
    | some (w, k) =>
      if p.commits then
        if fault = some k then (⟨500, "Server error"⟩, s)
        else
          match fault with
          | none => (p.response, w)
          | some j =>
            if k < j ∧ j ≤ k + p.reads_after then (⟨500, "Server error"⟩, w)
            else (p.response, w)
      else (p.response, s)

/-- The statements of `createProcurement`. -/
def createProcurementPlan (user : User) (body : ProcurementBody) : Plan :=
  if branchDenied user body.branch_id then
    ⟨[], false, ⟨403, "Access denied to this branch"⟩, 0⟩
  else
    ⟨[fun w => { w with
        procurement := w.procurement ++ [newProcurement w user body]
        next_procurement_id := w.next_procurement_id + 1 },
      fun w => { w with
        produce := addStock w.produce body.tonnage body.produce_id body.branch_id }],
      true, ⟨201, "Procurement recorded successfully"⟩, 1⟩

/-- The controller `createProcurement` with a statement that may fail. -/
def createProcurementTx (s : Store) (user : User) (body : ProcurementBody)
    (fault : Option Nat) : Response × Store :=
  (createProcurementPlan user body).execute fault s

/-- The statements of `updateProcurement` on the store `s` its SELECT reads. -/
def updateProcurementPlan (s : Store) (user : User) (id : Nat)
    (updateFields : ProcurementUpdate) : Plan :=
  match s.procurement.filter (fun r => r.procurement_id = id) with
  | [] => ⟨[fun w => w], false, ⟨404, "Procurement not found"⟩, 0⟩
  | existing :: _ =>
    if branchDenied user existing.branch_id then
      ⟨[fun w => w], false, ⟨403, "Access denied"⟩, 0⟩
    else if updateFields.isEmpty then
      ⟨[fun w => w], false, ⟨400, "No valid fields to update"⟩, 0⟩
    else
      ⟨[fun w => w,
        fun w => { w with
          procurement := w.procurement.map fun r =>
            if r.procurement_id = id then applyProcurementUpdate updateFields r else r }] ++
        (match updateFields.tonnage with
          | some tonnage =>
            [fun w => { w with
              produce := addStock w.produce (tonnage - existing.tonnage)
                existing.produce_id existing.branch_id }]
          | none => []),
        true, ⟨200, "Procurement updated successfully"⟩, 1⟩

/-- The controller `updateProcurement` with a statement that may fail. -/
def updateProcurementTx (s : Store) (user : User) (id : Nat)
    (updateFields : ProcurementUpdate) (fault : Option Nat) : Response × Store :=
  (updateProcurementPlan s user id updateFields).execute fault s

/-- The statements of `deleteProcurement` on the store `s` its SELECT reads. -/
def deleteProcurementPlan (s : Store) (user : User) (id : Nat) : Plan :=
  match s.procurement.filter (fun r => r.procurement_id = id) with
  | [] => ⟨[fun w => w], false, ⟨404, "Procurement not found"⟩, 0⟩
  | existing :: _ =>
    if branchDenied user existing.branch_id then
      ⟨[fun w => w], false, ⟨403, "Access denied"⟩, 0⟩
    else
      ⟨[fun w => w,
        fun w => { w with
          produce := subStock w.produce existing.tonnage existing.produce_id
            existing.branch_id },
        fun w => { w with
          procurement := w.procurement.filter (fun r => ¬ r.procurement_id = id) }],
        true, ⟨200, "Procurement deleted successfully"⟩, 0⟩

/-- The controller `deleteProcurement` with a statement that may fail. -/
def deleteProcurementTx (s : Store) (user : User) (id : Nat) (fault : Option Nat) :
    Response × Store :=
  (deleteProcurementPlan s user id).execute fault s

/-- The statements of `createSale` on the store `s` its SELECT reads. -/
def createSalePlan (s : Store) (user : User) (body : SaleBody) : Plan :=
  if branchDenied user body.branch_id then
    ⟨[], false, ⟨403, "Access denied to this branch"⟩, 0⟩
  else
    match s.produce.filter
        (fun p => p.produce_id = body.produce_id ∧ p.branch_id = body.branch_id) with
    | [] => ⟨[fun w => w], false, ⟨404, "Produce not found in this branch"⟩, 0⟩
    | produce0 :: _ =>
      if produce0.current_stock < body.tonnage then
        ⟨[fun w => w], false, ⟨400, "Insufficient stock"⟩, 0⟩
      else
        ⟨[fun w => w,
          fun w => { w with
            sales := w.sales ++ [newSale w user body]
            next_sale_id := w.next_sale_id + 1 },
          fun w => { w with
            produce := subStock w.produce body.tonnage body.produce_id body.branch_id }] ++
          (if body.payment_type = "credit" ∧ truthy body.amount_due = true then
            [fun w => { w with
              credit_sales := w.credit_sales ++ [newCredit s body (body.amount_due.getD 0)]
              next_credit_id := w.next_credit_id + 1 }]
          else []),
          true, ⟨201, "Sale recorded successfully"⟩, 1⟩

/-- The controller `createSale` with a statement that may fail. -/
def createSaleTx (s : Store) (user : User) (body : SaleBody) (fault : Option Nat) :
    Response × Store :=
  (createSalePlan s user body).execute fault s

/-- The statements of `deleteSale` on the store `s` its SELECT reads. -/
def deleteSalePlan (s : Store) (user : User) (id : Nat) : Plan :=
  match s.sales.filter (fun r => r.sale_id = id) with
  | [] => ⟨[fun w => w], false, ⟨404, "Sale not found"⟩, 0⟩
  | existing :: _ =>
    if branchDenied user existing.branch_id then
      ⟨[fun w => w], false, ⟨403, "Access denied"⟩, 0⟩
    else
      ⟨[fun w => w,
        fun w => { w with
          produce := addStock w.produce existing.tonnage existing.produce_id
            existing.branch_id },
        fun w => { w with credit_sales := w.credit_sales.filter (fun c => ¬ c.sale_id = id) },
        fun w => { w with sales := w.sales.filter (fun r => ¬ r.sale_id = id) }],
        true, ⟨200, "Sale deleted successfully"⟩, 0⟩

/-- The controller `deleteSale` with a statement that may fail. -/
def deleteSaleTx (s : Store) (user : User) (id : Nat) (fault : Option Nat) :
    Response × Store :=
  (deleteSalePlan s user id).execute fault s

/-! ## middleware/auth.js and the delete routes -/

/-- What a middleware does with a request: pass it on with `next()`, or answer it. -/
inductive Gate where
  | next
  | respond (r : Response)
deriving DecidableEq, Repr

/-- The middleware `authorize(...roles)`; `user` is `req.user`, absent when
no identity is attached. -/
def authorize (roles : List String) (user : Option User) : Gate :=
  match user with
  | none => .respond ⟨401, "Unauthorized"⟩
  | some u =>
    if u.role ∈ roles then .next
    else .respond ⟨403, "Access denied. Insufficient permissions."⟩

/-- The value `req.params.branchId || req.body.branch_id || req.query.branch_id`
after `parseInt`.  A path or query value is a text, truthy whenever present; a
body value is a number, truthy when it is not 0.  Each is given by the number
it denotes; `none` as result is the NaN of an absent branch id. -/
def requestedBranch (params_branchId body_branch_id query_branch_id : Option Nat) :
    Option Nat :=
  match params_branchId with
  | some b => some b
  | none =>
    match body_branch_id with
    | some b => if b ≠ 0 then some b else query_branch_id
    | none => query_branch_id

/-- The middleware `checkBranchAccess`.  The test `req.user.branch_id &&` is
JavaScript truthiness: a branch_id that is NULL or 0 skips the comparison. -/
def checkBranchAccess (user : User)
    (params_branchId body_branch_id query_branch_id : Option Nat) : Gate :=
  if user.role = "CEO" then .next
  else
    match user.branch_id with
    | none => .next
    | some own =>
      if own ≠ 0 ∧ requestedBranch params_branchId body_branch_id query_branch_id ≠ some own
      then .respond ⟨403, "Access denied. You can only access your branch data."⟩
      else .next

/-- The route `DELETE /api/sales/:id`, after `authenticate`:
`authorize('CEO')`, then `deleteSale`. -/
def deleteSaleRoute (s : Store) (user : User) (id : Nat) : Response × Store :=
  match authorize ["CEO"] (some user) with
  | .next => deleteSale s user id
  | .respond r => (r, s)

/-- The route `DELETE /api/procurement/:id`, after `authenticate`:
`authorize('CEO')`, then `deleteProcurement`. -/
def deleteProcurementRoute (s : Store) (user : User) (id : Nat) : Response × Store :=
  match authorize ["CEO"] (some user) with
  | .next => deleteProcurement s user id
  | .respond r => (r, s)

/-- The route `DELETE /api/stock/:id`, after `authenticate`:
`authorize('CEO')`, then `deleteStock`. -/
def deleteStockRoute (s : Store) (user : User) (id : Nat) : Response × Store :=
  match authorize ["CEO"] (some user) with
  | .next => deleteStock s user id
  | .respond r => (r, s)

/-! ## Sample data for the stock and middleware theorems -/

/-- A manager registered without a branch: `branch_id` is NULL. -/
def managerNoBranch : User := ⟨5, "Manager", none⟩

/-- A stock request for rice in branch 1 with current_stock -5. -/
def riceMinus5 : StockBody := ⟨"Rice", "grain", 1, some (-5)⟩

/-- The state after `procure50`, `sale50` and the deletion of the procurement
on `emptyDepot`: the maize row holds -50. -/
def depotOverdrawn : Store := (deleteProcurement depotSoldOut ceo 1).2

/-- An update of the dealer name only. -/
def dealerRename : ProcurementUpdate := ⟨some "Okello and Sons", none, none, none, none, none, none⟩

/-- A sale update that sets the tonnage to 10 and the amount paid to 100. -/
def saleEdit : SaleUpdate := ⟨none, none, some 10, some 100⟩

/-! ## Request bodies with missing keys -/

/-- The body of `POST /api/procurement` as `createProcurement` receives it.
`validateProcurement` requires every key but `dealer_contact`; a key that is
missing reads as `undefined` (`none`). -/
structure ProcurementRequest where
  produce_id : Nat
  dealer_name : String
  dealer_contact : Option String
  dealer_type : String
  tonnage : ℚ
  cost_per_ton : ℚ
  total_cost : ℚ
  selling_price_per_ton : ℚ
  branch_id : Nat
deriving DecidableEq, Repr

/-- The fields `createProcurement` destructures from the request; the value
put for a missing `dealer_contact` reaches no statement that runs. -/
def ProcurementRequest.body (r : ProcurementRequest) : ProcurementBody :=
  ⟨r.produce_id, r.dealer_name, r.dealer_contact.getD "", r.dealer_type, r.tonnage,
    r.cost_per_ton, r.total_cost, r.selling_price_per_ton, r.branch_id⟩

/-- The number of the statement of `createProcurement` that is given an
`undefined` bind parameter, if any: statement 1, the INSERT, binds
`dealer_contact`.  The `execute` of mysql2 throws on an `undefined` parameter
("Bind parameters must not contain undefined") and sends nothing to the
store. -/
def ProcurementRequest.undefinedBind (r : ProcurementRequest) : Option Nat :=
  if r.dealer_contact = none then some 1 else none

/-- The controller `createProcurement` on a body as received: the statement
with an `undefined` parameter throws, and the `catch` of the unit of work
rolls back and answers 500. -/
def createProcurementRequest (s : Store) (user : User) (r : ProcurementRequest) :
    Response × Store :=
  createProcurementTx s user r.body r.undefinedBind

/-- The body of `POST /api/sales` as `createSale` receives it.  `validateSale`
requires produce_id, buyer_name, tonnage, amount_paid, payment_type and
branch_id; `buyer_contact` and the credit keys may be missing, and a missing
key reads as `undefined` (`none`).  A credit text that is present may be
`null` (`some none`). -/
structure SaleRequest where
  produce_id : Nat
  buyer_name : String
  buyer_contact : Option String
  tonnage : ℚ
  amount_paid : ℚ
  payment_type : String
  branch_id : Nat
  buyer_national_id : Option (Option String)
  buyer_location : Option (Option String)
  amount_due : Option ℚ
  due_date : Option (Option String)
deriving DecidableEq, Repr

/-- The fields `createSale` destructures from the request; the value put for
a missing key reaches no statement that runs. -/
def SaleRequest.body (r : SaleRequest) : SaleBody :=
  ⟨r.produce_id, r.buyer_name, r.buyer_contact.getD "", r.tonnage, r.amount_paid,
    r.payment_type, r.branch_id, r.buyer_national_id.getD none, r.buyer_location.getD none,
    r.amount_due, r.due_date.getD none⟩

/-- The number of the first statement of `createSale` that is given an
`undefined` bind parameter, if any.  Statement 2, the INSERT into `sales`,
binds `buyer_contact`; statement 4, the INSERT into `credit_sales`, is run for
a credit sale with a truthy `amount_due` and binds `buyer_national_id`,
`buyer_location` and `due_date`.  The `execute` of mysql2 throws on an
`undefined` parameter and sends nothing to the store. -/
def SaleRequest.undefinedBind (r : SaleRequest) : Option Nat :=
  if r.buyer_contact = none then some 2
  else if (r.payment_type = "credit" ∧ truthy r.amount_due = true) ∧
      (r.buyer_national_id = none ∨ r.buyer_location = none ∨ r.due_date = none) then some 4
  else none

/-- The controller `createSale` on a body as received: the statement with an
`undefined` parameter throws, once the line of statements reaches it, and the
`catch` of the unit of work rolls back and answers 500. -/
def createSaleRequest (s : Store) (user : User) (r : SaleRequest) : Response × Store :=
  createSaleTx s user r.body r.undefinedBind

/-- A cash sale of 30 tons of maize in branch 1 with the keys `validateSale`
requires and no `buyer_contact`. -/
def saleNoContact : SaleRequest :=
  ⟨1, "Birungi", none, 30, 300, "cash", 1, none, none, none, none⟩

/-- The request `saleNoContact` with a `buyer_contact`. -/
def saleWithContact : SaleRequest :=
  ⟨1, "Birungi", some "0702", 30, 300, "cash", 1, none, none, none, none⟩

/-- A credit sale of 40 tons of maize with amount_due 4000 and no
`buyer_location` key. -/
def creditNoLocation : SaleRequest :=
  ⟨1, "Birungi", some "0702", 40, 0, "credit", 1, some (some "CM2"), none, some 4000,
    some (some "2027-01-31")⟩

/-- A procurement of 50 tons of maize in branch 1 with the keys
`validateProcurement` requires and no `dealer_contact`. -/
def procureNoContact : ProcurementRequest := ⟨1, "Okello", none, "farm", 50, 10, 500, 12, 1⟩

/-- The request `procureNoContact` with a `dealer_contact`. -/
def procureWithContact : ProcurementRequest :=
  ⟨1, "Okello", some "0700", "farm", 50, 10, 500, 12, 1⟩

/-! ## JavaScript numbers in updateCreditPayment -/

/-- The number of binary digits of `n`; `fuel` bounds the recursion, and `n`
itself is enough of it. -/
def bitLength : Nat → Nat → Nat
  | 0, _ => 0
  | fuel + 1, n => if n = 0 then 0 else bitLength fuel (n / 2) + 1

/-- The IEEE 754 double nearest to `n / d`, for `n` and `d` above zero, a tie
going to the even mantissa: the mantissa `m`, of 53 bits, and the exponent
`e`, the double being `m * 2 ^ e`.  The exponent is not bounded: overflow to
Infinity and the subnormal doubles are outside the model. -/
def nearestDouble (n d : Nat) : Nat × Int :=
  let k : Int := (bitLength n n : Int) - (bitLength d d : Int)
  let scale (t : Int) : Nat × Nat :=
    if 0 ≤ t then (n * 2 ^ t.toNat, d) else (n, d * 2 ^ (-t).toNat)
  let p := scale (-k)
  let L : Int := if p.2 ≤ p.1 then k else k - 1
  let q := scale (52 - L)
  let m := q.1 / q.2
  let r := q.1 % q.2
  let m1 := if q.2 < 2 * r ∨ (2 * r = q.2 ∧ m % 2 = 1) then m + 1 else m
  (m1, L - 52)

/-- The JavaScript number for the exact value `q`: what `parseFloat` reads
from a decimal text of value `q`, what a JSON number written `q` is parsed
to, and the result of an addition whose exact sum is `q`. -/
def toDouble (q : ℚ) : ℚ :=
  if q = 0 then 0
  else
    let me := nearestDouble q.num.natAbs q.den
    (if q < 0 then -1 else 1) * (me.1 : ℚ) * 2 ^ me.2

/-- The value of `req.body.amount_paid` on the payment route, where no
validator runs, by what `updateCreditPayment` reads of it.  `falsy` is a
missing key, null, 0 or the empty text.  `number x` is a JSON number written
`x`.  `text asNumber parsed` is a text that is not empty: `asNumber` is what it
converts to in the comparison `amount_paid <= 0` (`none` is NaN) and `parsed`
is what `parseFloat` reads from its longest numeric prefix; the text "0x10" is
`text (some 16) 0` and the text "-5abc" is `text none (-5)`.  A text from
which `parseFloat` reads NaN is left out: what the store makes of a NaN
parameter is not in the sources. -/
inductive PaymentAmount where
  | falsy
  | number (x : ℚ)
  | text (asNumber : Option ℚ) (parsed : ℚ)
deriving DecidableEq, Repr

/-- The guard `!amount_paid || amount_paid <= 0` in the number format `fl`. -/
def PaymentAmount.refused (fl : ℚ → ℚ) : PaymentAmount → Bool
  | .falsy => true
  | .number x => decide (fl x = 0 ∨ fl x ≤ 0)
  | .text (some v) _ => decide (fl v ≤ 0)
  | .text none _ => false

/-- The exact value of what `parseFloat(amount_paid)` reads. -/
def PaymentAmount.parsed : PaymentAmount → ℚ
  | .falsy => 0
  | .number x => x
  | .text _ parsed => parsed

/-- The controller `updateCreditPayment` with its arithmetic in the number
format `fl`, which sends an exact value to the number that stands for it:
`toDouble` for the doubles of JavaScript, the identity for exact decimals.
The stored amounts come back as decimal texts and go through `parseFloat`,
as the amount of the request does; the sum is a JavaScript addition; the
store keeps the number the UPDATE binds. -/
def updateCreditPaymentFloat (fl : ℚ → ℚ) (s : Store) (user : User) (id : Nat)
    (amount_paid : PaymentAmount) : Response × Store :=
  if amount_paid.refused fl = true then
    (⟨400, "Valid payment amount is required"⟩, s)
  else
    match selectCreditWithBranch s id with
    | [] => (⟨404, "Credit record not found"⟩, s)
    | (credit, branch_id) :: _ =>
      if branchDenied user branch_id then
        (⟨403, "Access denied"⟩, s)
      else
        let newAmountPaid := fl (fl credit.amount_paid + fl amount_paid.parsed)
        let amountDue := fl credit.amount_due
        let paymentStatus := if newAmountPaid ≥ amountDue then "paid" else "partial"
        (⟨200, "Payment recorded successfully"⟩,
          { s with
            credit_sales := s.credit_sales.map fun c =>
              if c.credit_id = id then
                { c with amount_paid := newAmountPaid, payment_status := paymentStatus }
              else c })

/-- The amount of a request of the exact model as a value of the body. -/
def PaymentAmount.ofNumber : Option ℚ → PaymentAmount
  | none => .falsy
  | some x => .number x

/-- A depot after a credit sale of 40 tons with the credit record `paid` of
`due` paid, under the status `payment_status`. -/
def creditDepot (due paid : ℚ) (payment_status : String) : Store :=
  { produce := [⟨1, "Maize", "grain", 1, 60⟩]
    procurement := []
    sales := [⟨1, 1, "Birungi", "0702", 40, 0, 2, 1, "credit"⟩]
    credit_sales := [⟨1, 1, some "CM2", some "Jinja", due, paid, some "2027-01-31", payment_status⟩]
    next_produce_id := 2
    next_procurement_id := 1
    next_sale_id := 2
    next_credit_id := 2 }

/-- A credit sale request for 40 tons of maize with amount_due 100. -/
def sale40due100 : SaleBody :=
  ⟨1, "Birungi", "0702", 40, 0, "credit", 1, some "CM2", some "Jinja", some 100,
    some "2027-01-31"⟩

/-! ## Two sales at the same time -/

/-- One move of two `createSale` requests served at the same time, each on a
connection of its own; `second` tells which of the two moves.  `select` is
the request's `beginTransaction` and its SELECT of the produce row, a plain
read of what is committed, which fixes the line of statements the request
goes on to run.  `finish` is the rest of its unit of work: its statements,
the UPDATE being relative to the row as it then is, and its commit or
rollback, after which the response is sent. -/
inductive Move where
  | select (second : Bool)
  | finish (second : Bool)
deriving DecidableEq, Repr

/-- Two `createSale` requests under way: the committed store, the plan each
request has fixed at its SELECT, and the response each has sent. -/
structure Race where
  store : Store
  first_plan : Option Plan
  second_plan : Option Plan
  first_response : Option Response
  second_response : Option Response

/-- One move of the two requests `first` and `second`.  A `finish` before the
request's own `select` does nothing.  The plan of a credit sale takes the ids
of its credit record from the store of its SELECT, so two requests that
overlap are cash sales here. -/
def Race.move (first second : User × SaleBody) (r : Race) : Move → Race
  | .select false => { r with first_plan := some (createSalePlan r.store first.1 first.2) }
  | .select true => { r with second_plan := some (createSalePlan r.store second.1 second.2) }
  | .finish false =>
    match r.first_plan with
    | none => r
    | some p =>
      { r with
        store := (p.execute none r.store).2
        first_response := some (p.execute none r.store).1 }
  | .finish true =>
    match r.second_plan with
    | none => r
    | some p =>
      { r with
        store := (p.execute none r.store).2
        second_response := some (p.execute none r.store).1 }

/-- The two requests run through a schedule of moves from the store `s`. -/
def race (first second : User × SaleBody) (s : Store) (moves : List Move) : Race :=
  moves.foldl (Race.move first second) ⟨s, none, none, none, none⟩

/-- A cash sale of 60 tons of maize in branch 1. -/
def sale60 : SaleBody := ⟨1, "Birungi", "0702", 60, 600, "cash", 1, none, none, none, none⟩

/-- Both requests read the stock before either writes. -/
def bothSelectFirst : List Move := [.select false, .select true, .finish false, .finish true]

/-- The second request starts after the first has committed. -/
def oneAfterTheOther : List Move := [.select false, .finish false, .select true, .finish true]

/-! ## Lemmas on keyed tables -/

theorem key_inj {α : Type} (key : α → Nat) {l : List α} (hnd : (l.map key).Nodup)
    {x y : α} (hx : x ∈ l) (hy : y ∈ l) (h : key x = key y) : x = y :=
  List.inj_on_of_nodup_map hnd hx hy h

theorem filter_eq_singleton {α : Type} (key : α → Nat) (q : α → Bool) :
    ∀ (l : List α) (p : α), (l.map key).Nodup → p ∈ l → q p = true →
      (∀ x ∈ l, q x = true → key x = key p) → l.filter q = [p] := by
  intro l
  induction l with
  | nil => intro p _ hp; simp at hp
  | cons a t ih =>
    intro p hnd hp hq hkey
    rw [List.map_cons, List.nodup_cons] at hnd
    rcases List.mem_cons.mp hp with rfl | hpt
    · have htail : t.filter q = [] := by
        rw [List.filter_eq_nil_iff]
        intro x hx hqx
        have hk := hkey x (List.mem_cons_of_mem _ hx) hqx
        exact hnd.1 (hk ▸ List.mem_map_of_mem key hx)
      simp [List.filter_cons, hq, htail]
    · have hqa : q a = false := by
        by_contra hne
        have hqa : q a = true := by simpa using hne
        have hk := hkey a (List.mem_cons_self _ _) hqa
        exact hnd.1 (hk ▸ List.mem_map_of_mem key hpt)
      rw [List.filter_cons, hqa]
      simpa using ih p hnd.2 hpt hq (fun x hx => hkey x (List.mem_cons_of_mem _ hx))

theorem map_key_eq_map_row {α : Type} [DecidableEq α] (key : α → Nat) (q : α → Prop)
    [DecidablePred q] (f : α → α) (l : List α) (p : α) (hnd : (l.map key).Nodup)
    (hp : p ∈ l) (hq : q p) (hkey : ∀ x ∈ l, q x → key x = key p) :
    l.map (fun x => if q x then f x else x) = l.map (fun x => if x = p then f p else x) := by
  apply List.map_congr_left
  intro x hx
  by_cases hxp : x = p
  · subst hxp; simp [hq]
  · have : ¬ q x := fun h => hxp (key_inj key hnd hx hp (hkey x hx h))
    simp [hxp, this]

theorem produce_filter_key (s : Store) (p : Produce) (pid bid : Nat) (hk : ProduceKeyed s)
    (hp : p ∈ s.produce) (hid : p.produce_id = pid) (hbr : p.branch_id = bid) :
    s.produce.filter (fun q => q.produce_id = pid ∧ q.branch_id = bid) = [p] := by
  subst hid hbr
  apply filter_eq_singleton (fun q : Produce => q.produce_id) _ s.produce p hk hp
  · simp
  · intro x _ hx
    simp at hx
    exact hx.1

theorem addStock_row (s : Store) (p : Produce) (amount : ℚ) (pid bid : Nat)
    (hk : ProduceKeyed s) (hp : p ∈ s.produce) (hid : p.produce_id = pid)
    (hbr : p.branch_id = bid) :
    addStock s.produce amount pid bid =
      s.produce.map (fun q =>
        if q = p then { p with current_stock := p.current_stock + amount } else q) := by
  subst hid hbr
  unfold addStock
  exact map_key_eq_map_row (fun q : Produce => q.produce_id)
    (fun q => q.produce_id = p.produce_id ∧ q.branch_id = p.branch_id)
    (fun q => { q with current_stock := q.current_stock + amount }) s.produce p hk hp
    ⟨rfl, rfl⟩ (fun x _ hx => hx.1)

theorem subStock_row (s : Store) (p : Produce) (amount : ℚ) (pid bid : Nat)
    (hk : ProduceKeyed s) (hp : p ∈ s.produce) (hid : p.produce_id = pid)
    (hbr : p.branch_id = bid) :
    subStock s.produce amount pid bid =
      s.produce.map (fun q =>
        if q = p then { p with current_stock := p.current_stock - amount } else q) := by
  subst hid hbr
  unfold subStock
  exact map_key_eq_map_row (fun q : Produce => q.produce_id)
    (fun q => q.produce_id = p.produce_id ∧ q.branch_id = p.branch_id)
    (fun q => { q with current_stock := q.current_stock - amount }) s.produce p hk hp
    ⟨rfl, rfl⟩ (fun x _ hx => hx.1)

/-! ## createSale -/

theorem createSale_of_row (s : Store) (user : User) (body : SaleBody) (p : Produce)
    (rest : List Produce) (hacc : branchDenied user body.branch_id = false)
    (hf : s.produce.filter
      (fun q => q.produce_id = body.produce_id ∧ q.branch_id = body.branch_id) = p :: rest) :
    createSale s user body =
      if p.current_stock < body.tonnage then (⟨400, "Insufficient stock"⟩, s)
      else
        (⟨201, "Sale recorded successfully"⟩,
          { s with
            sales := s.sales ++ [newSale s user body]
            next_sale_id := s.next_sale_id + 1
            produce := subStock s.produce body.tonnage body.produce_id body.branch_id
            credit_sales :=
              if body.payment_type = "credit" ∧ truthy body.amount_due = true then
                s.credit_sales ++ [newCredit s body (body.amount_due.getD 0)]
              else s.credit_sales
            next_credit_id :=
              if body.payment_type = "credit" ∧ truthy body.amount_due = true then
                s.next_credit_id + 1
              else s.next_credit_id }) := by
  simp only [createSale, hacc, hf]
  by_cases hlt : p.current_stock < body.tonnage
  · simp [hlt]
  · by_cases hc : body.payment_type = "credit" ∧ truthy body.amount_due = true
    · simp [hlt, hc]
    · simp [hlt, hc]

/-- C2: when the request passes the branch check and the produce row of
(produce_id, branch_id) holds less stock than the requested tonnage,
createSale answers 400 "Insufficient stock" and returns the store it was
given, every table and counter untouched. -/
theorem createSale_insufficient_stock (s : Store) (user : User) (body : SaleBody) (p : Produce)
    (hacc : branchDenied user body.branch_id = false) (hk : ProduceKeyed s)
    (hp : p ∈ s.produce) (hid : p.produce_id = body.produce_id)
    (hbr : p.branch_id = body.branch_id) (hlt : p.current_stock < body.tonnage) :
    createSale s user body = (⟨400, "Insufficient stock"⟩, s) := by
  rw [createSale_of_row s user body p [] hacc (produce_filter_key s p _ _ hk hp hid hbr)]
  simp [hlt]

theorem createSale_insufficient_stock_witness :
    createSale sampleStore manager sale80 = (⟨400, "Insufficient stock"⟩, sampleStore) :=
  createSale_insufficient_stock sampleStore manager sale80 maizeRow
    (by simp [branchDenied, manager, sale80]) (by simp [ProduceKeyed, sampleStore])
    (by simp [sampleStore, maizeRow]) rfl rfl (by norm_num [maizeRow, sale80])

/-- On a body with every bound key present: when the request passes the branch
check and the produce row of (produce_id, branch_id) holds at least the
requested tonnage, createSale answers 201, appends exactly one sale row
carrying the request's produce_id, branch_id, tonnage, amount_paid and
payment_type, sets that produce row's stock to its old value minus the
tonnage, which is not negative, and leaves every other produce row as it was.
-/
theorem createSale_success (s : Store) (user : User) (body : SaleBody) (p : Produce)
    (hacc : branchDenied user body.branch_id = false) (hk : ProduceKeyed s)
    (hp : p ∈ s.produce) (hid : p.produce_id = body.produce_id)
    (hbr : p.branch_id = body.branch_id) (hge : body.tonnage ≤ p.current_stock) :
    (createSale s user body).1.status = 201 ∧
    (∃ row : Sale, (createSale s user body).2.sales = s.sales ++ [row] ∧
      row.produce_id = body.produce_id ∧ row.branch_id = body.branch_id ∧
      row.tonnage = body.tonnage ∧ row.amount_paid = body.amount_paid ∧
      row.payment_type = body.payment_type) ∧
    (createSale s user body).2.produce =
      s.produce.map (fun q =>
        if q = p then { p with current_stock := p.current_stock - body.tonnage } else q) ∧
    0 ≤ p.current_stock - body.tonnage := by
  have hnlt : ¬ p.current_stock < body.tonnage := not_lt.mpr hge
  rw [createSale_of_row s user body p [] hacc (produce_filter_key s p _ _ hk hp hid hbr),
    if_neg hnlt]
  exact ⟨rfl, ⟨newSale s user body, rfl, rfl, rfl, rfl, rfl, rfl⟩,
    subStock_row s p body.tonnage _ _ hk hp hid hbr, sub_nonneg.mpr hge⟩

theorem createSale_success_witness :
    (createSale sampleStore manager sale30).1.status = 201 ∧
    (createSale sampleStore manager sale30).2.produce =
      sampleStore.produce.map (fun q =>
        if q = maizeRow then
          { maizeRow with current_stock := maizeRow.current_stock - sale30.tonnage }
        else q) :=
  have h := createSale_success sampleStore manager sale30 maizeRow
    (by simp [branchDenied, manager, sale30]) (by simp [ProduceKeyed, sampleStore])
    (by simp [sampleStore, maizeRow]) rfl rfl (by norm_num [maizeRow, sale30])
  ⟨h.1, h.2.2.1⟩

/-! ## createProcurement -/

/-- On a body with every bound key present: when the request passes the branch
check and the produce row of (produce_id, branch_id) exists, createProcurement
answers 201, appends exactly one procurement row holding the request's fields,
raises that produce row's stock by exactly the tonnage and leaves every other
produce row as it was. -/
theorem createProcurement_success (s : Store) (user : User) (body : ProcurementBody)
    (p : Produce) (hacc : branchDenied user body.branch_id = false) (hk : ProduceKeyed s)
    (hp : p ∈ s.produce) (hid : p.produce_id = body.produce_id)
    (hbr : p.branch_id = body.branch_id) :
    (createProcurement s user body).1.status = 201 ∧
    (createProcurement s user body).2.procurement =
      s.procurement ++
        [{ procurement_id := s.next_procurement_id
           produce_id := body.produce_id
           dealer_name := body.dealer_name
           dealer_contact := body.dealer_contact
           dealer_type := body.dealer_type
           tonnage := body.tonnage
           cost_per_ton := body.cost_per_ton
           total_cost := body.total_cost
           selling_price_per_ton := body.selling_price_per_ton
           branch_id := body.branch_id
           recorded_by := user.user_id }] ∧
    (createProcurement s user body).2.produce =
      s.produce.map (fun q =>
        if q = p then { p with current_stock := p.current_stock + body.tonnage } else q) := by
  have hadd := addStock_row s p body.tonnage _ _ hk hp hid hbr
  simp only [createProcurement, hacc]
  exact ⟨rfl, rfl, hadd⟩

theorem createProcurement_success_witness :
    (createProcurement sampleStore manager procure50).1.status = 201 ∧
    (createProcurement sampleStore manager procure50).2.produce =
      sampleStore.produce.map (fun q =>
        if q = maizeRow then
          { maizeRow with current_stock := maizeRow.current_stock + procure50.tonnage }
        else q) :=
  have h := createProcurement_success sampleStore manager procure50 maizeRow
    (by simp [branchDenied, manager, procure50]) (by simp [ProduceKeyed, sampleStore])
    (by simp [sampleStore, maizeRow]) rfl rfl
  ⟨h.1, h.2.2⟩

/-! ## updateProcurement -/

theorem procurement_filter_key (s : Store) (e : Procurement) (id : Nat)
    (hk : ProcurementKeyed s) (he : e ∈ s.procurement) (hid : e.procurement_id = id) :
    s.procurement.filter (fun r => r.procurement_id = id) = [e] := by
  subst hid
  apply filter_eq_singleton (fun r : Procurement => r.procurement_id) _ s.procurement e hk he
  · simp
  · intro x _ hx
    simpa using hx

/-- C5: for a stored procurement with tonnage t1 and a permitted
updateProcurement request that supplies tonnage t2, the call answers 200, the
stock of the produce row of the procurement's (produce_id, branch_id) changes
by exactly t2 - t1 while every other produce row is unchanged, and the
procurement row keeps its id, produce and branch and now has tonnage t2. -/
theorem updateProcurement_conservation (s : Store) (user : User) (id : Nat)
    (updateFields : ProcurementUpdate) (e : Procurement) (t2 : ℚ)
    (hk : ProcurementKeyed s) (he : e ∈ s.procurement) (hid : e.procurement_id = id)
    (hacc : branchDenied user e.branch_id = false) (ht : updateFields.tonnage = some t2) :
    (updateProcurement s user id updateFields).1.status = 200 ∧
    (updateProcurement s user id updateFields).2.produce =
      s.produce.map (fun q =>
        if q.produce_id = e.produce_id ∧ q.branch_id = e.branch_id then
          { q with current_stock := q.current_stock + (t2 - e.tonnage) }
        else q) ∧
    ∃ e2 : Procurement,
      (updateProcurement s user id updateFields).2.procurement =
        s.procurement.map (fun r => if r = e then e2 else r) ∧
      e2.tonnage = t2 ∧ e2.procurement_id = e.procurement_id ∧
      e2.produce_id = e.produce_id ∧ e2.branch_id = e.branch_id := by
  have hf := procurement_filter_key s e id hk he hid
  have hne : updateFields.isEmpty = false := by
    simp [ProcurementUpdate.isEmpty, ht]
  have hmap : s.procurement.map (fun r =>
      if r.procurement_id = id then applyProcurementUpdate updateFields r else r) =
      s.procurement.map (fun r => if r = e then applyProcurementUpdate updateFields e else r) :=
    map_key_eq_map_row (fun r : Procurement => r.procurement_id)
      (fun r => r.procurement_id = id) (applyProcurementUpdate updateFields) s.procurement e
      hk he hid (fun x _ hx => hx.trans hid.symm)
  simp only [updateProcurement, hf, hacc, hne, ht]
  refine ⟨rfl, rfl, applyProcurementUpdate updateFields e, hmap, ?_, rfl, rfl, rfl⟩
  simp [applyProcurementUpdate, ht]

theorem updateProcurement_conservation_witness :
    (updateProcurement sampleStore manager 1 tonnage60).1.status = 200 ∧
    (updateProcurement sampleStore manager 1 tonnage60).2.produce =
      sampleStore.produce.map (fun q =>
        if q.produce_id = okelloRow.produce_id ∧ q.branch_id = okelloRow.branch_id then
          { q with current_stock := q.current_stock + (60 - okelloRow.tonnage) }
        else q) :=
  have h := updateProcurement_conservation sampleStore manager 1 tonnage60 okelloRow 60
    (by simp [ProcurementKeyed, sampleStore]) (by simp [sampleStore, okelloRow]) rfl
    (by simp [branchDenied, manager, okelloRow]) rfl
  ⟨h.1, h.2.1⟩

/-! ## Reversal of a procurement -/

theorem subStock_addStock (rows : List Produce) (amount : ℚ) (pid bid : Nat) :
    subStock (addStock rows amount pid bid) amount pid bid = rows := by
  unfold subStock addStock
  rw [List.map_map]
  conv_rhs => rw [← List.map_id rows]
  apply List.map_congr_left
  intro p _
  by_cases h : p.produce_id = pid ∧ p.branch_id = bid
  · cases p
    simp_all
  · simp [h]

theorem addStock_subStock (rows : List Produce) (amount : ℚ) (pid bid : Nat) :
    addStock (subStock rows amount pid bid) amount pid bid = rows := by
  unfold subStock addStock
  rw [List.map_map]
  conv_rhs => rw [← List.map_id rows]
  apply List.map_congr_left
  intro p _
  by_cases h : p.produce_id = pid ∧ p.branch_id = bid
  · cases p
    simp_all
  · simp [h]

theorem filter_append_fresh {α : Type} (key : α → Nat) (l : List α) (a : α)
    (hfresh : ∀ x ∈ l, key x < key a) :
    (l ++ [a]).filter (fun x => key x = key a) = [a] ∧
    (l ++ [a]).filter (fun x => ¬ key x = key a) = l := by
  have h1 : l.filter (fun x => decide (key x = key a)) = [] := by
    rw [List.filter_eq_nil_iff]
    intro x hx
    have := hfresh x hx
    simp
    omega
  have h2 : l.filter (fun x => decide (¬ key x = key a)) = l := by
    rw [List.filter_eq_self]
    intro x hx
    have := hfresh x hx
    simp
    omega
  constructor
  · rw [List.filter_append, h1]; simp
  · rw [List.filter_append, h2]; simp

theorem createProcurement_ok (s : Store) (user : User) (body : ProcurementBody)
    (hacc : branchDenied user body.branch_id = false) :
    createProcurement s user body =
      (⟨201, "Procurement recorded successfully"⟩,
        { s with
          procurement := s.procurement ++ [newProcurement s user body]
          next_procurement_id := s.next_procurement_id + 1
          produce := addStock s.produce body.tonnage body.produce_id body.branch_id }) := by
  simp [createProcurement, hacc]

theorem deleteProcurement_of_row (s : Store) (user : User) (id : Nat) (e : Procurement)
    (rest : List Procurement)
    (hf : s.procurement.filter (fun r => r.procurement_id = id) = e :: rest)
    (hacc : branchDenied user e.branch_id = false) :
    deleteProcurement s user id =
      (⟨200, "Procurement deleted successfully"⟩,
        { s with
          produce := subStock s.produce e.tonnage e.produce_id e.branch_id
          procurement := s.procurement.filter (fun r => ¬ r.procurement_id = id) }) := by
  simp only [deleteProcurement, hf, hacc]
  simp

/-- C6: in a store whose procurement ids are below the next insert id, a
createProcurement that passes the branch check answers 201, and deleting the
row it created (by an actor the row's branch admits) answers 200, gives every
produce row back its stock of before the create, and leaves the procurement
table as it was before the create. -/
theorem procurement_create_delete (s : Store) (creator deleter : User) (body : ProcurementBody)
    (hfresh : ProcurementFresh s)
    (hacc : branchDenied creator body.branch_id = false)
    (hdel : branchDenied deleter body.branch_id = false) :
    (createProcurement s creator body).1.status = 201 ∧
    (deleteProcurement (createProcurement s creator body).2 deleter
      s.next_procurement_id).1.status = 200 ∧
    (deleteProcurement (createProcurement s creator body).2 deleter
      s.next_procurement_id).2.produce = s.produce ∧
    (deleteProcurement (createProcurement s creator body).2 deleter
      s.next_procurement_id).2.procurement = s.procurement := by
  have hfa := filter_append_fresh (fun r : Procurement => r.procurement_id) s.procurement
    (newProcurement s creator body) hfresh
  have hc := createProcurement_ok s creator body hacc
  have hd := deleteProcurement_of_row (createProcurement s creator body).2 deleter
    s.next_procurement_id (newProcurement s creator body) [] (by rw [hc]; exact hfa.1) hdel
  rw [hd]
  refine ⟨by rw [hc], rfl, ?_, ?_⟩
  · rw [hc]
    exact subStock_addStock s.produce body.tonnage body.produce_id body.branch_id
  · rw [hc]
    exact hfa.2

theorem procurement_create_delete_witness :
    (createProcurement sampleStore manager procure50).1.status = 201 ∧
    (deleteProcurement (createProcurement sampleStore manager procure50).2 ceo
      sampleStore.next_procurement_id).1.status = 200 ∧
    (deleteProcurement (createProcurement sampleStore manager procure50).2 ceo
      sampleStore.next_procurement_id).2.produce = sampleStore.produce ∧
    (deleteProcurement (createProcurement sampleStore manager procure50).2 ceo
      sampleStore.next_procurement_id).2.procurement = sampleStore.procurement :=
  procurement_create_delete sampleStore manager ceo procure50
    (by simp [ProcurementFresh, sampleStore])
    (by simp [branchDenied, manager, procure50]) (by simp [branchDenied, ceo])

/-! ## deleteSale and the reversal of a sale -/

theorem deleteSale_of_row (s : Store) (user : User) (id : Nat) (e : Sale) (rest : List Sale)
    (hf : s.sales.filter (fun r => r.sale_id = id) = e :: rest)
    (hacc : branchDenied user e.branch_id = false) :
    deleteSale s user id =
      (⟨200, "Sale deleted successfully"⟩,
        { s with
          produce := addStock s.produce e.tonnage e.produce_id e.branch_id
          credit_sales := s.credit_sales.filter (fun c => ¬ c.sale_id = id)
          sales := s.sales.filter (fun r => ¬ r.sale_id = id) }) := by
  simp only [deleteSale, hf, hacc]
  simp

theorem createSale_created (s : Store) (user : User) (body : SaleBody)
    (hok : (createSale s user body).1.status = 201) :
    createSale s user body =
      (⟨201, "Sale recorded successfully"⟩,
        { s with
          sales := s.sales ++ [newSale s user body]
          next_sale_id := s.next_sale_id + 1
          produce := subStock s.produce body.tonnage body.produce_id body.branch_id
          credit_sales :=
            if body.payment_type = "credit" ∧ truthy body.amount_due = true then
              s.credit_sales ++ [newCredit s body (body.amount_due.getD 0)]
            else s.credit_sales
          next_credit_id :=
            if body.payment_type = "credit" ∧ truthy body.amount_due = true then
              s.next_credit_id + 1
            else s.next_credit_id }) := by
  cases hacc : branchDenied user body.branch_id with
  | true => simp [createSale, hacc] at hok
  | false =>
    cases hf : s.produce.filter
        (fun q => decide (q.produce_id = body.produce_id ∧ q.branch_id = body.branch_id)) with
    | nil =>
      simp only [createSale, hacc, hf] at hok
      simp at hok
    | cons p rest =>
      rw [createSale_of_row s user body p rest hacc hf] at hok ⊢
      by_cases hlt : p.current_stock < body.tonnage
      · simp [hlt] at hok
      · simp [hlt]

/-- C7: in a store whose sale ids (in sales and in credit_sales) are below the
next insert id, after any createSale that answered 201, cash or credit,
deleting the created sale (by an actor the sale's branch admits) answers 200,
gives every produce row back its stock of before the create, and leaves the
sales and credit_sales tables as they were before the create. -/
theorem sale_create_delete (s : Store) (creator deleter : User) (body : SaleBody)
    (hfresh : SalesFresh s)
    (hok : (createSale s creator body).1.status = 201)
    (hdel : branchDenied deleter body.branch_id = false) :
    (deleteSale (createSale s creator body).2 deleter s.next_sale_id).1.status = 200 ∧
    (deleteSale (createSale s creator body).2 deleter s.next_sale_id).2.produce = s.produce ∧
    (deleteSale (createSale s creator body).2 deleter s.next_sale_id).2.sales = s.sales ∧
    (deleteSale (createSale s creator body).2 deleter s.next_sale_id).2.credit_sales =
      s.credit_sales := by
  have hfa := filter_append_fresh (fun r : Sale => r.sale_id) s.sales
    (newSale s creator body) hfresh.1
  have hfc := filter_append_fresh (fun c : CreditSale => c.sale_id) s.credit_sales
    (newCredit s body (body.amount_due.getD 0)) hfresh.2
  have hself : s.credit_sales.filter (fun c => decide (¬ c.sale_id = s.next_sale_id)) =
      s.credit_sales := by
    rw [List.filter_eq_self]
    intro c hc
    have := hfresh.2 c hc
    simp
    omega
  have hc := createSale_created s creator body hok
  have hd := deleteSale_of_row (createSale s creator body).2 deleter s.next_sale_id
    (newSale s creator body) [] (by rw [hc]; exact hfa.1) hdel
  rw [hd]
  refine ⟨rfl, ?_, ?_, ?_⟩
  · rw [hc]
    exact addStock_subStock s.produce body.tonnage body.produce_id body.branch_id
  · rw [hc]
    exact hfa.2
  · rw [hc]
    by_cases hcr : body.payment_type = "credit" ∧ truthy body.amount_due = true
    · simp only [hcr, and_self, if_true]
      exact hfc.2
    · simp only [hcr, if_false]
      exact hself

theorem sale_create_delete_witness :
    (deleteSale (createSale sampleStore manager sale40credit).2 ceo
      sampleStore.next_sale_id).1.status = 200 ∧
    (deleteSale (createSale sampleStore manager sale40credit).2 ceo
      sampleStore.next_sale_id).2.produce = sampleStore.produce ∧
    (deleteSale (createSale sampleStore manager sale40credit).2 ceo
      sampleStore.next_sale_id).2.sales = sampleStore.sales ∧
    (deleteSale (createSale sampleStore manager sale40credit).2 ceo
      sampleStore.next_sale_id).2.credit_sales = sampleStore.credit_sales :=
  sale_create_delete sampleStore manager ceo sale40credit
    (by simp [SalesFresh, sampleStore])
    (by norm_num [createSale, sampleStore, manager, sale40credit, branchDenied])
    (by simp [branchDenied, ceo])

theorem sales_filter_key (s : Store) (e : Sale) (id : Nat)
    (hk : SalesKeyed s) (he : e ∈ s.sales) (hid : e.sale_id = id) :
    s.sales.filter (fun r => r.sale_id = id) = [e] := by
  subst hid
  apply filter_eq_singleton (fun r : Sale => r.sale_id) _ s.sales e hk he
  · simp
  · intro x _ hx
    simpa using hx

/-- C8: for a stored sale and a permitted deleteSale call, the call answers
200, the produce row of the sale's (produce_id, branch_id) gains exactly the
sale row's stored tonnage and no other produce row changes, the sale row is
removed and every other sale row stays, no credit_sales row refers to the
deleted sale id afterwards, and every credit row of another sale stays. -/
theorem deleteSale_effect (s : Store) (user : User) (id : Nat) (e : Sale)
    (hk : SalesKeyed s) (he : e ∈ s.sales) (hid : e.sale_id = id)
    (hacc : branchDenied user e.branch_id = false) :
    (deleteSale s user id).1.status = 200 ∧
    (deleteSale s user id).2.produce =
      s.produce.map (fun q =>
        if q.produce_id = e.produce_id ∧ q.branch_id = e.branch_id then
          { q with current_stock := q.current_stock + e.tonnage }
        else q) ∧
    (deleteSale s user id).2.sales = s.sales.filter (fun r => r ≠ e) ∧
    (∀ c ∈ (deleteSale s user id).2.credit_sales, c.sale_id ≠ id) ∧
    (deleteSale s user id).2.credit_sales = s.credit_sales.filter (fun c => c.sale_id ≠ id) := by
  rw [deleteSale_of_row s user id e [] (sales_filter_key s e id hk he hid) hacc]
  refine ⟨rfl, rfl, ?_, ?_, rfl⟩
  · apply List.filter_congr
    intro r hr
    have hiff : r.sale_id = id ↔ r = e := by
      constructor
      · intro h
        exact key_inj (fun r : Sale => r.sale_id) hk hr he (h.trans hid.symm)
      · intro h
        rw [h, hid]
    simp [hiff]
  · intro c hc
    simp only [List.mem_filter] at hc
    simpa using hc.2

theorem deleteSale_effect_witness :
    (deleteSale sampleStore ceo 1).1.status = 200 ∧
    (deleteSale sampleStore ceo 1).2.sales = sampleStore.sales.filter (fun r => r ≠ aminaRow) ∧
    (∀ c ∈ (deleteSale sampleStore ceo 1).2.credit_sales, c.sale_id ≠ 1) :=
  have h := deleteSale_effect sampleStore ceo 1 aminaRow
    (by simp [SalesKeyed, sampleStore]) (by simp [sampleStore, aminaRow]) rfl
    (by simp [branchDenied, ceo])
  ⟨h.1, h.2.2.1, h.2.2.2.1⟩

/-! ## updateCreditPayment -/

theorem credit_filter_key (s : Store) (c : CreditSale) (id : Nat)
    (hk : CreditKeyed s) (hc : c ∈ s.credit_sales) (hid : c.credit_id = id) :
    s.credit_sales.filter (fun x => x.credit_id = id) = [c] := by
  subst hid
  apply filter_eq_singleton (fun x : CreditSale => x.credit_id) _ s.credit_sales c hk hc
  · simp
  · intro x _ hx
    simpa using hx

/-- With exact decimals: for a stored credit record whose sale is stored and
whose branch admits the actor, and for every payment amount above zero,
however large against amount_due, updateCreditPayment answers 200 and stores
amount_paid = old amount_paid + amount with payment_status "paid" when that
total reaches amount_due and "partial" otherwise; amount_due and every other
field of the record, every other credit record and the other tables are
unchanged. -/
theorem updateCreditPayment_effect (s : Store) (user : User) (id : Nat) (amount : ℚ)
    (c : CreditSale) (sale : Sale)
    (hk : CreditKeyed s) (hks : SalesKeyed s)
    (hc : c ∈ s.credit_sales) (hid : c.credit_id = id)
    (hsale : sale ∈ s.sales) (hsid : sale.sale_id = c.sale_id)
    (hacc : branchDenied user sale.branch_id = false) (hpos : 0 < amount) :
    (updateCreditPayment s user id (some amount)).1.status = 200 ∧
    (updateCreditPayment s user id (some amount)).2.credit_sales =
      s.credit_sales.map (fun x =>
        if x = c then
          { c with
            amount_paid := c.amount_paid + amount
            payment_status :=
              if c.amount_paid + amount ≥ c.amount_due then "paid" else "partial" }
        else x) ∧
    (updateCreditPayment s user id (some amount)).2.produce = s.produce ∧
    (updateCreditPayment s user id (some amount)).2.sales = s.sales ∧
    (updateCreditPayment s user id (some amount)).2.procurement = s.procurement := by
  have hsel : selectCreditWithBranch s id = [(c, sale.branch_id)] := by
    have h1 := credit_filter_key s c id hk hc hid
    have h2 := sales_filter_key s sale c.sale_id hks hsale hsid
    unfold selectCreditWithBranch
    rw [h1]
    simp only [List.flatMap_cons, List.flatMap_nil, List.append_nil]
    rw [h2]
    rfl
  have hguard : ¬ (truthy (some amount) = false ∨ (some amount).getD 0 ≤ 0) := by
    have hne : amount ≠ 0 := ne_of_gt hpos
    simp [truthy, hne, hpos]
  have hmap := map_key_eq_map_row (fun x : CreditSale => x.credit_id)
    (fun x => x.credit_id = id)
    (fun x => { x with
      amount_paid := c.amount_paid + amount
      payment_status := if c.amount_paid + amount ≥ c.amount_due then "paid" else "partial" })
    s.credit_sales c hk hc hid (fun x _ hx => hx.trans hid.symm)
  have hrun : updateCreditPayment s user id (some amount) =
      (⟨200, "Payment recorded successfully"⟩,
        { s with
          credit_sales := s.credit_sales.map fun x =>
            if x.credit_id = id then
              { x with
                amount_paid := c.amount_paid + amount
                payment_status :=
                  if c.amount_paid + amount ≥ c.amount_due then "paid" else "partial" }
            else x }) := by
    simp only [updateCreditPayment, hguard, hsel, hacc]
    simp
  rw [hrun]
  exact ⟨rfl, hmap, rfl, rfl, rfl⟩

theorem updateCreditPayment_effect_witness :
    (updateCreditPayment sampleStore manager 1 (some 1500)).1.status = 200 ∧
    (updateCreditPayment sampleStore manager 1 (some 1500)).2.credit_sales =
      sampleStore.credit_sales.map (fun x =>
        if x = aminaCredit then
          { aminaCredit with
            amount_paid := aminaCredit.amount_paid + 1500
            payment_status :=
              if aminaCredit.amount_paid + 1500 ≥ aminaCredit.amount_due then "paid"
              else "partial" }
        else x) :=
  have h := updateCreditPayment_effect sampleStore manager 1 1500 aminaCredit aminaRow
    (by simp [CreditKeyed, sampleStore]) (by simp [SalesKeyed, sampleStore])
    (by simp [sampleStore, aminaCredit]) rfl (by simp [sampleStore, aminaRow]) rfl
    (by simp [branchDenied, manager, aminaRow]) (by norm_num)
  ⟨h.1, h.2.1⟩

/-! ## Stock below zero, and the ledger after a sale edit -/

theorem depotProcured_eq : depotProcured =
    { produce := [⟨1, "Maize", "grain", 1, 50⟩]
      procurement := [⟨1, 1, "Okello", "0700", "farm", 50, 10, 500, 12, 1, 1⟩]
      sales := []
      credit_sales := []
      next_produce_id := 2
      next_procurement_id := 2
      next_sale_id := 1
      next_credit_id := 1 } := by
  simp [depotProcured, createProcurement, emptyDepot, ceo, procure50, branchDenied, addStock,
    newProcurement]

theorem depotSoldOut_eq : depotSoldOut =
    { produce := [⟨1, "Maize", "grain", 1, 0⟩]
      procurement := [⟨1, 1, "Okello", "0700", "farm", 50, 10, 500, 12, 1, 1⟩]
      sales := [⟨1, 1, "Birungi", "0702", 50, 500, 1, 1, "cash"⟩]
      credit_sales := []
      next_produce_id := 2
      next_procurement_id := 2
      next_sale_id := 2
      next_credit_id := 1 } := by
  rw [depotSoldOut, depotProcured_eq]
  simp [createSale, ceo, sale50, branchDenied, subStock, newSale]

theorem depotSold30_eq : depotSold30 =
    { produce := [⟨1, "Maize", "grain", 1, 20⟩]
      procurement := [⟨1, 1, "Okello", "0700", "farm", 50, 10, 500, 12, 1, 1⟩]
      sales := [⟨1, 1, "Birungi", "0702", 30, 300, 1, 1, "cash"⟩]
      credit_sales := []
      next_produce_id := 2
      next_procurement_id := 2
      next_sale_id := 2
      next_credit_id := 1 } := by
  rw [depotSold30, depotProcured_eq]
  simp [createSale, ceo, sale30, branchDenied, subStock, newSale]
  norm_num

/-- C1: the code at a failing input.  From a store whose only produce row has
stock 0, a procurement of 50 tons (201) and a sale of 50 tons (201) leave
stock 0; then deleteProcurement of that procurement answers 200 and leaves
stock -50, updateProcurement lowering its tonnage to 10 answers 200 and
leaves stock -40, and updateStock with current_stock -5 answers 200 and
leaves stock -5. -/
theorem stock_negative_after_reversal :
    StockNonneg emptyDepot ∧
    (createProcurement emptyDepot ceo procure50).1.status = 201 ∧
    (createSale depotProcured ceo sale50).1.status = 201 ∧
    StockNonneg depotSoldOut ∧
    (deleteProcurement depotSoldOut ceo 1).1.status = 200 ∧
    (deleteProcurement depotSoldOut ceo 1).2.produce = [⟨1, "Maize", "grain", 1, -50⟩] ∧
    (updateProcurement depotSoldOut ceo 1 tonnage10).1.status = 200 ∧
    (updateProcurement depotSoldOut ceo 1 tonnage10).2.produce =
      [⟨1, "Maize", "grain", 1, -40⟩] ∧
    (updateStock depotSoldOut ceo 1 stockMinus5).1.status = 200 ∧
    (updateStock depotSoldOut ceo 1 stockMinus5).2.produce = [⟨1, "Maize", "grain", 1, -5⟩] ∧
    ¬ StockNonneg (deleteProcurement depotSoldOut ceo 1).2 := by
  refine ⟨?_, ?_, ?_, ?_, ?_, ?_, ?_, ?_, ?_, ?_, ?_⟩
  · simp [StockNonneg, emptyDepot]
  · simp [createProcurement, ceo, procure50, branchDenied]
  · rw [depotProcured_eq]
    simp [createSale, ceo, sale50, branchDenied]
  · rw [depotSoldOut_eq]
    simp [StockNonneg]
  · rw [depotSoldOut_eq]
    simp [deleteProcurement, ceo, branchDenied]
  · rw [depotSoldOut_eq]
    simp [deleteProcurement, ceo, branchDenied, subStock]
  · rw [depotSoldOut_eq]
    simp [updateProcurement, ceo, branchDenied, tonnage10, ProcurementUpdate.isEmpty]
  · rw [depotSoldOut_eq]
    simp [updateProcurement, ceo, branchDenied, tonnage10, ProcurementUpdate.isEmpty, addStock]
    norm_num
  · rw [depotSoldOut_eq]
    simp [updateStock, ceo, branchDenied, stockMinus5]
  · rw [depotSoldOut_eq]
    simp [updateStock, ceo, branchDenied, stockMinus5, applyStockUpdate]
  · rw [depotSoldOut_eq]
    simp [StockNonneg, deleteProcurement, ceo, branchDenied, subStock]

/-- C9: the code at a failing input.  From a store with one produce row of
stock 0 and no procurement or sale rows, a procurement of 50 tons (201) and a
sale of 30 tons (201) give a ledger-consistent state with stock 20; updateSale
setting that sale's tonnage to 10 answers 200 and leaves stock 20, while
procured minus sold tonnage is now 40: the ledger equation fails. -/
theorem ledger_broken_by_updateSale :
    LedgerConsistent emptyDepot ∧
    (createProcurement emptyDepot ceo procure50).1.status = 201 ∧
    (createSale depotProcured ceo sale30).1.status = 201 ∧
    LedgerConsistent depotSold30 ∧
    (updateSale depotSold30 ceo 1 saleTonnage10).1.status = 200 ∧
    (updateSale depotSold30 ceo 1 saleTonnage10).2.produce = [⟨1, "Maize", "grain", 1, 20⟩] ∧
    procuredTonnage (updateSale depotSold30 ceo 1 saleTonnage10).2 1 1 -
      soldTonnage (updateSale depotSold30 ceo 1 saleTonnage10).2 1 1 = 40 ∧
    ¬ LedgerConsistent (updateSale depotSold30 ceo 1 saleTonnage10).2 := by
  have hrun : updateSale depotSold30 ceo 1 saleTonnage10 =
      (⟨200, "Sale updated successfully"⟩,
        { produce := [⟨1, "Maize", "grain", 1, 20⟩]
          procurement := [⟨1, 1, "Okello", "0700", "farm", 50, 10, 500, 12, 1, 1⟩]
          sales := [⟨1, 1, "Birungi", "0702", 10, 300, 1, 1, "cash"⟩]
          credit_sales := []
          next_produce_id := 2
          next_procurement_id := 2
          next_sale_id := 2
          next_credit_id := 1 }) := by
    rw [depotSold30_eq]
    simp [updateSale, ceo, branchDenied, saleTonnage10, SaleUpdate.isEmpty, applySaleUpdate]
  refine ⟨?_, ?_, ?_, ?_, ?_, ?_, ?_, ?_⟩
  · simp [LedgerConsistent, emptyDepot, procuredTonnage, soldTonnage]
  · simp [createProcurement, ceo, procure50, branchDenied]
  · rw [depotProcured_eq]
    norm_num [createSale, ceo, sale30, branchDenied]
  · rw [depotSold30_eq]
    simp [LedgerConsistent, procuredTonnage, soldTonnage]
    norm_num
  · rw [hrun]
  · rw [hrun]
  · rw [hrun]
    simp [procuredTonnage, soldTonnage]
    norm_num
  · rw [hrun]
    simp [LedgerConsistent, procuredTonnage, soldTonnage]
    norm_num

/-! ## Rejected requests -/

/-- C13: when the payment amount of an updateCreditPayment request is
missing, zero or negative, the call answers 400 and returns the store it was
given, whatever the credit id is, stored or not. -/
theorem updateCreditPayment_rejects_nonpositive (s : Store) (user : User) (id : Nat)
    (amount_paid : Option ℚ)
    (h : amount_paid = none ∨ ∃ v, amount_paid = some v ∧ v ≤ 0) :
    updateCreditPayment s user id amount_paid =
      (⟨400, "Valid payment amount is required"⟩, s) := by
  have hguard : truthy amount_paid = false ∨ amount_paid.getD 0 ≤ 0 := by
    rcases h with rfl | ⟨v, rfl, hv⟩
    · left; rfl
    · right; simpa using hv
  simp only [updateCreditPayment, hguard, if_true]

theorem updateCreditPayment_rejects_nonpositive_witness :
    updateCreditPayment sampleStore manager 1 (some (-20)) =
      (⟨400, "Valid payment amount is required"⟩, sampleStore) :=
  updateCreditPayment_rejects_nonpositive sampleStore manager 1 (some (-20))
    (Or.inr ⟨-20, rfl, by norm_num⟩)

/-- C16: when the request passes the branch check and no produce row has the
request's (produce_id, branch_id), createSale answers 404 and returns the
store it was given: no sale row, no credit row, no stock change. -/
theorem createSale_produce_not_found (s : Store) (user : User) (body : SaleBody)
    (hacc : branchDenied user body.branch_id = false)
    (hno : ∀ p ∈ s.produce, ¬ (p.produce_id = body.produce_id ∧ p.branch_id = body.branch_id)) :
    createSale s user body = (⟨404, "Produce not found in this branch"⟩, s) := by
  have hf : s.produce.filter
      (fun q => decide (q.produce_id = body.produce_id ∧ q.branch_id = body.branch_id)) = [] := by
    rw [List.filter_eq_nil_iff]
    intro p hp
    simpa using hno p hp
  simp only [createSale, hacc, hf]
  simp

theorem createSale_produce_not_found_witness :
    createSale sampleStore manager2 saleOtherBranch =
      (⟨404, "Produce not found in this branch"⟩, sampleStore) :=
  createSale_produce_not_found sampleStore manager2 saleOtherBranch
    (by simp [branchDenied, manager2, saleOtherBranch])
    (by simp [sampleStore, saleOtherBranch])

/-- C17: the code at a failing input.  No produce row of the sample store has
(produce_id 1, branch_id 2); for a procurement request naming that pair, by
the manager of branch 2, createProcurement answers 201, stores the procurement
row and leaves every produce row as it was: there is no 404 and the row is
persisted. -/
theorem createProcurement_without_produce :
    (∀ p ∈ sampleStore.produce, ¬ (p.produce_id = 1 ∧ p.branch_id = 2)) ∧
    branchDenied manager2 procureOtherBranch.branch_id = false ∧
    (createProcurement sampleStore manager2 procureOtherBranch).1 =
      ⟨201, "Procurement recorded successfully"⟩ ∧
    (createProcurement sampleStore manager2 procureOtherBranch).2.procurement =
      sampleStore.procurement ++ [⟨2, 1, "Okello", "0700", "farm", 50, 10, 500, 12, 2, 3⟩] ∧
    (createProcurement sampleStore manager2 procureOtherBranch).2.produce =
      sampleStore.produce := by
  refine ⟨?_, ?_, ?_, ?_, ?_⟩
  · simp [sampleStore]
  · simp [branchDenied, manager2, procureOtherBranch]
  · simp [createProcurement, branchDenied, manager2, procureOtherBranch]
  · simp [createProcurement, branchDenied, manager2, procureOtherBranch, newProcurement,
      sampleStore]
  · simp [createProcurement, branchDenied, manager2, procureOtherBranch, addStock, sampleStore]

/-- C18: for an actor whose role is not CEO and a request body whose
branch_id is not the actor's branch_id, createProcurement, createSale and
createStock each answer 403 and return the store they were given, whatever
the other fields of the body are. -/
theorem create_cross_branch_denied (user : User) (hrole : user.role ≠ "CEO") :
    (∀ (s : Store) (body : ProcurementBody), user.branch_id ≠ some body.branch_id →
      createProcurement s user body = (⟨403, "Access denied to this branch"⟩, s)) ∧
    (∀ (s : Store) (body : SaleBody), user.branch_id ≠ some body.branch_id →
      createSale s user body = (⟨403, "Access denied to this branch"⟩, s)) ∧
    (∀ (s : Store) (body : StockBody), user.branch_id ≠ some body.branch_id →
      createStock s user body = (⟨403, "Access denied to this branch"⟩, s)) := by
  refine ⟨?_, ?_, ?_⟩
  · intro s body hb
    have hden : branchDenied user body.branch_id = true := by simp [branchDenied, hrole, hb]
    simp [createProcurement, hden]
  · intro s body hb
    have hden : branchDenied user body.branch_id = true := by simp [branchDenied, hrole, hb]
    simp [createSale, hden]
  · intro s body hb
    have hden : branchDenied user body.branch_id = true := by simp [branchDenied, hrole, hb]
    simp [createStock, hden]

theorem create_cross_branch_denied_witness :
    createProcurement sampleStore manager2 procure50 =
      (⟨403, "Access denied to this branch"⟩, sampleStore) ∧
    createSale sampleStore manager2 sale30 =
      (⟨403, "Access denied to this branch"⟩, sampleStore) ∧
    createStock sampleStore manager2 riceBranch1 =
      (⟨403, "Access denied to this branch"⟩, sampleStore) :=
  have h := create_cross_branch_denied manager2 (by simp [manager2])
  ⟨h.1 sampleStore procure50 (by simp [manager2, procure50]),
    h.2.1 sampleStore sale30 (by simp [manager2, sale30]),
    h.2.2 sampleStore riceBranch1 (by simp [manager2, riceBranch1])⟩

/-! ## The credit record of a credit sale -/

theorem createSale_cases (s : Store) (user : User) (body : SaleBody) :
    (createSale s user body).2 = s ∨ (createSale s user body).1.status = 201 := by
  cases hacc : branchDenied user body.branch_id with
  | true => left; simp [createSale, hacc]
  | false =>
    cases hf : s.produce.filter
        (fun q => decide (q.produce_id = body.produce_id ∧ q.branch_id = body.branch_id)) with
    | nil =>
      left
      simp only [createSale, hacc, hf]
      simp
    | cons p rest =>
      rw [createSale_of_row s user body p rest hacc hf]
      by_cases hlt : p.current_stock < body.tonnage
      · left; simp [hlt]
      · right; simp [hlt]

/-- C15: whenever createSale inserts a credit record, the credit table gains
exactly that one record, and it has amount_paid 0, payment_status "pending",
the sale_id of the sale row created by the same call, and the amount_due and
due_date of the request. -/
theorem createSale_credit_record (s : Store) (user : User) (body : SaleBody)
    (hins : (createSale s user body).2.credit_sales ≠ s.credit_sales) :
    ∃ (c : CreditSale) (sale : Sale),
      (createSale s user body).2.credit_sales = s.credit_sales ++ [c] ∧
      (createSale s user body).2.sales = s.sales ++ [sale] ∧
      c.sale_id = sale.sale_id ∧
      c.amount_paid = 0 ∧
      c.payment_status = "pending" ∧
      some c.amount_due = body.amount_due ∧
      c.due_date = body.due_date := by
  rcases createSale_cases s user body with hsame | hok
  · rw [hsame] at hins
    exact absurd rfl hins
  · have hc := createSale_created s user body hok
    rw [hc] at hins ⊢
    by_cases hcr : body.payment_type = "credit" ∧ truthy body.amount_due = true
    · refine ⟨newCredit s body (body.amount_due.getD 0), newSale s user body, ?_, rfl, rfl,
        rfl, rfl, ?_, rfl⟩
      · simp [hcr]
      · have htr := hcr.2
        cases hd : body.amount_due with
        | none => simp [hd, truthy] at htr
        | some v => simp [newCredit]
    · simp [hcr] at hins

theorem createSale_credit_record_witness :
    ∃ (c : CreditSale) (sale : Sale),
      (createSale sampleStore manager sale40credit).2.credit_sales =
        sampleStore.credit_sales ++ [c] ∧
      (createSale sampleStore manager sale40credit).2.sales = sampleStore.sales ++ [sale] ∧
      c.sale_id = sale.sale_id ∧
      c.amount_paid = 0 ∧
      c.payment_status = "pending" ∧
      some c.amount_due = sale40credit.amount_due ∧
      c.due_date = sale40credit.due_date :=
  createSale_credit_record sampleStore manager sale40credit
    (by norm_num [createSale, sampleStore, manager, sale40credit, branchDenied, truthy])

/-! ## The ownership check of the by-id operations -/

theorem branchDenied_of_other_branch (user : User) (branch_id : Nat)
    (hrole : user.role ≠ "CEO") (hb : user.branch_id ≠ some branch_id) :
    branchDenied user branch_id = true := by
  simp [branchDenied, hrole, hb]

theorem branchDenied_ceo (user : User) (branch_id : Nat) (hrole : user.role = "CEO") :
    branchDenied user branch_id = false := by
  simp [branchDenied, hrole]

/-- C19, the claim as stated, at a failing input: credit record 1 of the
sample store is stored with its sale, of branch 1; the manager of branch 2 is
not a CEO; a payment request on that record with no amount is answered 400,
not 403. -/
theorem payment_amount_checked_before_ownership :
    selectCreditWithBranch sampleStore 1 = [(aminaCredit, 1)] ∧
    manager2.role ≠ "CEO" ∧
    manager2.branch_id ≠ some 1 ∧
    updateCreditPayment sampleStore manager2 1 none =
      (⟨400, "Valid payment amount is required"⟩, sampleStore) ∧
    (updateCreditPayment sampleStore manager2 1 none).1.status ≠ 403 := by
  refine ⟨?_, ?_, ?_, ?_, ?_⟩
  · simp [selectCreditWithBranch, sampleStore, aminaCredit]
  · simp [manager2]
  · simp [manager2]
  · simp [updateCreditPayment, truthy]
  · simp [updateCreditPayment, truthy]

/-- C19, amended: for every by-id operation whose row exists (the read or the
update, delete of a procurement, a sale, a stock row; the read of a credit;
a payment above zero on a credit), an actor whose role is not CEO and whose
branch_id is not the fetched row's branch gets 403 and the store is returned
as given; and an actor whose role is CEO never gets 403 from any of these
operations.  (The read of a credit answers 403 to every actor whose role is
not CEO, whatever the branch.) -/
theorem by_id_ownership_check (user : User) :
    (user.role ≠ "CEO" →
      (∀ (d : Directory) (s : Store) (id : Nat) (row : Procurement) (rest : List Procurement),
        (procurementJoined d s).filter (fun p => p.procurement_id = id) = row :: rest →
        user.branch_id ≠ some row.branch_id →
        getProcurementById d s user id = ⟨403, "Access denied"⟩) ∧
      (∀ (s : Store) (id : Nat) (u : ProcurementUpdate) (row : Procurement)
          (rest : List Procurement),
        s.procurement.filter (fun p => p.procurement_id = id) = row :: rest →
        user.branch_id ≠ some row.branch_id →
        updateProcurement s user id u = (⟨403, "Access denied"⟩, s)) ∧
      (∀ (s : Store) (id : Nat) (row : Procurement) (rest : List Procurement),
        s.procurement.filter (fun p => p.procurement_id = id) = row :: rest →
        user.branch_id ≠ some row.branch_id →
        deleteProcurement s user id = (⟨403, "Access denied"⟩, s)) ∧
      (∀ (d : Directory) (s : Store) (id : Nat) (row : Sale) (rest : List Sale),
        (salesJoined d s).filter (fun r => r.sale_id = id) = row :: rest →
        user.branch_id ≠ some row.branch_id →
        getSaleById d s user id = ⟨403, "Access denied"⟩) ∧
      (∀ (s : Store) (id : Nat) (u : SaleUpdate) (row : Sale) (rest : List Sale),
        s.sales.filter (fun r => r.sale_id = id) = row :: rest →
        user.branch_id ≠ some row.branch_id →
        updateSale s user id u = (⟨403, "Access denied"⟩, s)) ∧
      (∀ (s : Store) (id : Nat) (row : Sale) (rest : List Sale),
        s.sales.filter (fun r => r.sale_id = id) = row :: rest →
        user.branch_id ≠ some row.branch_id →
        deleteSale s user id = (⟨403, "Access denied"⟩, s)) ∧
      (∀ (d : Directory) (s : Store) (id : Nat) (row : Produce) (rest : List Produce),
        (produceJoined d s).filter (fun p => p.produce_id = id) = row :: rest →
        user.branch_id ≠ some row.branch_id →
        getStockById d s user id = ⟨403, "Access denied"⟩) ∧
      (∀ (s : Store) (id : Nat) (u : StockUpdate) (row : Produce) (rest : List Produce),
        s.produce.filter (fun p => p.produce_id = id) = row :: rest →
        user.branch_id ≠ some row.branch_id →
        updateStock s user id u = (⟨403, "Access denied"⟩, s)) ∧
      (∀ (s : Store) (id : Nat) (row : Produce) (rest : List Produce),
        s.produce.filter (fun p => p.produce_id = id) = row :: rest →
        user.branch_id ≠ some row.branch_id →
        deleteStock s user id = (⟨403, "Access denied"⟩, s)) ∧
      (∀ (d : Directory) (s : Store) (id : Nat) (row : CreditSale × Sale)
          (rest : List (CreditSale × Sale)),
        (creditJoined d s).filter (fun cr => cr.1.credit_id = id) = row :: rest →
        getCreditById d s user id = ⟨403, "Access denied"⟩) ∧
      (∀ (s : Store) (id : Nat) (amount : ℚ) (credit : CreditSale) (branch_id : Nat)
          (rest : List (CreditSale × Nat)),
        0 < amount →
        selectCreditWithBranch s id = (credit, branch_id) :: rest →
        user.branch_id ≠ some branch_id →
        updateCreditPayment s user id (some amount) = (⟨403, "Access denied"⟩, s))) ∧
    (user.role = "CEO" →
      (∀ d s id, (getProcurementById d s user id).status ≠ 403) ∧
      (∀ s id u, (updateProcurement s user id u).1.status ≠ 403) ∧
      (∀ s id, (deleteProcurement s user id).1.status ≠ 403) ∧
      (∀ d s id, (getSaleById d s user id).status ≠ 403) ∧
      (∀ s id u, (updateSale s user id u).1.status ≠ 403) ∧
      (∀ s id, (deleteSale s user id).1.status ≠ 403) ∧
      (∀ d s id, (getStockById d s user id).status ≠ 403) ∧
      (∀ s id u, (updateStock s user id u).1.status ≠ 403) ∧
      (∀ s id, (deleteStock s user id).1.status ≠ 403) ∧
      (∀ d s id, (getCreditById d s user id).status ≠ 403) ∧
      (∀ s id amount, (updateCreditPayment s user id amount).1.status ≠ 403)) := by
  constructor
  · intro hrole
    refine ⟨?_, ?_, ?_, ?_, ?_, ?_, ?_, ?_, ?_, ?_, ?_⟩
    · intro d s id row rest hf hb
      have hden := branchDenied_of_other_branch user row.branch_id hrole hb
      simp only [getProcurementById, hf, hden, if_true]
    · intro s id u row rest hf hb
      have hden := branchDenied_of_other_branch user row.branch_id hrole hb
      simp only [updateProcurement, hf, hden, if_true]
    · intro s id row rest hf hb
      have hden := branchDenied_of_other_branch user row.branch_id hrole hb
      simp only [deleteProcurement, hf, hden, if_true]
    · intro d s id row rest hf hb
      have hden := branchDenied_of_other_branch user row.branch_id hrole hb
      simp only [getSaleById, hf, hden, if_true]
    · intro s id u row rest hf hb
      have hden := branchDenied_of_other_branch user row.branch_id hrole hb
      simp only [updateSale, hf, hden, if_true]
    · intro s id row rest hf hb
      have hden := branchDenied_of_other_branch user row.branch_id hrole hb
      simp only [deleteSale, hf, hden, if_true]
    · intro d s id row rest hf hb
      have hden := branchDenied_of_other_branch user row.branch_id hrole hb
      simp only [getStockById, hf, hden, if_true]
    · intro s id u row rest hf hb
      have hden := branchDenied_of_other_branch user row.branch_id hrole hb
      simp only [updateStock, hf, hden, if_true]
    · intro s id row rest hf hb
      have hden := branchDenied_of_other_branch user row.branch_id hrole hb
      simp only [deleteStock, hf, hden, if_true]
    · intro d s id row rest hf
      simp only [getCreditById, hf]
      simp [hrole]
    · intro s id amount credit branch_id rest hpos hf hb
      have hden := branchDenied_of_other_branch user branch_id hrole hb
      have hguard : ¬ (truthy (some amount) = false ∨ (some amount).getD 0 ≤ 0) := by
        have hne : amount ≠ 0 := ne_of_gt hpos
        simp [truthy, hne, hpos]
      simp only [updateCreditPayment, hguard, hf, hden, if_true, if_false]
  · intro hceo
    have hden : ∀ b, branchDenied user b = false := fun b => branchDenied_ceo user b hceo
    refine ⟨?_, ?_, ?_, ?_, ?_, ?_, ?_, ?_, ?_, ?_, ?_⟩
    · intro d s id
      unfold getProcurementById
      split <;> simp [hden]
    · intro s id u
      unfold updateProcurement
      split
      · simp
      · simp only [hden, Bool.false_eq_true, if_false]
        split <;> simp
    · intro s id
      unfold deleteProcurement
      split <;> simp [hden]
    · intro d s id
      unfold getSaleById
      split <;> simp [hden]
    · intro s id u
      unfold updateSale
      split
      · simp
      · simp only [hden, Bool.false_eq_true, if_false]
        split <;> simp
    · intro s id
      unfold deleteSale
      split <;> simp [hden]
    · intro d s id
      unfold getStockById
      split <;> simp [hden]
    · intro s id u
      unfold updateStock
      split
      · simp
      · simp only [hden, Bool.false_eq_true, if_false]
        split <;> simp
    · intro s id
      unfold deleteStock
      split
      · simp
      · simp only [hden, Bool.false_eq_true, if_false]
        split <;> simp
    · intro d s id
      unfold getCreditById
      split <;> simp [hceo]
    · intro s id amount
      unfold updateCreditPayment
      split
      · simp
      · split
        · simp
        · simp [hden]

theorem by_id_ownership_check_witness :
    deleteSale sampleStore manager2 1 = (⟨403, "Access denied"⟩, sampleStore) ∧
    updateCreditPayment sampleStore manager2 1 (some 1500) =
      (⟨403, "Access denied"⟩, sampleStore) ∧
    (updateCreditPayment sampleStore ceo 1 (some 1500)).1.status ≠ 403 :=
  ⟨(by_id_ownership_check manager2).1 (by simp [manager2]) |>.2.2.2.2.2.1 sampleStore 1
      aminaRow [] (by simp [sampleStore, aminaRow]) (by simp [manager2, aminaRow]),
    (by_id_ownership_check manager2).1 (by simp [manager2]) |>.2.2.2.2.2.2.2.2.2.2 sampleStore 1
      1500 aminaCredit 1 [] (by norm_num)
      (by simp [selectCreditWithBranch, sampleStore, aminaCredit]) (by simp [manager2]),
    (by_id_ownership_check ceo).2 (by simp [ceo]) |>.2.2.2.2.2.2.2.2.2.2 sampleStore 1
      (some 1500)⟩

/-! ## The branch clause of the list operations -/

theorem scope_not_ceo (user : User) (q : Option Nat) (hrole : user.role ≠ "CEO") :
    branchScope user q = some user.branch_id := by
  simp [branchScope, hrole]

theorem scope_ceo_some (user : User) (b : Nat) (hrole : user.role = "CEO") :
    branchScope user (some b) = some (some b) := by
  simp [branchScope, hrole]

theorem scope_ceo_none (user : User) (hrole : user.role = "CEO") :
    branchScope user none = none := by
  simp [branchScope, hrole]

theorem filter_scope_param {α : Type} (rows : List α) (branch : α → Nat) (param : Option Nat) :
    rows.filter (fun r => scopeAdmits (some param) (branch r)) =
      rows.filter (fun r => param = some (branch r)) := by
  apply List.filter_congr
  intro r _
  simp [scopeAdmits]

theorem filter_scope_branch {α : Type} (rows : List α) (branch : α → Nat) (b : Nat) :
    rows.filter (fun r => scopeAdmits (some (some b)) (branch r)) =
      rows.filter (fun r => branch r = b) := by
  apply List.filter_congr
  intro r _
  simp [scopeAdmits, eq_comm]

theorem filter_scope_none {α : Type} (rows : List α) (branch : α → Nat) :
    rows.filter (fun r => scopeAdmits none (branch r)) = rows := by
  simp [scopeAdmits]

/-- The rows each of the five list operations that answer (getAllStock,
getAllSales, getAllProcurements, getAllCredits, getLowStockAlerts) returns
are the rows of its other clauses filtered by branch: for an actor who is not
CEO, by the actor's branch_id, whatever branch_id the query supplies; for a
CEO whose query supplies a branch_id, by that branch_id; for a CEO whose
query supplies none, not filtered by branch at all. -/
theorem list_branch_filter (user : User) (d : Directory) (s : Store) :
    (user.role ≠ "CEO" → ∀ q : Option Nat,
      (∀ type, getAllStock d s user q type =
        (stockRows d s type).filter (fun p => user.branch_id = some p.branch_id)) ∧
      (∀ dates pt, getAllSales d s user q dates pt =
        (saleRows d s dates pt).filter (fun r => user.branch_id = some r.branch_id)) ∧
      (∀ dates, getAllProcurements d s user q dates =
        (procurementRows d s dates).filter (fun p => user.branch_id = some p.branch_id)) ∧
      (∀ ps overdue, getAllCredits d s user q ps overdue =
        (creditRows d s ps overdue).filter (fun cr => user.branch_id = some cr.2.branch_id)) ∧
      (∀ threshold, getLowStockAlerts d s user q threshold =
        (lowStockRows d s threshold).filter (fun p => user.branch_id = some p.branch_id))) ∧
    (user.role = "CEO" → ∀ b : Nat,
      (∀ type, getAllStock d s user (some b) type =
        (stockRows d s type).filter (fun p => p.branch_id = b)) ∧
      (∀ dates pt, getAllSales d s user (some b) dates pt =
        (saleRows d s dates pt).filter (fun r => r.branch_id = b)) ∧
      (∀ dates, getAllProcurements d s user (some b) dates =
        (procurementRows d s dates).filter (fun p => p.branch_id = b)) ∧
      (∀ ps overdue, getAllCredits d s user (some b) ps overdue =
        (creditRows d s ps overdue).filter (fun cr => cr.2.branch_id = b)) ∧
      (∀ threshold, getLowStockAlerts d s user (some b) threshold =
        (lowStockRows d s threshold).filter (fun p => p.branch_id = b))) ∧
    (user.role = "CEO" →
      (∀ type, getAllStock d s user none type = stockRows d s type) ∧
      (∀ dates pt, getAllSales d s user none dates pt = saleRows d s dates pt) ∧
      (∀ dates, getAllProcurements d s user none dates = procurementRows d s dates) ∧
      (∀ ps overdue, getAllCredits d s user none ps overdue = creditRows d s ps overdue) ∧
      (∀ threshold, getLowStockAlerts d s user none threshold = lowStockRows d s threshold)) := by
  refine ⟨?_, ?_, ?_⟩
  · intro hrole q
    have hs := scope_not_ceo user q hrole
    refine ⟨?_, ?_, ?_, ?_, ?_⟩
    · intro type
      simp only [getAllStock, hs]
      exact filter_scope_param _ _ _
    · intro dates pt
      simp only [getAllSales, hs]
      exact filter_scope_param _ _ _
    · intro dates
      simp only [getAllProcurements, hs]
      exact filter_scope_param _ _ _
    · intro ps overdue
      simp only [getAllCredits, hs]
      exact filter_scope_param _ (fun cr : CreditSale × Sale => cr.2.branch_id) _
    · intro threshold
      simp only [getLowStockAlerts, hs]
      exact filter_scope_param _ _ _
  · intro hrole b
    have hs := scope_ceo_some user b hrole
    refine ⟨?_, ?_, ?_, ?_, ?_⟩
    · intro type
      simp only [getAllStock, hs]
      exact filter_scope_branch _ _ _
    · intro dates pt
      simp only [getAllSales, hs]
      exact filter_scope_branch _ _ _
    · intro dates
      simp only [getAllProcurements, hs]
      exact filter_scope_branch _ _ _
    · intro ps overdue
      simp only [getAllCredits, hs]
      exact filter_scope_branch _ (fun cr : CreditSale × Sale => cr.2.branch_id) _
    · intro threshold
      simp only [getLowStockAlerts, hs]
      exact filter_scope_branch _ _ _
  · intro hrole
    have hs := scope_ceo_none user hrole
    refine ⟨?_, ?_, ?_, ?_, ?_⟩
    · intro type
      simp only [getAllStock, hs]
      exact filter_scope_none _ _
    · intro dates pt
      simp only [getAllSales, hs]
      exact filter_scope_none _ _
    · intro dates
      simp only [getAllProcurements, hs]
      exact filter_scope_none _ _
    · intro ps overdue
      simp only [getAllCredits, hs]
      exact filter_scope_none _ (fun cr : CreditSale × Sale => cr.2.branch_id)
    · intro threshold
      simp only [getLowStockAlerts, hs]
      exact filter_scope_none _ _

theorem list_branch_filter_witness :
    getAllStock sampleDirectory sampleStore manager2 (some 1) none =
      (stockRows sampleDirectory sampleStore none).filter
        (fun p => manager2.branch_id = some p.branch_id) ∧
    getAllSales sampleDirectory sampleStore ceo (some 1) (fun _ => true) none =
      (saleRows sampleDirectory sampleStore (fun _ => true) none).filter
        (fun r => r.branch_id = 1) ∧
    getAllCredits sampleDirectory sampleStore ceo none none (fun _ => false) =
      creditRows sampleDirectory sampleStore none (fun _ => false) :=
  have hm := (list_branch_filter manager2 sampleDirectory sampleStore).1 (by simp [manager2])
  have hc := (list_branch_filter ceo sampleDirectory sampleStore).2
  ⟨(hm (some 1)).1 none, ((hc.1 (by simp [ceo]) 1).2.1) (fun _ => true) none,
    (hc.2 (by simp [ceo])).2.2.2.1 none (fun _ => false)⟩

/-! ## What a request does to the sales and credit tables -/

theorem sameSalesCredit_refl (s : Store) : SameSalesCredit s s := ⟨rfl, rfl, rfl, rfl⟩

theorem createProcurement_frame (s : Store) (user : User) (body : ProcurementBody) :
    SameSalesCredit s (createProcurement s user body).2 := by
  unfold createProcurement
  split
  · exact sameSalesCredit_refl s
  · exact ⟨rfl, rfl, rfl, rfl⟩

theorem updateProcurement_frame (s : Store) (user : User) (id : Nat) (u : ProcurementUpdate) :
    SameSalesCredit s (updateProcurement s user id u).2 := by
  unfold updateProcurement
  split
  · exact sameSalesCredit_refl s
  · split
    · exact sameSalesCredit_refl s
    · split
      · exact sameSalesCredit_refl s
      · exact ⟨rfl, rfl, rfl, rfl⟩

theorem deleteProcurement_frame (s : Store) (user : User) (id : Nat) :
    SameSalesCredit s (deleteProcurement s user id).2 := by
  unfold deleteProcurement
  split
  · exact sameSalesCredit_refl s
  · split
    · exact sameSalesCredit_refl s
    · exact ⟨rfl, rfl, rfl, rfl⟩

theorem createStock_frame (s : Store) (user : User) (body : StockBody) :
    SameSalesCredit s (createStock s user body).2 := by
  unfold createStock
  split
  · exact sameSalesCredit_refl s
  · split
    · exact sameSalesCredit_refl s
    · exact ⟨rfl, rfl, rfl, rfl⟩

theorem updateStock_frame (s : Store) (user : User) (id : Nat) (u : StockUpdate) :
    SameSalesCredit s (updateStock s user id u).2 := by
  unfold updateStock
  split
  · exact sameSalesCredit_refl s
  · split
    · exact sameSalesCredit_refl s
    · split
      · exact sameSalesCredit_refl s
      · exact ⟨rfl, rfl, rfl, rfl⟩

theorem deleteStock_frame (s : Store) (user : User) (id : Nat) :
    SameSalesCredit s (deleteStock s user id).2 := by
  unfold deleteStock
  split
  · exact sameSalesCredit_refl s
  · split
    · exact sameSalesCredit_refl s
    · split
      · exact sameSalesCredit_refl s
      · exact ⟨rfl, rfl, rfl, rfl⟩

theorem createSale_effect (s : Store) (user : User) (body : SaleBody) :
    SalesCreditEffect s (.createSale user body) (createSale s user body).2 := by
  rcases createSale_cases s user body with hsame | hok
  · rw [hsame]
    exact .same (sameSalesCredit_refl s)
  · rw [createSale_created s user body hok]
    by_cases hcr : body.payment_type = "credit" ∧ truthy body.amount_due = true
    · have htr := hcr.2
      cases hd : body.amount_due with
      | none => simp [hd, truthy] at htr
      | some v =>
        have hv : v ≠ 0 := by simpa [hd, truthy] using htr
        refine .soldOnCredit user body v rfl rfl rfl hcr.1 hd hv ?_ ?_
        · simp [hcr.1, truthy, hv, hd]
        · simp [hcr.1, truthy, hv, hd]
    · refine .sold user body rfl rfl ?_ ?_ hcr
      · simp [hcr]
      · simp [hcr]

theorem updateSale_effect (s : Store) (user : User) (id : Nat) (u : SaleUpdate) :
    SalesCreditEffect s (.updateSale user id u) (updateSale s user id u).2 := by
  unfold updateSale
  split
  · exact .same (sameSalesCredit_refl s)
  · split
    · exact .same (sameSalesCredit_refl s)
    · split
      · exact .same (sameSalesCredit_refl s)
      · exact .edited id u rfl rfl rfl rfl

theorem deleteSale_salesCreditEffect (s : Store) (user : User) (id : Nat) :
    SalesCreditEffect s (.deleteSale user id) (deleteSale s user id).2 := by
  unfold deleteSale
  split
  · exact .same (sameSalesCredit_refl s)
  · split
    · exact .same (sameSalesCredit_refl s)
    · exact .deleted id rfl rfl rfl rfl

theorem selectCreditWithBranch_head (s : Store) (id : Nat) (credit : CreditSale)
    (branch_id : Nat) (rest : List (CreditSale × Nat))
    (h : selectCreditWithBranch s id = (credit, branch_id) :: rest) :
    credit ∈ s.credit_sales ∧ credit.credit_id = id := by
  have hmem : (credit, branch_id) ∈ selectCreditWithBranch s id := by
    rw [h]
    exact List.mem_cons_self _ _
  unfold selectCreditWithBranch at hmem
  rw [List.mem_flatMap] at hmem
  obtain ⟨c, hc, hpair⟩ := hmem
  rw [List.mem_map] at hpair
  obtain ⟨r, _, hr⟩ := hpair
  have hcc : c = credit := congrArg Prod.fst hr
  rw [List.mem_filter] at hc
  subst hcc
  exact ⟨hc.1, by simpa using hc.2⟩

theorem updateCreditPayment_salesCreditEffect (s : Store) (user : User) (id : Nat)
    (amount_paid : Option ℚ) :
    SalesCreditEffect s (.updateCreditPayment user id amount_paid)
      (updateCreditPayment s user id amount_paid).2 := by
  unfold updateCreditPayment
  split
  · exact .same (sameSalesCredit_refl s)
  · rename_i hguard
    split
    · exact .same (sameSalesCredit_refl s)
    · rename_i credit branch_id rest hsel
      split
      · exact .same (sameSalesCredit_refl s)
      · have hhead := selectCreditWithBranch_head s id credit branch_id rest hsel
        have hpos : 0 < amount_paid.getD 0 := by
          by_contra hle
          exact hguard (Or.inr (not_lt.mp hle))
        exact .paid id (amount_paid.getD 0) credit hpos hhead.1 hhead.2 rfl rfl rfl rfl

theorem step_effect (s : Store) (op : Op) : SalesCreditEffect s op (step s op).2 := by
  cases op with
  | createProcurement user body => exact .same (createProcurement_frame s user body)
  | updateProcurement user id u => exact .same (updateProcurement_frame s user id u)
  | deleteProcurement user id => exact .same (deleteProcurement_frame s user id)
  | createSale user body => exact createSale_effect s user body
  | updateSale user id u => exact updateSale_effect s user id u
  | deleteSale user id => exact deleteSale_salesCreditEffect s user id
  | createStock user body => exact .same (createStock_frame s user body)
  | updateStock user id u => exact .same (updateStock_frame s user id u)
  | deleteStock user id => exact .same (deleteStock_frame s user id)
  | updateCreditPayment user id amount => exact updateCreditPayment_salesCreditEffect s user id amount

/-! ## Invariants of the credit table -/

theorem creditTableOK_of_eq (P : CreditSale → Prop) (s t : Store)
    (hc : t.credit_sales = s.credit_sales) (hn : t.next_credit_id = s.next_credit_id)
    (h : CreditTableOK P s) : CreditTableOK P t := by
  unfold CreditTableOK CreditKeyed CreditFresh at *
  rw [hc, hn]
  exact h

theorem creditTableOK_empty (P : CreditSale → Prop) (s : Store) (h : s.credit_sales = []) :
    CreditTableOK P s := by
  unfold CreditTableOK CreditKeyed CreditFresh
  rw [h]
  simp

theorem creditTableOK_step (P : CreditSale → Prop) (V : Op → Prop)
    (hnew : ∀ (s : Store) (user : User) (body : SaleBody) (v : ℚ),
      V (.createSale user body) → body.payment_type = "credit" →
      body.amount_due = some v → v ≠ 0 → P (newCredit s body v))
    (hupd : ∀ (c : CreditSale) (a : ℚ), 0 < a → P c → P (paidUp c a))
    (s : Store) (op : Op) (hV : V op) (h : CreditTableOK P s) :
    CreditTableOK P (step s op).2 := by
  cases step_effect s op with
  | same hs => exact creditTableOK_of_eq P s _ hs.2.1 hs.2.2.2 h
  | sold user body _ _ hcredit hcnext _ => exact creditTableOK_of_eq P s _ hcredit hcnext h
  | edited id u _ _ hcredit hcnext => exact creditTableOK_of_eq P s _ hcredit hcnext h
  | soldOnCredit user body v hop _ _ htype hdue hv hcredit hcnext =>
    obtain ⟨hk, hf, hp⟩ := h
    unfold CreditTableOK CreditKeyed CreditFresh at *
    rw [hcredit, hcnext]
    refine ⟨?_, ?_, ?_⟩
    · rw [List.map_append, List.nodup_append]
      refine ⟨hk, by simp, ?_⟩
      intro x hx hx2
      rw [List.mem_map] at hx
      obtain ⟨c, hc, rfl⟩ := hx
      have hlt := hf c hc
      simp [newCredit] at hx2
      omega
    · intro c hc
      rw [List.mem_append] at hc
      rcases hc with hc | hc
      · have := hf c hc
        omega
      · simp at hc
        subst hc
        simp [newCredit]
    · intro c hc
      rw [List.mem_append] at hc
      rcases hc with hc | hc
      · exact hp c hc
      · simp at hc
        subst hc
        exact hnew s user body v (hop ▸ hV) htype hdue hv
  | deleted id _ _ hcredit hcnext =>
    obtain ⟨hk, hf, hp⟩ := h
    unfold CreditTableOK CreditKeyed CreditFresh at *
    rw [hcredit, hcnext]
    refine ⟨?_, ?_, ?_⟩
    · exact hk.sublist (List.Sublist.map _ (List.filter_sublist _))
    · intro c hc
      exact hf c (List.mem_of_mem_filter hc)
    · intro c hc
      exact hp c (List.mem_of_mem_filter hc)
  | paid id amount credit hpos hmem hid _ _ hcredit hcnext =>
    obtain ⟨hk, hf, hp⟩ := h
    unfold CreditTableOK CreditKeyed CreditFresh at *
    rw [hcredit, hcnext]
    have hids : (s.credit_sales.map fun c =>
        if c.credit_id = id then
          { c with
            amount_paid := credit.amount_paid + amount
            payment_status :=
              if credit.amount_paid + amount ≥ credit.amount_due then "paid" else "partial" }
        else c).map (fun c => c.credit_id) = s.credit_sales.map (fun c => c.credit_id) := by
      rw [List.map_map]
      apply List.map_congr_left
      intro c _
      by_cases hc : c.credit_id = id <;> simp [hc]
    refine ⟨?_, ?_, ?_⟩
    · rw [hids]
      exact hk
    · intro c hc
      rw [List.mem_map] at hc
      obtain ⟨c0, hc0, rfl⟩ := hc
      have := hf c0 hc0
      by_cases h0 : c0.credit_id = id <;> simp [h0] <;> omega
    · intro c hc
      rw [List.mem_map] at hc
      obtain ⟨c0, hc0, rfl⟩ := hc
      by_cases h0 : c0.credit_id = id
      · have heq : c0 = credit := key_inj (fun c : CreditSale => c.credit_id) hk hc0 hmem
          (h0.trans hid.symm)
        subst heq
        rw [if_pos h0]
        exact hupd c0 amount hpos (hp c0 hc0)
      · rw [if_neg h0]
        exact hp c0 hc0

theorem creditTableOK_run (P : CreditSale → Prop) (V : Op → Prop)
    (hnew : ∀ (s : Store) (user : User) (body : SaleBody) (v : ℚ),
      V (.createSale user body) → body.payment_type = "credit" →
      body.amount_due = some v → v ≠ 0 → P (newCredit s body v))
    (hupd : ∀ (c : CreditSale) (a : ℚ), 0 < a → P c → P (paidUp c a)) :
    ∀ (ops : List Op) (s : Store), (∀ op ∈ ops, V op) → CreditTableOK P s →
      CreditTableOK P (run s ops) := by
  intro ops
  induction ops with
  | nil => intro s _ h; exact h
  | cons op ops ih =>
    intro s hV h
    exact ih (step s op).2 (fun o ho => hV o (List.mem_cons_of_mem _ ho))
      (creditTableOK_step P V hnew hupd s op (hV op (List.mem_cons_self _ _)) h)

/-! ## The status of a credit record -/

theorem paidUp_status_ok (c : CreditSale) (a : ℚ) (ha : 0 < a)
    (h : 0 ≤ c.amount_paid ∧ CreditStatusOK c) :
    0 ≤ (paidUp c a).amount_paid ∧ CreditStatusOK (paidUp c a) := by
  have hpos : 0 < c.amount_paid + a := by linarith [h.1]
  refine ⟨le_of_lt hpos, ?_, ?_⟩
  · show (if c.amount_paid + a ≥ c.amount_due then "paid" else "partial") = "paid" ↔
      c.amount_due ≤ c.amount_paid + a
    by_cases hge : c.amount_paid + a ≥ c.amount_due
    · simp [hge]
    · simp [hge]
  · intro hlt
    show (0 < c.amount_paid + a →
        (if c.amount_paid + a ≥ c.amount_due then "paid" else "partial") = "partial") ∧
      (c.amount_paid + a = 0 →
        (if c.amount_paid + a ≥ c.amount_due then "paid" else "partial") = "pending")
    have hlt2 : ¬ c.amount_paid + a ≥ c.amount_due := hlt
    refine ⟨fun _ => by simp [hlt2], fun h0 => ?_⟩
    linarith

theorem newCredit_status_ok (s : Store) (body : SaleBody) (v : ℚ) (hv : 0 < v) :
    0 ≤ (newCredit s body v).amount_paid ∧ CreditStatusOK (newCredit s body v) := by
  have hnle : ¬ v ≤ 0 := not_le.mpr hv
  refine ⟨le_refl _, ?_, ?_⟩
  · show "pending" = "paid" ↔ v ≤ credit_sales_amount_paid_default
    simp [credit_sales_amount_paid_default, hnle]
  · intro _
    exact ⟨fun h0 => absurd h0 (lt_irrefl _), fun _ => rfl⟩

theorem fullDepot_negative_due :
    (createSale fullDepot manager sale40creditNegativeDue) =
      (⟨201, "Sale recorded successfully"⟩,
        { produce := [⟨1, "Maize", "grain", 1, 60⟩]
          procurement := []
          sales := [⟨1, 1, "Birungi", "0702", 40, 0, 2, 1, "credit"⟩]
          credit_sales := [⟨1, 1, some "CM2", some "Jinja", -5, 0, some "2027-01-31", "pending"⟩]
          next_produce_id := 2
          next_procurement_id := 1
          next_sale_id := 2
          next_credit_id := 2 }) := by
  norm_num [createSale, fullDepot, manager, sale40creditNegativeDue, branchDenied, subStock,
    newSale, newCredit, truthy, credit_sales_amount_paid_default]

/-- C11: the code at a failing input. On a depot with no credit records, a
credit sale whose amount_due is -5 is answered 201 and leaves a credit record
with amount_paid 0, amount_due -5 and status "pending", although amount_paid
>= amount_due: the status rule of I4 fails on it. -/
theorem credit_status_broken_by_negative_due :
    fullDepot.credit_sales = [] ∧
    (createSale fullDepot manager sale40creditNegativeDue).1.status = 201 ∧
    (run fullDepot [.createSale manager sale40creditNegativeDue]).credit_sales =
      [⟨1, 1, some "CM2", some "Jinja", -5, 0, some "2027-01-31", "pending"⟩] ∧
    ¬ CreditStatusOK ⟨1, 1, some "CM2", some "Jinja", -5, 0, some "2027-01-31", "pending"⟩ ∧
    ¬ (∀ c ∈ (run fullDepot [.createSale manager sale40creditNegativeDue]).credit_sales,
        CreditStatusOK c) := by
  have hrun : (run fullDepot [.createSale manager sale40creditNegativeDue]).credit_sales =
      [⟨1, 1, some "CM2", some "Jinja", -5, 0, some "2027-01-31", "pending"⟩] := by
    simp only [run, step]
    rw [fullDepot_negative_due]
  have hbad : ¬ CreditStatusOK
      ⟨1, 1, some "CM2", some "Jinja", -5, 0, some "2027-01-31", "pending"⟩ := by
    intro h
    have h1 := h.1.2 (by norm_num)
    simp at h1
  refine ⟨rfl, ?_, hrun, hbad, ?_⟩
  · rw [fullDepot_negative_due]
  · rw [hrun]
    intro h
    exact hbad (h _ (List.mem_singleton.mpr rfl))

/-- The status rule where the code keeps it, with exact decimals: starting
from a store with no credit records, after any sequence of requests in which
every createSale that supplies an amount_due supplies one above zero, every
credit record has status paid exactly when amount_paid >= amount_due, and
otherwise status partial when amount_paid > 0 and pending when amount_paid =
0. -/
theorem credit_status_invariant (s0 : Store) (ops : List Op)
    (h0 : s0.credit_sales = []) (hv : ∀ op ∈ ops, op.amountDuePositive) :
    ∀ c ∈ (run s0 ops).credit_sales, CreditStatusOK c := by
  have h := creditTableOK_run (fun c => 0 ≤ c.amount_paid ∧ CreditStatusOK c)
    Op.amountDuePositive
    (fun s user body v hV _ hdue _ => newCredit_status_ok s body v (hV v hdue))
    (fun c a ha hc => paidUp_status_ok c a ha hc)
    ops s0 hv (creditTableOK_empty _ s0 h0)
  intro c hc
  exact (h.2.2 c hc).2

theorem creditScenarioFirst_run :
    (run fullDepot creditScenarioFirst).credit_sales = [birungiCredit] := by
  norm_num [run, step, creditScenarioFirst, createSale, fullDepot, manager, sale40credit,
    branchDenied, subStock, newSale, newCredit, truthy, credit_sales_amount_paid_default,
    updateCreditPayment, selectCreditWithBranch, birungiCredit]

theorem credit_status_invariant_witness :
    fullDepot.credit_sales = [] ∧ CreditStatusOK birungiCredit :=
  ⟨rfl, credit_status_invariant fullDepot creditScenarioFirst rfl
    (by simp [creditScenarioFirst, Op.amountDuePositive, amountDuePositive, sale40credit])
    birungiCredit (by rw [creditScenarioFirst_run]; exact List.mem_singleton.mpr rfl)⟩

/-! ## Monotonic credit status -/

theorem updateCreditPayment_of_ok (s : Store) (user : User) (id : Nat)
    (amount_paid : Option ℚ)
    (hok : (updateCreditPayment s user id amount_paid).1.status = 200) :
    ∃ (a : ℚ) (credit : CreditSale), amount_paid = some a ∧ 0 < a ∧
      credit ∈ s.credit_sales ∧ credit.credit_id = id ∧
      (updateCreditPayment s user id amount_paid).2.credit_sales =
        s.credit_sales.map (fun c =>
          if c.credit_id = id then
            { c with
              amount_paid := credit.amount_paid + a
              payment_status :=
                if credit.amount_paid + a ≥ credit.amount_due then "paid" else "partial" }
          else c) := by
  have hok2 := hok
  unfold updateCreditPayment at hok2
  split at hok2
  · simp at hok2
  · rename_i hguard
    split at hok2
    · simp at hok2
    · rename_i credit branch_id rest hsel
      split at hok2
      · simp at hok2
      · rename_i hden
        have hhead := selectCreditWithBranch_head s id credit branch_id rest hsel
        have hden2 : branchDenied user branch_id = false := by simpa using hden
        cases amount_paid with
        | none => exact absurd (Or.inl rfl) hguard
        | some a =>
          have hpos : 0 < a := by
            by_contra hle
            exact hguard (Or.inr (by simpa using not_lt.mp hle))
          refine ⟨a, credit, rfl, hpos, hhead.1, hhead.2, ?_⟩
          simp only [updateCreditPayment, hguard, hsel, hden2]
          simp

theorem paidUp_keeps_paid (c : CreditSale) (a : ℚ) :
    (paidUp c a).payment_status = "paid" → (paidUp c a).amount_due ≤ (paidUp c a).amount_paid := by
  show (if c.amount_paid + a ≥ c.amount_due then "paid" else "partial") = "paid" →
    c.amount_due ≤ c.amount_paid + a
  by_cases hge : c.amount_paid + a ≥ c.amount_due
  · intro _; exact hge
  · simp [hge]

/-- With exact decimals and a number as the amount: in any state reached from
a store with no credit records, for a stored credit record and an
updateCreditPayment on it that answers 200, the record is replaced by one
whose payment_status is at least the old one in the order pending < partial <
paid and whose amount_paid is strictly greater; a record that was paid stays
paid; every other credit record is unchanged. -/
theorem credit_status_monotonic (s0 : Store) (ops : List Op) (user : User) (id : Nat)
    (amount_paid : Option ℚ) (c : CreditSale)
    (h0 : s0.credit_sales = [])
    (hc : c ∈ (run s0 ops).credit_sales) (hid : c.credit_id = id)
    (hok : (updateCreditPayment (run s0 ops) user id amount_paid).1.status = 200) :
    ∃ c2 : CreditSale,
      (updateCreditPayment (run s0 ops) user id amount_paid).2.credit_sales =
        (run s0 ops).credit_sales.map (fun x => if x = c then c2 else x) ∧
      statusRank c.payment_status ≤ statusRank c2.payment_status ∧
      c.amount_paid < c2.amount_paid ∧
      (c.payment_status = "paid" → c2.payment_status = "paid") := by
  have hinv := creditTableOK_run
    (fun c => c.payment_status = "paid" → c.amount_due ≤ c.amount_paid) (fun _ => True)
    (fun s user body v _ _ _ _ hpaid => by simp [newCredit] at hpaid)
    (fun c a _ _ => paidUp_keeps_paid c a)
    ops s0 (fun _ _ => trivial) (creditTableOK_empty _ s0 h0)
  obtain ⟨hk, _, hp⟩ := hinv
  obtain ⟨a, credit, _, hpos, hmem, hcid, hmap⟩ :=
    updateCreditPayment_of_ok (run s0 ops) user id amount_paid hok
  have heq : credit = c :=
    key_inj (fun c : CreditSale => c.credit_id) hk hmem hc (hcid.trans hid.symm)
  subst heq
  have hrow := map_key_eq_map_row (fun x : CreditSale => x.credit_id)
    (fun x => x.credit_id = id)
    (fun x => { x with
      amount_paid := credit.amount_paid + a
      payment_status :=
        if credit.amount_paid + a ≥ credit.amount_due then "paid" else "partial" })
    (run s0 ops).credit_sales credit hk hc hid (fun x _ hx => hx.trans hid.symm)
  have hkeep : credit.payment_status = "paid" → (paidUp credit a).payment_status = "paid" := by
    intro hpaid
    have hdue := hp credit hc hpaid
    have hge : credit.amount_paid + a ≥ credit.amount_due := by linarith
    show (if credit.amount_paid + a ≥ credit.amount_due then "paid" else "partial") = "paid"
    simp [hge]
  refine ⟨paidUp credit a, ?_, ?_, ?_, hkeep⟩
  · rw [hmap]
    exact hrow
  · by_cases hpaid : credit.payment_status = "paid"
    · rw [hkeep hpaid, hpaid]
    · have hnew : statusRank (paidUp credit a).payment_status ≥ 1 := by
        show statusRank
          (if credit.amount_paid + a ≥ credit.amount_due then "paid" else "partial") ≥ 1
        by_cases hge : credit.amount_paid + a ≥ credit.amount_due
        · simp [hge, statusRank]
        · simp [hge, statusRank]
      have hold : statusRank credit.payment_status ≤ 1 := by
        unfold statusRank
        rw [if_neg hpaid]
        split <;> omega
      omega
  · show credit.amount_paid < credit.amount_paid + a
    linarith

theorem credit_status_monotonic_witness :
    ∃ c2 : CreditSale,
      (updateCreditPayment (run fullDepot creditScenarioFirst) manager 1
        (some 2500)).2.credit_sales =
        (run fullDepot creditScenarioFirst).credit_sales.map
          (fun x => if x = birungiCredit then c2 else x) ∧
      statusRank birungiCredit.payment_status ≤ statusRank c2.payment_status ∧
      birungiCredit.amount_paid < c2.amount_paid ∧
      (birungiCredit.payment_status = "paid" → c2.payment_status = "paid") :=
  credit_status_monotonic fullDepot creditScenarioFirst manager 1 (some 2500) birungiCredit rfl
    (by rw [creditScenarioFirst_run]; exact List.mem_singleton.mpr rfl) rfl
    (by norm_num [run, step, creditScenarioFirst, createSale, fullDepot, manager, sale40credit,
      branchDenied, subStock, newSale, newCredit, truthy, credit_sales_amount_paid_default,
      updateCreditPayment, selectCreditWithBranch])

/-! ## Credit records and credit sales -/

theorem salesCredit_step (s : Store) (op : Op)
    (h : SalesFresh s ∧ CreditOnlyForCreditSales s) :
    SalesFresh (step s op).2 ∧ CreditOnlyForCreditSales (step s op).2 := by
  obtain ⟨⟨hfs, hfc⟩, hco⟩ := h
  cases step_effect s op with
  | same hs =>
    obtain ⟨h1, h2, h3, _⟩ := hs
    unfold SalesFresh CreditOnlyForCreditSales
    rw [h1, h2, h3]
    exact ⟨⟨hfs, hfc⟩, hco⟩
  | sold user body hsales hnext hcredit _ _ =>
    unfold SalesFresh CreditOnlyForCreditSales
    rw [hsales, hnext, hcredit]
    refine ⟨⟨?_, ?_⟩, ?_⟩
    · intro r hr
      rw [List.mem_append] at hr
      rcases hr with hr | hr
      · have := hfs r hr; omega
      · simp at hr; subst hr; simp [newSale]
    · intro c hc
      have := hfc c hc; omega
    · intro c hc
      obtain ⟨r, hr, hrid, hrt⟩ := hco c hc
      exact ⟨r, List.mem_append_left _ hr, hrid, hrt⟩
  | soldOnCredit user body v _ hsales hnext htype _ _ hcredit _ =>
    unfold SalesFresh CreditOnlyForCreditSales
    rw [hsales, hnext, hcredit]
    refine ⟨⟨?_, ?_⟩, ?_⟩
    · intro r hr
      rw [List.mem_append] at hr
      rcases hr with hr | hr
      · have := hfs r hr; omega
      · simp at hr; subst hr; simp [newSale]
    · intro c hc
      rw [List.mem_append] at hc
      rcases hc with hc | hc
      · have := hfc c hc; omega
      · simp at hc; subst hc; simp [newCredit]
    · intro c hc
      rw [List.mem_append] at hc
      rcases hc with hc | hc
      · obtain ⟨r, hr, hrid, hrt⟩ := hco c hc
        exact ⟨r, List.mem_append_left _ hr, hrid, hrt⟩
      · simp at hc
        subst hc
        exact ⟨newSale s user body, List.mem_append_right _ (List.mem_singleton.mpr rfl), rfl,
          htype⟩
  | edited id u hsales hnext hcredit _ =>
    unfold SalesFresh CreditOnlyForCreditSales
    rw [hsales, hnext, hcredit]
    refine ⟨⟨?_, hfc⟩, ?_⟩
    · intro r hr
      rw [List.mem_map] at hr
      obtain ⟨r0, hr0, rfl⟩ := hr
      have := hfs r0 hr0
      by_cases h0 : r0.sale_id = id
      · rw [if_pos h0]; exact this
      · rw [if_neg h0]; exact this
    · intro c hc
      obtain ⟨r, hr, hrid, hrt⟩ := hco c hc
      refine ⟨if r.sale_id = id then applySaleUpdate u r else r,
        List.mem_map.mpr ⟨r, hr, rfl⟩, ?_, ?_⟩
      · by_cases h0 : r.sale_id = id
        · rw [if_pos h0]; exact hrid
        · rw [if_neg h0]; exact hrid
      · by_cases h0 : r.sale_id = id
        · rw [if_pos h0]; exact hrt
        · rw [if_neg h0]; exact hrt
  | deleted id hsales hnext hcredit _ =>
    unfold SalesFresh CreditOnlyForCreditSales
    rw [hsales, hnext, hcredit]
    refine ⟨⟨?_, ?_⟩, ?_⟩
    · intro r hr
      exact hfs r (List.mem_of_mem_filter hr)
    · intro c hc
      exact hfc c (List.mem_of_mem_filter hc)
    · intro c hc
      rw [List.mem_filter] at hc
      obtain ⟨r, hr, hrid, hrt⟩ := hco c hc.1
      refine ⟨r, List.mem_filter.mpr ⟨hr, ?_⟩, hrid, hrt⟩
      have hne : ¬ c.sale_id = id := by simpa using hc.2
      simpa [hrid] using hne
  | paid id amount credit _ _ _ hsales hnext hcredit _ =>
    unfold SalesFresh CreditOnlyForCreditSales
    rw [hsales, hnext, hcredit]
    refine ⟨⟨hfs, ?_⟩, ?_⟩
    · intro c hc
      rw [List.mem_map] at hc
      obtain ⟨c0, hc0, rfl⟩ := hc
      have := hfc c0 hc0
      by_cases h0 : c0.credit_id = id
      · rw [if_pos h0]; exact this
      · rw [if_neg h0]; exact this
    · intro c hc
      rw [List.mem_map] at hc
      obtain ⟨c0, hc0, rfl⟩ := hc
      obtain ⟨r, hr, hrid, hrt⟩ := hco c0 hc0
      refine ⟨r, hr, ?_, hrt⟩
      by_cases h0 : c0.credit_id = id
      · rw [if_pos h0]; exact hrid
      · rw [if_neg h0]; exact hrid

theorem salesCredit_run :
    ∀ (ops : List Op) (s : Store), SalesFresh s ∧ CreditOnlyForCreditSales s →
      SalesFresh (run s ops) ∧ CreditOnlyForCreditSales (run s ops) := by
  intro ops
  induction ops with
  | nil => intro s h; exact h
  | cons op ops ih =>
    intro s h
    exact ih (step s op).2 (salesCredit_step s op h)

theorem salesKeyed_step (s : Store) (op : Op) (hf : SalesFresh s) (hk : SalesKeyed s) :
    SalesKeyed (step s op).2 := by
  have happ : ∀ (user : User) (body : SaleBody),
      ((s.sales ++ [newSale s user body]).map fun r => r.sale_id).Nodup := by
    intro user body
    rw [List.map_append, List.nodup_append]
    refine ⟨hk, by simp, ?_⟩
    intro x hx hx2
    rw [List.mem_map] at hx
    obtain ⟨r, hr, rfl⟩ := hx
    have hlt := hf.1 r hr
    simp [newSale] at hx2
    omega
  cases step_effect s op with
  | same hs =>
    unfold SalesKeyed
    rw [hs.1]
    exact hk
  | sold user body hsales _ _ _ _ =>
    unfold SalesKeyed
    rw [hsales]
    exact happ user body
  | soldOnCredit user body v _ hsales _ _ _ _ _ _ =>
    unfold SalesKeyed
    rw [hsales]
    exact happ user body
  | edited id u hsales _ _ _ =>
    unfold SalesKeyed
    rw [hsales, List.map_map]
    have hids : s.sales.map ((fun r : Sale => r.sale_id) ∘
        fun r => if r.sale_id = id then applySaleUpdate u r else r) =
        s.sales.map (fun r => r.sale_id) := by
      apply List.map_congr_left
      intro r _
      by_cases h0 : r.sale_id = id
      · simp only [Function.comp, if_pos h0]
        rfl
      · simp only [Function.comp, if_neg h0]
    rw [hids]
    exact hk
  | deleted id hsales _ _ _ =>
    unfold SalesKeyed
    rw [hsales]
    exact List.Nodup.sublist (List.Sublist.map _ (List.filter_sublist _)) hk
  | paid id amount credit _ _ _ hsales _ _ _ =>
    unfold SalesKeyed
    rw [hsales]
    exact hk

theorem salesKeyed_run :
    ∀ (ops : List Op) (s : Store),
      (SalesFresh s ∧ CreditOnlyForCreditSales s) ∧ SalesKeyed s →
      (SalesFresh (run s ops) ∧ CreditOnlyForCreditSales (run s ops)) ∧ SalesKeyed (run s ops) := by
  intro ops
  induction ops with
  | nil => intro s h; exact h
  | cons op ops ih =>
    intro s h
    exact ih (step s op).2 ⟨salesCredit_step s op h.1, salesKeyed_step s op h.1.1 h.2⟩

theorem fullDepot_no_due :
    (createSale fullDepot manager sale40creditNoDue) =
      (⟨201, "Sale recorded successfully"⟩,
        { produce := [⟨1, "Maize", "grain", 1, 60⟩]
          procurement := []
          sales := [⟨1, 1, "Birungi", "0702", 40, 0, 2, 1, "credit"⟩]
          credit_sales := []
          next_produce_id := 2
          next_procurement_id := 1
          next_sale_id := 2
          next_credit_id := 1 }) := by
  norm_num [createSale, fullDepot, manager, sale40creditNoDue, branchDenied, subStock,
    newSale, truthy]

/-- C14: the code at a failing input. On a depot with no sale and no credit
rows, a sale request with payment_type "credit" and no amount_due is answered
201 and stores the sale with payment_type "credit" and no credit record, so
the reached state has a credit sale without a credit_sales row. -/
theorem credit_sale_without_credit_record :
    fullDepot.sales = [] ∧ fullDepot.credit_sales = [] ∧
    sale40creditNoDue.payment_type = "credit" ∧
    (createSale fullDepot manager sale40creditNoDue).1.status = 201 ∧
    (createSale fullDepot manager sale40creditNoDue).2.sales =
      [⟨1, 1, "Birungi", "0702", 40, 0, 2, 1, "credit"⟩] ∧
    (createSale fullDepot manager sale40creditNoDue).2.credit_sales = [] ∧
    ¬ CreditIffCreditSale (run fullDepot [.createSale manager sale40creditNoDue]) := by
  refine ⟨rfl, rfl, rfl, ?_, ?_, ?_, ?_⟩
  · rw [fullDepot_no_due]
  · rw [fullDepot_no_due]
  · rw [fullDepot_no_due]
  · simp only [run, step]
    rw [fullDepot_no_due]
    intro h
    have := (h ⟨1, 1, "Birungi", "0702", 40, 0, 2, 1, "credit"⟩
      (List.mem_singleton.mpr rfl)).2 rfl
    simp at this

/-- What the guard of the credit INSERT keeps: in every state reached from a
store with no sale and no credit rows, every credit_sales row belongs to a
stored sale whose payment_type is "credit", and every stored sale that has a
credit_sales row has payment_type "credit"; and a createSale answered 201 in
such a state adds exactly one sale row, for which a credit_sales row exists
afterwards if and only if the request's payment_type is "credit" and it
supplies an amount_due that is not zero. -/
theorem credit_record_existence (s0 : Store) (ops : List Op)
    (h0s : s0.sales = []) (h0c : s0.credit_sales = []) :
    CreditOnlyForCreditSales (run s0 ops) ∧
    (∀ r ∈ (run s0 ops).sales,
      (∃ c ∈ (run s0 ops).credit_sales, c.sale_id = r.sale_id) → r.payment_type = "credit") ∧
    ∀ (user : User) (body : SaleBody),
      (createSale (run s0 ops) user body).1.status = 201 →
      ∃ sale : Sale,
        (createSale (run s0 ops) user body).2.sales = (run s0 ops).sales ++ [sale] ∧
        ((∃ c ∈ (createSale (run s0 ops) user body).2.credit_sales, c.sale_id = sale.sale_id) ↔
          (body.payment_type = "credit" ∧ truthy body.amount_due = true)) := by
  have hinit : (SalesFresh s0 ∧ CreditOnlyForCreditSales s0) ∧ SalesKeyed s0 := by
    unfold SalesFresh CreditOnlyForCreditSales SalesKeyed
    rw [h0s, h0c]
    simp
  obtain ⟨⟨⟨_, hfc⟩, hco⟩, hk⟩ := salesKeyed_run ops s0 hinit
  refine ⟨hco, ?_, ?_⟩
  · rintro r hr ⟨c, hc, hcs⟩
    obtain ⟨r2, hr2, hid2, ht2⟩ := hco c hc
    have heq : r2 = r :=
      key_inj (fun r : Sale => r.sale_id) hk hr2 hr (hid2.trans hcs)
    rw [← heq]
    exact ht2
  intro user body hok
  refine ⟨newSale (run s0 ops) user body, ?_, ?_⟩
  · rw [createSale_created (run s0 ops) user body hok]
  · rw [createSale_created (run s0 ops) user body hok]
    constructor
    · rintro ⟨c, hc, hcs⟩
      by_contra hcr
      simp only [hcr, if_false] at hc
      have hlt := hfc c hc
      have : c.sale_id = (run s0 ops).next_sale_id := hcs
      omega
    · intro hcr
      refine ⟨newCredit (run s0 ops) body (body.amount_due.getD 0), ?_, rfl⟩
      simp only [hcr, and_self, if_true]
      exact List.mem_append_right _ (List.mem_singleton.mpr rfl)

theorem credit_record_existence_witness :
    fullDepot.sales = [] ∧ fullDepot.credit_sales = [] ∧
    CreditOnlyForCreditSales (run fullDepot creditScenarioFirst) :=
  ⟨rfl, rfl, (credit_record_existence fullDepot creditScenarioFirst rfl rfl).1⟩

/-! ## Atomicity of the units of work -/

theorem runStatements_fault_inside :
    ∀ (fs : List (Store → Store)) (k : Nat) (w : Store) (j : Nat),
      k ≤ j → j < k + fs.length → runStatements (some j) k w fs = none := by
  intro fs
  induction fs with
  | nil =>
    intro k w j h1 h2
    simp at h2
    omega
  | cons f fs ih =>
    intro k w j h1 h2
    unfold runStatements
    by_cases hj : j = k
    · subst hj
      simp
    · have hne : ¬ (some j = some k) := fun h => hj (Option.some.inj h)
      rw [if_neg hne]
      apply ih
      · omega
      · simp at h2
        omega

theorem runStatements_clear :
    ∀ (fs : List (Store → Store)) (k : Nat) (w : Store) (fault : Option Nat),
      (∀ j, fault = some j → j < k ∨ k + fs.length ≤ j) →
      runStatements fault k w fs = some (fs.foldl (fun v f => f v) w, k + fs.length) := by
  intro fs
  induction fs with
  | nil =>
    intro k w fault _
    simp [runStatements]
  | cons f fs ih =>
    intro k w fault h
    unfold runStatements
    have hne : ¬ (fault = some k) := by
      intro hk
      have := h k hk
      simp at this
    rw [if_neg hne, ih (k + 1) (f w) fault]
    · simp
      omega
    · intro j hj
      have := h j hj
      simp at this
      omega

theorem execute_fault_inside (p : Plan) (s : Store) (j : Nat) (hj : j < p.unitLength) :
    p.execute (some j) s = (⟨500, "Server error"⟩, s) := by
  unfold Plan.unitLength at hj
  unfold Plan.execute
  by_cases h0 : j = 0
  · subst h0
    simp
  · have hne : ¬ (some j = some 0) := fun h => h0 (Option.some.inj h)
    rw [if_neg hne]
    by_cases hin : j < 1 + p.statements.length
    · rw [runStatements_fault_inside p.statements 1 s j (by omega) hin]
    · have hc : p.commits = true := by
        by_contra hc
        simp [hc] at hj
        omega
      have hjeq : j = 1 + p.statements.length := by
        simp [hc] at hj
        omega
      rw [runStatements_clear p.statements 1 s (some j)
        (fun i hi => Or.inr (by
          have := Option.some.inj hi
          omega))]
      simp [hc, hjeq]

theorem execute_none (p : Plan) (s : Store) :
    p.execute none s =
      (p.response, if p.commits then p.statements.foldl (fun v f => f v) s else s) := by
  unfold Plan.execute
  rw [runStatements_clear p.statements 1 s none (fun j hj => by simp at hj)]
  by_cases hc : p.commits = true
  · simp [hc]
  · simp [hc]

theorem createProcurementTx_none (s : Store) (user : User) (body : ProcurementBody) :
    createProcurementTx s user body none = createProcurement s user body := by
  unfold createProcurementTx createProcurementPlan createProcurement
  rw [execute_none]
  split <;> rfl

theorem updateProcurementTx_none (s : Store) (user : User) (id : Nat)
    (u : ProcurementUpdate) :
    updateProcurementTx s user id u none = updateProcurement s user id u := by
  unfold updateProcurementTx updateProcurementPlan updateProcurement
  rw [execute_none]
  split
  · rfl
  · split
    · rfl
    · split
      · rfl
      · cases u.tonnage <;> rfl

theorem deleteProcurementTx_none (s : Store) (user : User) (id : Nat) :
    deleteProcurementTx s user id none = deleteProcurement s user id := by
  unfold deleteProcurementTx deleteProcurementPlan deleteProcurement
  rw [execute_none]
  split
  · rfl
  · split <;> rfl

theorem createSaleTx_none (s : Store) (user : User) (body : SaleBody) :
    createSaleTx s user body none = createSale s user body := by
  unfold createSaleTx createSalePlan createSale
  rw [execute_none]
  split
  · rfl
  · split
    · rfl
    · split
      · rfl
      · by_cases hc : body.payment_type = "credit" ∧ truthy body.amount_due = true
        · simp [hc, newSale, newCredit]
        · simp [hc, newSale]

theorem deleteSaleTx_none (s : Store) (user : User) (id : Nat) :
    deleteSaleTx s user id none = deleteSale s user id := by
  unfold deleteSaleTx deleteSalePlan deleteSale
  rw [execute_none]
  split
  · rfl
  · split <;> rfl

/-- C21: for each transactional operation (createProcurement,
updateProcurement, deleteProcurement, createSale, deleteSale), when a
statement of its unit of work fails (beginTransaction, any statement run on
the connection, or commit: the statements numbered below the unit's length),
the operation answers 500 and the committed store is the store of before the
operation: no procurement, sale, credit or stock change of it is visible. -/
theorem atomicity_on_failure (s : Store) (k : Nat) :
    (∀ (user : User) (body : ProcurementBody),
      k < (createProcurementPlan user body).unitLength →
      createProcurementTx s user body (some k) = (⟨500, "Server error"⟩, s)) ∧
    (∀ (user : User) (id : Nat) (u : ProcurementUpdate),
      k < (updateProcurementPlan s user id u).unitLength →
      updateProcurementTx s user id u (some k) = (⟨500, "Server error"⟩, s)) ∧
    (∀ (user : User) (id : Nat),
      k < (deleteProcurementPlan s user id).unitLength →
      deleteProcurementTx s user id (some k) = (⟨500, "Server error"⟩, s)) ∧
    (∀ (user : User) (body : SaleBody),
      k < (createSalePlan s user body).unitLength →
      createSaleTx s user body (some k) = (⟨500, "Server error"⟩, s)) ∧
    (∀ (user : User) (id : Nat),
      k < (deleteSalePlan s user id).unitLength →
      deleteSaleTx s user id (some k) = (⟨500, "Server error"⟩, s)) :=
  ⟨fun user body hk => execute_fault_inside (createProcurementPlan user body) s k hk,
    fun user id u hk => execute_fault_inside (updateProcurementPlan s user id u) s k hk,
    fun user id hk => execute_fault_inside (deleteProcurementPlan s user id) s k hk,
    fun user body hk => execute_fault_inside (createSalePlan s user body) s k hk,
    fun user id hk => execute_fault_inside (deleteSalePlan s user id) s k hk⟩

theorem atomicity_on_failure_witness :
    (createSalePlan fullDepot manager sale40credit).unitLength = 6 ∧
    createSaleTx fullDepot manager sale40credit (some 4) = (⟨500, "Server error"⟩, fullDepot) ∧
    deleteSaleTx sampleStore ceo 1 (some 3) = (⟨500, "Server error"⟩, sampleStore) :=
  have h6 : (createSalePlan fullDepot manager sale40credit).unitLength = 6 := by
    norm_num [createSalePlan, fullDepot, manager, sale40credit, branchDenied, truthy,
      Plan.unitLength]
  have h5 : (deleteSalePlan sampleStore ceo 1).unitLength = 6 := by
    simp [deleteSalePlan, sampleStore, ceo, branchDenied, Plan.unitLength]
  ⟨h6, (atomicity_on_failure fullDepot 4).2.2.2.1 manager sale40credit (by rw [h6]; decide),
    (atomicity_on_failure sampleStore 3).2.2.2.2 ceo 1 (by rw [h5]; decide)⟩

/-! ## Updates that leave the stock alone -/

/-- C23: for a stored procurement and a permitted updateProcurement request
that supplies no tonnage and at least one other allowed field, the call
answers 200, every produce row is unchanged, every other procurement row is
unchanged, and in the procurement row each allowed field takes the supplied
value when one is supplied and keeps its value otherwise; its id, produce_id,
branch_id, tonnage and recorded_by are unchanged. -/
theorem updateProcurement_fields_only (s : Store) (user : User) (id : Nat)
    (u : ProcurementUpdate) (e : Procurement)
    (hk : ProcurementKeyed s) (he : e ∈ s.procurement) (hid : e.procurement_id = id)
    (hacc : branchDenied user e.branch_id = false)
    (ht : u.tonnage = none) (hne : u.isEmpty = false) :
    (updateProcurement s user id u).1.status = 200 ∧
    (updateProcurement s user id u).2.produce = s.produce ∧
    (updateProcurement s user id u).2.sales = s.sales ∧
    (updateProcurement s user id u).2.credit_sales = s.credit_sales ∧
    ∃ e2 : Procurement,
      (updateProcurement s user id u).2.procurement =
        s.procurement.map (fun r => if r = e then e2 else r) ∧
      e2.procurement_id = e.procurement_id ∧ e2.produce_id = e.produce_id ∧
      e2.branch_id = e.branch_id ∧ e2.tonnage = e.tonnage ∧
      e2.recorded_by = e.recorded_by ∧
      e2.dealer_name = u.dealer_name.getD e.dealer_name ∧
      e2.dealer_contact = u.dealer_contact.getD e.dealer_contact ∧
      e2.dealer_type = u.dealer_type.getD e.dealer_type ∧
      e2.cost_per_ton = u.cost_per_ton.getD e.cost_per_ton ∧
      e2.total_cost = u.total_cost.getD e.total_cost ∧
      e2.selling_price_per_ton = u.selling_price_per_ton.getD e.selling_price_per_ton := by
  have hf := procurement_filter_key s e id hk he hid
  have hmap : s.procurement.map (fun r =>
      if r.procurement_id = id then applyProcurementUpdate u r else r) =
      s.procurement.map (fun r => if r = e then applyProcurementUpdate u e else r) :=
    map_key_eq_map_row (fun r : Procurement => r.procurement_id)
      (fun r => r.procurement_id = id) (applyProcurementUpdate u) s.procurement e
      hk he hid (fun x _ hx => hx.trans hid.symm)
  simp only [updateProcurement, hf, hacc, hne, ht]
  refine ⟨rfl, rfl, rfl, rfl, applyProcurementUpdate u e, hmap, rfl, rfl, rfl, ?_, rfl, rfl,
    rfl, rfl, rfl, rfl, rfl⟩
  simp [applyProcurementUpdate, ht]

theorem updateProcurement_fields_only_witness :
    (updateProcurement sampleStore manager 1 dealerRename).1.status = 200 ∧
    (updateProcurement sampleStore manager 1 dealerRename).2.produce = sampleStore.produce :=
  have h := updateProcurement_fields_only sampleStore manager 1 dealerRename okelloRow
    (by simp [ProcurementKeyed, sampleStore]) (by simp [sampleStore, okelloRow]) rfl
    (by simp [branchDenied, manager, okelloRow]) rfl
    (by simp [ProcurementUpdate.isEmpty, dealerRename])
  ⟨h.1, h.2.1⟩

/-- C24: for a stored sale and a permitted updateSale request that supplies
at least one allowed field, tonnage included, the call answers 200, every
produce row, every credit_sales row and every procurement row is unchanged,
every other sale row is unchanged, and in the sale row each of buyer_name,
buyer_contact, tonnage and amount_paid takes the supplied value when one is
supplied and keeps its value otherwise; the other fields are unchanged. -/
theorem updateSale_fields_only (s : Store) (user : User) (id : Nat) (u : SaleUpdate)
    (e : Sale) (hk : SalesKeyed s) (he : e ∈ s.sales) (hid : e.sale_id = id)
    (hacc : branchDenied user e.branch_id = false) (hne : u.isEmpty = false) :
    (updateSale s user id u).1.status = 200 ∧
    (updateSale s user id u).2.produce = s.produce ∧
    (updateSale s user id u).2.credit_sales = s.credit_sales ∧
    (updateSale s user id u).2.procurement = s.procurement ∧
    ∃ e2 : Sale,
      (updateSale s user id u).2.sales = s.sales.map (fun r => if r = e then e2 else r) ∧
      e2.sale_id = e.sale_id ∧ e2.produce_id = e.produce_id ∧ e2.branch_id = e.branch_id ∧
      e2.sales_agent_id = e.sales_agent_id ∧ e2.payment_type = e.payment_type ∧
      e2.buyer_name = u.buyer_name.getD e.buyer_name ∧
      e2.buyer_contact = u.buyer_contact.getD e.buyer_contact ∧
      e2.tonnage = u.tonnage.getD e.tonnage ∧
      e2.amount_paid = u.amount_paid.getD e.amount_paid := by
  have hf := sales_filter_key s e id hk he hid
  have hmap : s.sales.map (fun r => if r.sale_id = id then applySaleUpdate u r else r) =
      s.sales.map (fun r => if r = e then applySaleUpdate u e else r) :=
    map_key_eq_map_row (fun r : Sale => r.sale_id)
      (fun r => r.sale_id = id) (applySaleUpdate u) s.sales e
      hk he hid (fun x _ hx => hx.trans hid.symm)
  simp only [updateSale, hf, hacc, hne]
  exact ⟨rfl, rfl, rfl, rfl, applySaleUpdate u e, hmap, rfl, rfl, rfl, rfl, rfl, rfl, rfl,
    rfl, rfl⟩

theorem updateSale_fields_only_witness :
    (updateSale sampleStore manager 1 saleEdit).1.status = 200 ∧
    (updateSale sampleStore manager 1 saleEdit).2.produce = sampleStore.produce ∧
    (updateSale sampleStore manager 1 saleEdit).2.credit_sales = sampleStore.credit_sales :=
  have h := updateSale_fields_only sampleStore manager 1 saleEdit aminaRow
    (by simp [SalesKeyed, sampleStore]) (by simp [sampleStore, aminaRow]) rfl
    (by simp [branchDenied, manager, aminaRow]) (by simp [SaleUpdate.isEmpty, saleEdit])
  ⟨h.1, h.2.1, h.2.2.1⟩

/-! ## The middleware -/

/-- C27: the code at a failing input. A manager registered without a branch
(branch_id NULL) is not a CEO, asks for branch 2, which is not the manager's
branch_id, and checkBranchAccess calls next. -/
theorem checkBranchAccess_passes_without_branch :
    managerNoBranch.role ≠ "CEO" ∧
    requestedBranch none (some 2) none = some 2 ∧
    managerNoBranch.branch_id ≠ some 2 ∧
    checkBranchAccess managerNoBranch none (some 2) none = .next := by
  refine ⟨?_, ?_, ?_, ?_⟩
  · simp [managerNoBranch]
  · simp [requestedBranch]
  · simp [managerNoBranch]
  · simp [checkBranchAccess, managerNoBranch]

/-- What checkBranchAccess does on every input: for a user whose role is not
CEO and whose branch_id is set (not NULL, not 0), and a request whose branch
id (params.branchId, else body.branch_id, else query.branch_id) is not that
branch_id, checkBranchAccess answers 403 and does not call next; when the
branch id is the user's it calls next; for a CEO it always calls next; and a
user whose branch_id is NULL or 0 is let through whatever the branch id. -/
theorem checkBranchAccess_spec (user : User) (p b q : Option Nat) :
    (user.role = "CEO" → checkBranchAccess user p b q = .next) ∧
    (user.role ≠ "CEO" → ∀ own : Nat, user.branch_id = some own → own ≠ 0 →
      requestedBranch p b q ≠ some own →
      checkBranchAccess user p b q =
        .respond ⟨403, "Access denied. You can only access your branch data."⟩) ∧
    (∀ own : Nat, user.branch_id = some own → requestedBranch p b q = some own →
      checkBranchAccess user p b q = .next) ∧
    (user.branch_id = none ∨ user.branch_id = some 0 → checkBranchAccess user p b q = .next) := by
  refine ⟨?_, ?_, ?_, ?_⟩
  · intro hceo
    simp [checkBranchAccess, hceo]
  · intro hrole own hown hne hreq
    simp [checkBranchAccess, hrole, hown, hne, hreq]
  · intro own hown hreq
    unfold checkBranchAccess
    split
    · rfl
    · simp [hown, hreq]
  · intro h
    unfold checkBranchAccess
    split
    · rfl
    · rcases h with h | h <;> simp [h]

theorem checkBranchAccess_spec_witness :
    checkBranchAccess manager none (some 2) none =
      .respond ⟨403, "Access denied. You can only access your branch data."⟩ ∧
    checkBranchAccess ceo none (some 2) none = .next :=
  ⟨(checkBranchAccess_spec manager none (some 2) none).2.1 (by simp [manager]) 1 rfl
      (by decide) (by simp [requestedBranch]),
    (checkBranchAccess_spec ceo none (some 2) none).1 rfl⟩

/-- C28: authorize(roles) calls next exactly when req.user is present and its
role is one of the listed roles; it answers 401 when req.user is absent and
403 when the role is not listed; so the delete routes of sales, procurement
and stock, which run authorize("CEO") first, answer 403 and leave the store
as it is for every user whose role is not CEO, and run the controller for a
CEO. -/
theorem authorize_spec (roles : List String) :
    (∀ user : Option User,
      authorize roles user = .next ↔ ∃ u : User, user = some u ∧ u.role ∈ roles) ∧
    authorize roles none = .respond ⟨401, "Unauthorized"⟩ ∧
    (∀ u : User, u.role ∉ roles →
      authorize roles (some u) = .respond ⟨403, "Access denied. Insufficient permissions."⟩) ∧
    (∀ (s : Store) (user : User) (id : Nat), user.role ≠ "CEO" →
      deleteSaleRoute s user id = (⟨403, "Access denied. Insufficient permissions."⟩, s) ∧
      deleteProcurementRoute s user id =
        (⟨403, "Access denied. Insufficient permissions."⟩, s) ∧
      deleteStockRoute s user id = (⟨403, "Access denied. Insufficient permissions."⟩, s)) ∧
    (∀ (s : Store) (user : User) (id : Nat), user.role = "CEO" →
      deleteSaleRoute s user id = deleteSale s user id ∧
      deleteProcurementRoute s user id = deleteProcurement s user id ∧
      deleteStockRoute s user id = deleteStock s user id) := by
  refine ⟨?_, rfl, ?_, ?_, ?_⟩
  · intro user
    cases user with
    | none => simp [authorize]
    | some u =>
      by_cases h : u.role ∈ roles
      · simp [authorize, h]
      · simp [authorize, h]
  · intro u h
    simp [authorize, h]
  · intro s user id h
    simp [deleteSaleRoute, deleteProcurementRoute, deleteStockRoute, authorize, h]
  · intro s user id h
    simp [deleteSaleRoute, deleteProcurementRoute, deleteStockRoute, authorize, h]

theorem authorize_spec_witness :
    deleteSaleRoute sampleStore manager 1 =
      (⟨403, "Access denied. Insufficient permissions."⟩, sampleStore) ∧
    deleteSaleRoute sampleStore ceo 1 = deleteSale sampleStore ceo 1 :=
  ⟨((authorize_spec ["CEO"]).2.2.2.1 sampleStore manager 1 (by simp [manager])).1,
    ((authorize_spec ["CEO"]).2.2.2.2 sampleStore ceo 1 rfl).1⟩

/-! ## Direct stock writes and the deletion of a stock row -/

theorem depotOverdrawn_eq : depotOverdrawn =
    { produce := [⟨1, "Maize", "grain", 1, -50⟩]
      procurement := []
      sales := [⟨1, 1, "Birungi", "0702", 50, 500, 1, 1, "cash"⟩]
      credit_sales := []
      next_produce_id := 2
      next_procurement_id := 2
      next_sale_id := 2
      next_credit_id := 1 } := by
  rw [depotOverdrawn, depotSoldOut_eq]
  simp [deleteProcurement, ceo, branchDenied, subStock]

theorem deleteStock_positive_stock (s : Store) (user : User) (id : Nat) (e : Produce)
    (hk : ProduceKeyed s) (he : e ∈ s.produce) (hid : e.produce_id = id)
    (hacc : branchDenied user e.branch_id = false) (hpos : 0 < e.current_stock) :
    deleteStock s user id = (⟨400, "Cannot delete stock with remaining inventory"⟩, s) := by
  have hf : s.produce.filter (fun p => decide (p.produce_id = id)) = [e] := by
    subst hid
    apply filter_eq_singleton (fun q : Produce => q.produce_id) _ s.produce e hk he
    · simp
    · intro x _ hx
      simpa using hx
  simp only [deleteStock, hf, hacc]
  simp [hpos]

/-- C25: the code at a failing input.  In the state left by a procurement of
50 tons, a sale of 50 tons and the deletion of that procurement, the maize
row holds -50, which is not 0; deleteStock on it by a CEO answers 200 and
removes the row. -/
theorem deleteStock_removes_negative_stock :
    depotOverdrawn.produce = [⟨1, "Maize", "grain", 1, -50⟩] ∧
    branchDenied ceo 1 = false ∧
    (deleteStock depotOverdrawn ceo 1).1 = ⟨200, "Stock deleted successfully"⟩ ∧
    (deleteStock depotOverdrawn ceo 1).2.produce = [] := by
  refine ⟨?_, ?_, ?_, ?_⟩
  · rw [depotOverdrawn_eq]
  · simp [branchDenied, ceo]
  · rw [depotOverdrawn_eq]
    norm_num [deleteStock, branchDenied, ceo]
  · rw [depotOverdrawn_eq]
    norm_num [deleteStock, branchDenied, ceo]

/-- C26: the code at a failing input.  A createStock request whose
current_stock is -5 is answered 201 and the row is stored with -5; an
updateStock request whose current_stock is -5 is answered 200 and the row
then holds -5. -/
theorem stock_writes_accept_negative :
    (createStock sampleStore manager riceMinus5).1.status = 201 ∧
    (createStock sampleStore manager riceMinus5).2.produce =
      sampleStore.produce ++ [⟨3, "Rice", "grain", 1, -5⟩] ∧
    (updateStock sampleStore manager 1 stockMinus5).1.status = 200 ∧
    (updateStock sampleStore manager 1 stockMinus5).2.produce =
      [⟨1, "Maize", "grain", 1, -5⟩, ⟨2, "Beans", "legume", 2, 40⟩] := by
  refine ⟨?_, ?_, ?_, ?_⟩
  · simp [createStock, sampleStore, manager, riceMinus5, branchDenied]
  · simp [createStock, sampleStore, manager, riceMinus5, branchDenied, truthy]
  · simp [updateStock, sampleStore, manager, stockMinus5, branchDenied]
  · simp [updateStock, sampleStore, manager, stockMinus5, branchDenied, applyStockUpdate]

/-- What the direct stock writes do on every input: createStock and
updateStock do not test the sign of current_stock. A createStock request that
passes the branch check and names a produce not yet in the branch is answered
201 and adds one row holding the given current_stock, negative or not, and 0
when none is given; an updateStock request that supplies a current_stock for a
stored, accessible row is answered 200 and the row then holds that value,
negative or not, and no other row changes. -/
theorem stock_writes_store_given_value :
    (∀ (s : Store) (user : User) (body : StockBody),
      branchDenied user body.branch_id = false →
      (∀ p ∈ s.produce, ¬ (p.name = body.name ∧ p.branch_id = body.branch_id)) →
      createStock s user body =
        (⟨201, "Stock created successfully"⟩,
          { s with
            produce := s.produce ++
              [⟨s.next_produce_id, body.name, body.type, body.branch_id,
                body.current_stock.getD 0⟩]
            next_produce_id := s.next_produce_id + 1 })) ∧
    (∀ (s : Store) (user : User) (id : Nat) (u : StockUpdate) (e : Produce) (v : ℚ),
      ProduceKeyed s → e ∈ s.produce → e.produce_id = id →
      branchDenied user e.branch_id = false → u.current_stock = some v →
      (updateStock s user id u).1.status = 200 ∧
      (updateStock s user id u).2.produce =
        s.produce.map (fun q =>
          if q = e then
            { e with name := u.name.getD e.name, type := u.type.getD e.type, current_stock := v }
          else q)) := by
  constructor
  · intro s user body hacc hno
    have hf : s.produce.filter
        (fun p => decide (p.name = body.name ∧ p.branch_id = body.branch_id)) = [] := by
      rw [List.filter_eq_nil_iff]
      intro p hp
      simpa using hno p hp
    have hstock : (if truthy body.current_stock = true then body.current_stock.getD 0 else 0) =
        body.current_stock.getD 0 := by
      cases hcs : body.current_stock with
      | none => simp [truthy]
      | some v =>
        by_cases hv : v = 0
        · simp [truthy, hv]
        · simp [truthy, hv]
    simp only [createStock, hacc, hf, hstock]
    simp
  · intro s user id u e v hk he hid hacc hv
    have hf : s.produce.filter (fun p => decide (p.produce_id = id)) = [e] := by
      subst hid
      apply filter_eq_singleton (fun q : Produce => q.produce_id) _ s.produce e hk he
      · simp
      · intro x _ hx
        simpa using hx
    have hne : (u.name.isNone && u.type.isNone && u.current_stock.isNone) = false := by
      simp [hv]
    have hmap : s.produce.map (fun p => if p.produce_id = id then applyStockUpdate u p else p) =
        s.produce.map (fun q => if q = e then applyStockUpdate u e else q) :=
      map_key_eq_map_row (fun q : Produce => q.produce_id)
        (fun q => q.produce_id = id) (applyStockUpdate u) s.produce e
        hk he hid (fun x _ hx => hx.trans hid.symm)
    have happ : applyStockUpdate u e =
        { e with name := u.name.getD e.name, type := u.type.getD e.type, current_stock := v } := by
      simp [applyStockUpdate, hv]
    simp only [updateStock, hf, hacc, hne]
    refine ⟨rfl, ?_⟩
    rw [← happ]
    exact hmap

theorem stock_writes_store_given_value_witness :
    createStock sampleStore manager riceMinus5 =
      (⟨201, "Stock created successfully"⟩,
        { sampleStore with
          produce := sampleStore.produce ++
            [⟨sampleStore.next_produce_id, riceMinus5.name, riceMinus5.type,
              riceMinus5.branch_id, riceMinus5.current_stock.getD 0⟩]
          next_produce_id := sampleStore.next_produce_id + 1 }) ∧
    (updateStock sampleStore manager 1 stockMinus5).1.status = 200 :=
  ⟨stock_writes_store_given_value.1 sampleStore manager riceMinus5
      (by simp [branchDenied, manager, riceMinus5]) (by simp [sampleStore, riceMinus5]),
    (stock_writes_store_given_value.2 sampleStore manager 1 stockMinus5 maizeRow (-5)
      (by simp [ProduceKeyed, sampleStore]) (by simp [sampleStore, maizeRow]) rfl
      (by simp [branchDenied, manager, maizeRow]) rfl).1⟩

/-! ## Payments in sequence -/

theorem updateCreditPayment_paid (s : Store) (user : User) (id : Nat) (amount : ℚ)
    (c : CreditSale) (sale : Sale)
    (hk : CreditKeyed s) (hks : SalesKeyed s)
    (hc : c ∈ s.credit_sales) (hid : c.credit_id = id)
    (hsale : sale ∈ s.sales) (hsid : sale.sale_id = c.sale_id)
    (hacc : branchDenied user sale.branch_id = false) (hpos : 0 < amount) :
    updateCreditPayment s user id (some amount) =
      (⟨200, "Payment recorded successfully"⟩,
        { s with
          credit_sales := s.credit_sales.map fun x => if x = c then paidUp c amount else x }) := by
  have hsel : selectCreditWithBranch s id = [(c, sale.branch_id)] := by
    have h1 := credit_filter_key s c id hk hc hid
    have h2 := sales_filter_key s sale c.sale_id hks hsale hsid
    unfold selectCreditWithBranch
    rw [h1]
    simp only [List.flatMap_cons, List.flatMap_nil, List.append_nil]
    rw [h2]
    rfl
  have hguard : ¬ (truthy (some amount) = false ∨ (some amount).getD 0 ≤ 0) := by
    have hne : amount ≠ 0 := ne_of_gt hpos
    simp [truthy, hne, hpos]
  have hmap : s.credit_sales.map (fun x =>
      if x.credit_id = id then
        { x with
          amount_paid := c.amount_paid + amount
          payment_status :=
            if c.amount_paid + amount ≥ c.amount_due then "paid" else "partial" }
      else x) = s.credit_sales.map (fun x => if x = c then paidUp c amount else x) :=
    map_key_eq_map_row (fun x : CreditSale => x.credit_id)
      (fun x => x.credit_id = id)
      (fun x => { x with
        amount_paid := c.amount_paid + amount
        payment_status := if c.amount_paid + amount ≥ c.amount_due then "paid" else "partial" })
      s.credit_sales c hk hc hid (fun x _ hx => hx.trans hid.symm)
  have hrun : updateCreditPayment s user id (some amount) =
      (⟨200, "Payment recorded successfully"⟩,
        { s with
          credit_sales := s.credit_sales.map fun x =>
            if x.credit_id = id then
              { x with
                amount_paid := c.amount_paid + amount
                payment_status :=
                  if c.amount_paid + amount ≥ c.amount_due then "paid" else "partial" }
            else x }) := by
    simp only [updateCreditPayment, hguard, hsel, hacc]
    simp
  rw [hrun, hmap]

theorem paidUp_paidUp (c : CreditSale) (a b : ℚ) :
    paidUp (paidUp c a) b = paidUp c (a + b) := by
  unfold paidUp
  simp only [add_assoc]

/-- C29: for a stored credit record whose sale is stored and admits the
actor, and amounts a > 0 and b > 0, recording a and then b answers 200 twice
and leaves the same store as recording the single payment a + b: the record
holds amount_paid = old amount_paid + a + b and the payment_status of that
total against amount_due, and nothing else differs. -/
theorem payments_compose (s : Store) (user : User) (id : Nat) (a b : ℚ)
    (c : CreditSale) (sale : Sale)
    (hk : CreditKeyed s) (hks : SalesKeyed s)
    (hc : c ∈ s.credit_sales) (hid : c.credit_id = id)
    (hsale : sale ∈ s.sales) (hsid : sale.sale_id = c.sale_id)
    (hacc : branchDenied user sale.branch_id = false) (ha : 0 < a) (hb : 0 < b) :
    (updateCreditPayment s user id (some a)).1.status = 200 ∧
    (updateCreditPayment (updateCreditPayment s user id (some a)).2 user id (some b)).1.status
      = 200 ∧
    (updateCreditPayment (updateCreditPayment s user id (some a)).2 user id (some b)).2 =
      (updateCreditPayment s user id (some (a + b))).2 ∧
    (updateCreditPayment (updateCreditPayment s user id (some a)).2 user id
        (some b)).2.credit_sales =
      s.credit_sales.map (fun x =>
        if x = c then
          { c with
            amount_paid := c.amount_paid + a + b
            payment_status :=
              if c.amount_paid + a + b ≥ c.amount_due then "paid" else "partial" }
        else x) := by
  have h1 := updateCreditPayment_paid s user id a c sale hk hks hc hid hsale hsid hacc ha
  have h12 := updateCreditPayment_paid s user id (a + b) c sale hk hks hc hid hsale hsid hacc
    (add_pos ha hb)
  have hids : (s.credit_sales.map fun x => if x = c then paidUp c a else x).map
      (fun x => x.credit_id) = s.credit_sales.map (fun x => x.credit_id) := by
    rw [List.map_map]
    apply List.map_congr_left
    intro x _
    by_cases hx : x = c
    · simp [hx, paidUp]
    · simp [hx]
  have hk1 : CreditKeyed (updateCreditPayment s user id (some a)).2 := by
    rw [h1]
    unfold CreditKeyed
    rw [hids]
    exact hk
  have hc1 : paidUp c a ∈ (updateCreditPayment s user id (some a)).2.credit_sales := by
    rw [h1]
    exact List.mem_map.mpr ⟨c, hc, by simp⟩
  have hks1 : SalesKeyed (updateCreditPayment s user id (some a)).2 := by
    rw [h1]
    exact hks
  have hsale1 : sale ∈ (updateCreditPayment s user id (some a)).2.sales := by
    rw [h1]
    exact hsale
  have h2 := updateCreditPayment_paid (updateCreditPayment s user id (some a)).2 user id b
    (paidUp c a) sale hk1 hks1 hc1 hid hsale1 hsid hacc hb
  have hcomp : ((s.credit_sales.map fun x => if x = c then paidUp c a else x).map
      fun x => if x = paidUp c a then paidUp (paidUp c a) b else x) =
      s.credit_sales.map (fun x => if x = c then paidUp c (a + b) else x) := by
    rw [List.map_map]
    apply List.map_congr_left
    intro x hx
    by_cases hxc : x = c
    · simp [hxc, paidUp_paidUp]
    · have hne : ¬ x = paidUp c a := by
        intro hxp
        apply hxc
        apply key_inj (fun x : CreditSale => x.credit_id) hk hx hc
        show x.credit_id = c.credit_id
        rw [hxp]
        rfl
      simp [hxc, hne]
  have hfinal : (updateCreditPayment (updateCreditPayment s user id (some a)).2 user id
      (some b)).2 = (updateCreditPayment s user id (some (a + b))).2 := by
    rw [h2, h12, h1]
    simp only
    rw [hcomp]
  refine ⟨by rw [h1], by rw [h2], hfinal, ?_⟩
  rw [hfinal, h12]
  show s.credit_sales.map (fun x => if x = c then paidUp c (a + b) else x) = _
  apply List.map_congr_left
  intro x _
  by_cases hxc : x = c
  · simp [hxc, paidUp, add_assoc]
  · simp [hxc]

theorem payments_compose_witness :
    (updateCreditPayment (updateCreditPayment sampleStore manager 1 (some 1500)).2 manager 1
      (some 2500)).2 = (updateCreditPayment sampleStore manager 1 (some (1500 + 2500))).2 :=
  (payments_compose sampleStore manager 1 1500 2500 aminaCredit aminaRow
    (by simp [CreditKeyed, sampleStore]) (by simp [SalesKeyed, sampleStore])
    (by simp [sampleStore, aminaCredit]) rfl (by simp [sampleStore, aminaRow]) rfl
    (by simp [branchDenied, manager, aminaRow]) (by norm_num) (by norm_num)).2.2.1

/-! ## Stock drift through a sale edit -/

theorem updateSale_of_row (s : Store) (user : User) (id : Nat) (u : SaleUpdate) (e : Sale)
    (rest : List Sale)
    (hf : s.sales.filter (fun r => r.sale_id = id) = e :: rest)
    (hacc : branchDenied user e.branch_id = false) (hne : u.isEmpty = false) :
    updateSale s user id u =
      (⟨200, "Sale updated successfully"⟩,
        { s with
          sales := s.sales.map fun r => if r.sale_id = id then applySaleUpdate u r else r }) := by
  simp only [updateSale, hf, hacc, hne]
  simp

theorem addStock_subStock_drift (rows : List Produce) (t1 t2 : ℚ) (pid bid : Nat) :
    addStock (subStock rows t1 pid bid) t2 pid bid =
      rows.map (fun q =>
        if q.produce_id = pid ∧ q.branch_id = bid then
          { q with current_stock := q.current_stock + (t2 - t1) }
        else q) := by
  unfold subStock addStock
  rw [List.map_map]
  apply List.map_congr_left
  intro p _
  by_cases h : p.produce_id = pid ∧ p.branch_id = bid
  · simp only [Function.comp, h, and_self, if_true]
    congr 1
    ring
  · simp only [Function.comp, h, if_false]

theorem map_append_fresh {α : Type} (key : α → Nat) (f : α → α) (l : List α) (a : α)
    (hfresh : ∀ x ∈ l, key x < key a) :
    (l ++ [a]).map (fun x => if key x = key a then f x else x) = l ++ [f a] := by
  rw [List.map_append]
  congr 1
  · conv_rhs => rw [← List.map_id l]
    apply List.map_congr_left
    intro x hx
    have := hfresh x hx
    have hne : ¬ key x = key a := by omega
    simp [hne]
  · simp

/-- C30: in a store whose sale ids are below the next insert id, for a sale
created with tonnage t1 (201) whose tonnage is then set to t2 by a permitted
updateSale (200), a permitted deleteSale (200) adds t2, the stored tonnage,
to the stock: after create, update and delete every produce row of the sale's
(produce_id, branch_id) holds its stock of before the create plus t2 - t1,
every other produce row is unchanged, and the sales and credit_sales tables
are as they were before the create. -/
theorem sale_edit_drift (s : Store) (creator editor deleter : User) (body : SaleBody)
    (u : SaleUpdate) (t2 : ℚ)
    (hfresh : SalesFresh s)
    (hok : (createSale s creator body).1.status = 201)
    (hu : u.tonnage = some t2)
    (hed : branchDenied editor body.branch_id = false)
    (hdel : branchDenied deleter body.branch_id = false) :
    (updateSale (createSale s creator body).2 editor s.next_sale_id u).1.status = 200 ∧
    (deleteSale (updateSale (createSale s creator body).2 editor s.next_sale_id u).2 deleter
      s.next_sale_id).1.status = 200 ∧
    (deleteSale (updateSale (createSale s creator body).2 editor s.next_sale_id u).2 deleter
      s.next_sale_id).2.produce =
      addStock (updateSale (createSale s creator body).2 editor s.next_sale_id u).2.produce
        t2 body.produce_id body.branch_id ∧
    (deleteSale (updateSale (createSale s creator body).2 editor s.next_sale_id u).2 deleter
      s.next_sale_id).2.produce =
      s.produce.map (fun q =>
        if q.produce_id = body.produce_id ∧ q.branch_id = body.branch_id then
          { q with current_stock := q.current_stock + (t2 - body.tonnage) }
        else q) ∧
    (deleteSale (updateSale (createSale s creator body).2 editor s.next_sale_id u).2 deleter
      s.next_sale_id).2.sales = s.sales ∧
    (deleteSale (updateSale (createSale s creator body).2 editor s.next_sale_id u).2 deleter
      s.next_sale_id).2.credit_sales = s.credit_sales := by
  have hfa := filter_append_fresh (fun r : Sale => r.sale_id) s.sales
    (newSale s creator body) hfresh.1
  have hfc := filter_append_fresh (fun c : CreditSale => c.sale_id) s.credit_sales
    (newCredit s body (body.amount_due.getD 0)) hfresh.2
  have hself : s.credit_sales.filter (fun c => decide (¬ c.sale_id = s.next_sale_id)) =
      s.credit_sales := by
    rw [List.filter_eq_self]
    intro c hc
    have := hfresh.2 c hc
    simp
    omega
  have hne : u.isEmpty = false := by simp [SaleUpdate.isEmpty, hu]
  have hc := createSale_created s creator body hok
  have hup := updateSale_of_row (createSale s creator body).2 editor s.next_sale_id u
    (newSale s creator body) [] (by rw [hc]; exact hfa.1) hed hne
  have hsales2 : (updateSale (createSale s creator body).2 editor s.next_sale_id u).2.sales =
      s.sales ++ [applySaleUpdate u (newSale s creator body)] := by
    rw [hup, hc]
    exact map_append_fresh (fun r : Sale => r.sale_id) (applySaleUpdate u) s.sales
      (newSale s creator body) hfresh.1
  have hfa2 := filter_append_fresh (fun r : Sale => r.sale_id) s.sales
    (applySaleUpdate u (newSale s creator body)) hfresh.1
  have hd := deleteSale_of_row
    (updateSale (createSale s creator body).2 editor s.next_sale_id u).2 deleter
    s.next_sale_id (applySaleUpdate u (newSale s creator body)) []
    (by rw [hsales2]; exact hfa2.1) hdel
  have hton : (applySaleUpdate u (newSale s creator body)).tonnage = t2 := by
    simp [applySaleUpdate, hu]
  have hprod2 : (updateSale (createSale s creator body).2 editor s.next_sale_id u).2.produce =
      subStock s.produce body.tonnage body.produce_id body.branch_id := by
    rw [hup, hc]
  have hcred2 : (updateSale (createSale s creator body).2 editor s.next_sale_id u).2.credit_sales
      = if body.payment_type = "credit" ∧ truthy body.amount_due = true then
          s.credit_sales ++ [newCredit s body (body.amount_due.getD 0)]
        else s.credit_sales := by
    rw [hup, hc]
  have hstock : (deleteSale (updateSale (createSale s creator body).2 editor
      s.next_sale_id u).2 deleter s.next_sale_id).2.produce =
      addStock (updateSale (createSale s creator body).2 editor s.next_sale_id u).2.produce
        t2 body.produce_id body.branch_id := by
    rw [hd]
    show addStock _ (applySaleUpdate u (newSale s creator body)).tonnage _ _ = _
    rw [hton]
    rfl
  refine ⟨by rw [hup], by rw [hd], hstock, ?_, ?_, ?_⟩
  · rw [hstock, hprod2]
    exact addStock_subStock_drift s.produce body.tonnage t2 body.produce_id body.branch_id
  · rw [hd]
    show (updateSale (createSale s creator body).2 editor s.next_sale_id u).2.sales.filter _ = _
    rw [hsales2]
    exact hfa2.2
  · rw [hd]
    show (updateSale (createSale s creator body).2 editor
      s.next_sale_id u).2.credit_sales.filter _ = _
    rw [hcred2]
    by_cases hcr : body.payment_type = "credit" ∧ truthy body.amount_due = true
    · simp only [hcr, and_self, if_true]
      exact hfc.2
    · simp only [hcr, if_false]
      exact hself

theorem sale_edit_drift_witness :
    (deleteSale (updateSale (createSale sampleStore manager sale30).2 manager
      sampleStore.next_sale_id saleTonnage10).2 ceo sampleStore.next_sale_id).2.produce =
      sampleStore.produce.map (fun q =>
        if q.produce_id = sale30.produce_id ∧ q.branch_id = sale30.branch_id then
          { q with current_stock := q.current_stock + (10 - sale30.tonnage) }
        else q) :=
  (sale_edit_drift sampleStore manager manager ceo sale30 saleTonnage10 10
    (by simp [SalesFresh, sampleStore])
    (by norm_num [createSale, sampleStore, manager, sale30, branchDenied])
    rfl (by simp [branchDenied, manager, sale30]) (by simp [branchDenied, ceo])).2.2.2.1

/-! ## Requests with missing keys -/

theorem createSaleRequest_of_present (s : Store) (user : User) (r : SaleRequest)
    (h : r.undefinedBind = none) :
    createSaleRequest s user r = createSale s user r.body := by
  unfold createSaleRequest
  rw [h]
  exact createSaleTx_none s user r.body

theorem createProcurementRequest_of_present (s : Store) (user : User) (r : ProcurementRequest)
    (h : r.undefinedBind = none) :
    createProcurementRequest s user r = createProcurement s user r.body := by
  unfold createProcurementRequest
  rw [h]
  exact createProcurementTx_none s user r.body

/-- C3: the code at a failing input.  On the sample store the manager of
branch 1 asks for a cash sale of 30 tons of maize with every key that
validateSale requires and no buyer_contact: the request passes the branch
check and the maize row of branch 1 holds 70 tons, yet the INSERT is given an
undefined parameter and createSale answers 500 with the store as it was.
With the key present the same request is answered 201.  A credit sale with
amount_due 4000 and no buyer_location key is answered 500 as well. -/
theorem createSale_without_buyer_contact :
    branchDenied manager saleNoContact.branch_id = false ∧
    sampleStore.produce.filter
      (fun p => p.produce_id = saleNoContact.produce_id ∧ p.branch_id = saleNoContact.branch_id) =
        [maizeRow] ∧
    saleNoContact.tonnage ≤ maizeRow.current_stock ∧
    createSaleRequest sampleStore manager saleNoContact =
      (⟨500, "Server error"⟩, sampleStore) ∧
    (createSaleRequest sampleStore manager saleWithContact).1 =
      ⟨201, "Sale recorded successfully"⟩ ∧
    createSaleRequest fullDepot manager creditNoLocation = (⟨500, "Server error"⟩, fullDepot) := by
  refine ⟨?_, ?_, ?_, ?_, ?_, ?_⟩
  · simp [branchDenied, manager, saleNoContact]
  · simp [sampleStore, saleNoContact, maizeRow]
  · norm_num [saleNoContact, maizeRow]
  · have h : SaleRequest.undefinedBind saleNoContact = some 2 := by
      simp [SaleRequest.undefinedBind, saleNoContact]
    unfold createSaleRequest createSaleTx
    rw [h]
    apply execute_fault_inside
    norm_num [Plan.unitLength, createSalePlan, SaleRequest.body, saleNoContact, sampleStore,
      manager, branchDenied, truthy]
  · have h : SaleRequest.undefinedBind saleWithContact = none := by
      simp [SaleRequest.undefinedBind, saleWithContact]
    rw [createSaleRequest_of_present _ _ _ h]
    norm_num [createSale, SaleRequest.body, saleWithContact, sampleStore, manager, branchDenied]
  · have h : SaleRequest.undefinedBind creditNoLocation = some 4 := by
      simp [SaleRequest.undefinedBind, creditNoLocation, truthy]
    unfold createSaleRequest createSaleTx
    rw [h]
    apply execute_fault_inside
    norm_num [Plan.unitLength, createSalePlan, SaleRequest.body, creditNoLocation, fullDepot,
      manager, branchDenied, truthy]

/-- C4: the code at a failing input.  On the sample store the manager of
branch 1 asks for a procurement of 50 tons of maize with every key that
validateProcurement requires and no dealer_contact: the request passes the
branch check and the maize row of branch 1 exists, yet the INSERT is given an
undefined parameter and createProcurement answers 500 with the store as it
was.  With the key present the same request is answered 201. -/
theorem createProcurement_without_dealer_contact :
    branchDenied manager procureNoContact.branch_id = false ∧
    sampleStore.produce.filter
      (fun p => p.produce_id = procureNoContact.produce_id ∧
        p.branch_id = procureNoContact.branch_id) = [maizeRow] ∧
    createProcurementRequest sampleStore manager procureNoContact =
      (⟨500, "Server error"⟩, sampleStore) ∧
    (createProcurementRequest sampleStore manager procureWithContact).1 =
      ⟨201, "Procurement recorded successfully"⟩ := by
  refine ⟨?_, ?_, ?_, ?_⟩
  · simp [branchDenied, manager, procureNoContact]
  · simp [sampleStore, procureNoContact, maizeRow]
  · have h : ProcurementRequest.undefinedBind procureNoContact = some 1 := by
      simp [ProcurementRequest.undefinedBind, procureNoContact]
    unfold createProcurementRequest createProcurementTx
    rw [h]
    apply execute_fault_inside
    norm_num [Plan.unitLength, createProcurementPlan, ProcurementRequest.body, procureNoContact,
      manager, branchDenied]
  · have h : ProcurementRequest.undefinedBind procureWithContact = none := by
      simp [ProcurementRequest.undefinedBind, procureWithContact]
    rw [createProcurementRequest_of_present _ _ _ h]
    norm_num [createProcurement, ProcurementRequest.body, procureWithContact, manager,
      branchDenied]

/-! ## The statement of getCreditStats -/

theorem amount_paid_ambiguous : resolves "amount_paid" = false := by
  simp [resolves, credit_sales_columns, sales_columns]

/-- C20: the code at a failing input.  The statement of getCreditStats names
amount_paid without a table alias where both joined tables have that column,
so for every store, every actor and every branch_id of the query the
controller answers 500 and sends no statistics: no branch filter, the
actor's or the query's, has any effect on what it returns. -/
theorem getCreditStats_answers_500 :
    resolves "amount_paid" = false ∧
    getCreditStats sampleStore manager2 (some 1) = (⟨500, "Server error"⟩, none) ∧
    getCreditStats sampleStore ceo none = (⟨500, "Server error"⟩, none) ∧
    ∀ (s : Store) (user : User) (q : Option Nat),
      getCreditStats s user q = (⟨500, "Server error"⟩, none) := by
  have hall : ∀ (s : Store) (user : User) (q : Option Nat),
      getCreditStats s user q = (⟨500, "Server error"⟩, none) := by
    intro s user q
    unfold getCreditStats
    rw [if_neg]
    simp [amount_paid_ambiguous]
  exact ⟨amount_paid_ambiguous, hall _ _ _, hall _ _ _, hall⟩

/-! ## Two sales at the same time -/

/-- C22: the code at a failing input.  With 100 tons of maize in stock, two
createSale requests of 60 tons each are served at the same time and both read
the stock before either writes: both pass the sufficiency test, both are
answered 201, two sale rows are stored and the stock ends at -20.  Served one
after the other, the first is answered 201 and the second 400 "Insufficient
stock", with 40 tons left. -/
theorem concurrent_sales_overdraw :
    fullDepot.produce = [⟨1, "Maize", "grain", 1, 100⟩] ∧
    (race (manager, sale60) (manager, sale60) fullDepot bothSelectFirst).first_response =
      some ⟨201, "Sale recorded successfully"⟩ ∧
    (race (manager, sale60) (manager, sale60) fullDepot bothSelectFirst).second_response =
      some ⟨201, "Sale recorded successfully"⟩ ∧
    (race (manager, sale60) (manager, sale60) fullDepot bothSelectFirst).store.produce =
      [⟨1, "Maize", "grain", 1, -20⟩] ∧
    (race (manager, sale60) (manager, sale60) fullDepot bothSelectFirst).store.sales =
      [⟨1, 1, "Birungi", "0702", 60, 600, 2, 1, "cash"⟩,
       ⟨2, 1, "Birungi", "0702", 60, 600, 2, 1, "cash"⟩] ∧
    (race (manager, sale60) (manager, sale60) fullDepot oneAfterTheOther).first_response =
      some ⟨201, "Sale recorded successfully"⟩ ∧
    (race (manager, sale60) (manager, sale60) fullDepot oneAfterTheOther).second_response =
      some ⟨400, "Insufficient stock"⟩ ∧
    (race (manager, sale60) (manager, sale60) fullDepot oneAfterTheOther).store.produce =
      [⟨1, "Maize", "grain", 1, 40⟩] := by
  refine ⟨rfl, ?_, ?_, ?_, ?_, ?_, ?_, ?_⟩ <;>
    norm_num [race, Race.move, bothSelectFirst, oneAfterTheOther, execute_none, createSalePlan,
      fullDepot, manager, sale60, branchDenied, truthy, subStock, newSale]

/-! ## The doubles of updateCreditPayment -/

theorem toDouble_of_pos (q : ℚ) (n d m : Nat) (e : Int) (hq : 0 < q)
    (hn : q.num = n) (hd : q.den = d) (h : nearestDouble n d = (m, e)) :
    toDouble q = (m : ℚ) * 2 ^ e := by
  unfold toDouble
  have h0 : q ≠ 0 := ne_of_gt hq
  have h1 : ¬ q < 0 := not_lt.mpr (le_of_lt hq)
  rw [if_neg h0]
  simp only [hn, hd, Int.natAbs_ofNat, h, if_neg h1, one_mul]

theorem toDouble_of_neg (q : ℚ) (n d m : Nat) (e : Int) (hq : q < 0)
    (hn : q.num = -(n : Int)) (hd : q.den = d) (h : nearestDouble n d = (m, e)) :
    toDouble q = -((m : ℚ) * 2 ^ e) := by
  unfold toDouble
  have h0 : q ≠ 0 := ne_of_lt hq
  rw [if_neg h0]
  simp only [hn, hd, Int.natAbs_neg, Int.natAbs_ofNat, h, if_pos hq]
  ring

theorem toDouble_zero : toDouble 0 = 0 := by
  simp [toDouble]

theorem toDouble_7_10 : toDouble (7 / 10) = 6305039478318694 / 2 ^ 53 := by
  rw [toDouble_of_pos (7 / 10) 7 10 6305039478318694 (-53) (by norm_num) (by norm_num)
    (by norm_num) (by decide)]
  norm_num

theorem toDouble_1_10 : toDouble (1 / 10) = 7205759403792794 / 2 ^ 56 := by
  rw [toDouble_of_pos (1 / 10) 1 10 7205759403792794 (-56) (by norm_num) (by norm_num)
    (by norm_num) (by decide)]
  norm_num

theorem toDouble_4_5 : toDouble (4 / 5) = 7205759403792794 / 2 ^ 53 := by
  rw [toDouble_of_pos (4 / 5) 4 5 7205759403792794 (-53) (by norm_num) (by norm_num)
    (by norm_num) (by decide)]
  norm_num

/-- In doubles 0.7 + 0.1 is 0.7999999999999999, one unit in the last place
below the double of 0.8. -/
theorem toDouble_7_10_add_1_10 :
    toDouble (toDouble (7 / 10) + toDouble (1 / 10)) = 7205759403792793 / 2 ^ 53 := by
  rw [toDouble_7_10, toDouble_1_10]
  rw [toDouble_of_pos _ 28823037615171173 (2 ^ 55) 7205759403792793 (-53) (by norm_num)
    (by norm_num) (by norm_num) (by decide)]
  norm_num

theorem toDouble_100 : toDouble 100 = 100 := by
  rw [toDouble_of_pos 100 100 1 7036874417766400 (-46) (by norm_num) (by norm_num)
    (by norm_num) (by decide)]
  norm_num

theorem toDouble_200 : toDouble 200 = 200 := by
  rw [toDouble_of_pos 200 200 1 7036874417766400 (-45) (by norm_num) (by norm_num)
    (by norm_num) (by decide)]
  norm_num

theorem toDouble_95 : toDouble 95 = 95 := by
  rw [toDouble_of_pos 95 95 1 6685030696878080 (-46) (by norm_num) (by norm_num)
    (by norm_num) (by decide)]
  norm_num

theorem toDouble_4000 : toDouble 4000 = 4000 := by
  rw [toDouble_of_pos 4000 4000 1 8796093022208000 (-41) (by norm_num) (by norm_num)
    (by norm_num) (by decide)]
  norm_num

theorem toDouble_neg_5 : toDouble (-5) = -5 := by
  rw [toDouble_of_neg (-5) 5 1 5629499534213120 (-50) (by norm_num) (by norm_num)
    (by norm_num) (by decide)]
  norm_num

theorem toDouble_tiny : toDouble (1 / 10 ^ 20) = 6646139978924579 / 2 ^ 119 := by
  rw [toDouble_of_pos (1 / 10 ^ 20) 1 (10 ^ 20) 6646139978924579 (-119) (by norm_num)
    (by norm_num) (by norm_num) (by decide)]
  norm_num

set_option maxRecDepth 4096

/-- In doubles 100 + 1e-20 is 100. -/
theorem toDouble_100_add_tiny : toDouble (toDouble 100 + toDouble (1 / 10 ^ 20)) = 100 := by
  rw [toDouble_100, toDouble_tiny]
  rw [toDouble_of_pos _ 66461399789245793645196999153996153379
    664613997892457936451903530140172288 7036874417766400 (-46)
    (by norm_num) (by norm_num) (by norm_num) (by decide)]
  norm_num

/-- With exact decimals as the number format and a number (or nothing) as the
amount, `updateCreditPaymentFloat` is `updateCreditPayment`. -/
theorem updateCreditPaymentFloat_exact (s : Store) (user : User) (id : Nat)
    (amount : Option ℚ) :
    updateCreditPaymentFloat (fun q => q) s user id (PaymentAmount.ofNumber amount) =
      updateCreditPayment s user id amount := by
  cases amount with
  | none =>
    simp [updateCreditPaymentFloat, updateCreditPayment, PaymentAmount.ofNumber,
      PaymentAmount.refused, truthy]
  | some x =>
    by_cases hx : x ≤ 0
    · simp [updateCreditPaymentFloat, updateCreditPayment, PaymentAmount.ofNumber,
        PaymentAmount.refused, hx]
    · have h0 : x ≠ 0 := fun h => hx (le_of_eq h)
      simp [updateCreditPaymentFloat, updateCreditPayment, PaymentAmount.ofNumber,
        PaymentAmount.refused, PaymentAmount.parsed, truthy, hx, h0]

theorem updateCreditPaymentFloat_creditDepot (fl : ℚ → ℚ) (due paid : ℚ) (st : String)
    (a : PaymentAmount) (hr : a.refused fl = false) :
    updateCreditPaymentFloat fl (creditDepot due paid st) manager 1 a =
      (⟨200, "Payment recorded successfully"⟩,
        creditDepot due (fl (fl paid + fl a.parsed))
          (if fl (fl paid + fl a.parsed) ≥ fl due then "paid" else "partial")) := by
  simp [updateCreditPaymentFloat, hr, selectCreditWithBranch, creditDepot, branchDenied, manager]

/-- C10: the code at a failing input.  The credit record has amount_due 0.8
and amount_paid 0.7, and the manager of its branch pays 0.1.  The new total
0.7 + 0.1 reaches amount_due, so the status should be "paid", as it is with
exact decimals; in the doubles of the controller 0.7 + 0.1 is
0.7999999999999999, below the double of 0.8, and updateCreditPayment answers
200 and writes the status "partial". -/
theorem payment_reaching_due_left_partial :
    (7 / 10 : ℚ) + 1 / 10 ≥ 4 / 5 ∧
    updateCreditPaymentFloat toDouble (creditDepot (4 / 5) (7 / 10) "partial") manager 1
        (.number (1 / 10)) =
      (⟨200, "Payment recorded successfully"⟩,
        creditDepot (4 / 5) (7205759403792793 / 2 ^ 53) "partial") ∧
    updateCreditPaymentFloat (fun q => q) (creditDepot (4 / 5) (7 / 10) "partial") manager 1
        (.number (1 / 10)) =
      (⟨200, "Payment recorded successfully"⟩, creditDepot (4 / 5) (4 / 5) "paid") := by
  refine ⟨by norm_num, ?_, ?_⟩
  · rw [updateCreditPaymentFloat_creditDepot _ _ _ _ _
      (by simp only [PaymentAmount.refused, toDouble_1_10]; norm_num)]
    simp only [PaymentAmount.parsed, toDouble_7_10_add_1_10, toDouble_4_5]
    norm_num
  · rw [updateCreditPaymentFloat_creditDepot _ _ _ _ _ (by norm_num [PaymentAmount.refused])]
    norm_num [PaymentAmount.parsed]

/-- C12: the code at failing inputs.  A credit sale with amount_due 100 and a
payment of 100 leave the record paid in full.  A further payment whose amount
is the text "-5abc" passes the guard, since the text is not empty and its
comparison with 0 is false, and parseFloat reads -5 from it: the controller
answers 200, amount_paid falls from 100 to 95 and the status goes back from
"paid" to "partial".  And a payment of 1e-20 on a record with 100 paid of 200
is answered 200 and leaves amount_paid at 100, not strictly greater. -/
theorem payment_text_lowers_paid_record :
    run fullDepot [.createSale manager sale40due100, .updateCreditPayment manager 1 (some 100)] =
      creditDepot 100 100 "paid" ∧
    updateCreditPaymentFloat toDouble (creditDepot 100 100 "paid") manager 1 (.text none (-5)) =
      (⟨200, "Payment recorded successfully"⟩, creditDepot 100 95 "partial") ∧
    statusRank "partial" < statusRank "paid" ∧
    updateCreditPaymentFloat toDouble (creditDepot 200 100 "partial") manager 1
        (.number (1 / 10 ^ 20)) =
      (⟨200, "Payment recorded successfully"⟩, creditDepot 200 100 "partial") := by
  refine ⟨?_, ?_, ?_, ?_⟩
  · norm_num [run, step, createSale, fullDepot, manager, sale40due100, branchDenied, subStock,
      newSale, newCredit, truthy, credit_sales_amount_paid_default, updateCreditPayment,
      selectCreditWithBranch, creditDepot]
  · rw [updateCreditPaymentFloat_creditDepot _ _ _ _ _ (by simp [PaymentAmount.refused])]
    simp only [PaymentAmount.parsed, toDouble_100, toDouble_neg_5]
    norm_num [toDouble_95]
  · simp [statusRank]
  · rw [updateCreditPaymentFloat_creditDepot _ _ _ _ _
      (by simp only [PaymentAmount.refused, toDouble_tiny]; norm_num)]
    simp only [PaymentAmount.parsed, toDouble_100_add_tiny, toDouble_200]
    norm_num

/-- A payment whose amount is the text "0x10" on a record with nothing paid:
the comparison with 0 reads 16 and the guard passes, parseFloat reads 0, and
the controller answers 200 and writes the status "partial" with amount_paid
still 0, against the status rule of I4. -/
theorem payment_text_marks_unpaid_record_partial :
    updateCreditPaymentFloat toDouble (creditDepot 4000 0 "pending") manager 1
        (.text (some 16) 0) =
      (⟨200, "Payment recorded successfully"⟩, creditDepot 4000 0 "partial") ∧
    ¬ CreditStatusOK ⟨1, 1, some "CM2", some "Jinja", 4000, 0, some "2027-01-31", "partial"⟩ := by
  refine ⟨?_, ?_⟩
  · rw [updateCreditPaymentFloat_creditDepot _ _ _ _ _
      (by simp only [PaymentAmount.refused,
        toDouble_of_pos 16 16 1 4503599627370496 (-48) (by norm_num) (by norm_num)
          (by norm_num) (by decide)]; norm_num)]
    simp only [PaymentAmount.parsed, toDouble_zero, add_zero, toDouble_4000]
    norm_num
  · intro h
    have := (h.2 (by norm_num)).2 rfl
    simp at this

end Backend
